import Mathlib

/-!
Shallow embedding of `packages/tile-generator/generate.py`, a road-tile SVG
generator.  The Python module builds each SVG document by joining fixed
string fragments with `"\n"`; we model the fragments and the two render
functions as Lean `String` values and functions, and `main`'s file output as
a list of `(filename, content)` pairs in the order the script writes them.
-/

namespace TileGenerator

/-- `TILE_SIZE = 40` from the source. -/
def TILE_SIZE : Nat := 40

/-- `GRID_STROKE = "#cccccc"`. -/
def GRID_STROKE : String := "#cccccc"

/-- `GRID_STROKE_WIDTH = 0.5`; Python's f-string renders this float as the
text `0.5`, which is what we embed (the value is only ever interpolated
into a template). -/
def GRID_STROKE_WIDTH_STR : String := "0.5"

/-- `ROAD_STROKE = "#000000"`. -/
def ROAD_STROKE : String := "#000000"

/-- `ROAD_STROKE_WIDTH = 1`. -/
def ROAD_STROKE_WIDTH : Nat := 1

/-- `PORT_MARKER_COLOR = "#ff0000"`. -/
def PORT_MARKER_COLOR : String := "#ff0000"

/-- `PORT_MARKER_RADIUS = 1`. -/
def PORT_MARKER_RADIUS : Nat := 1

/-- `SVG_HEADER.format(svg_id=svg_id, size=size)`: the XML declaration and
the opening `<svg>` root tag with the interpolated id and size. -/
def SVG_HEADER (svg_id : String) (size : Nat) : String :=
  "<?xml version=\"1.0\" encoding=\"UTF-8\"?>\n<svg id=\"" ++ svg_id ++
  "\" xmlns=\"http://www.w3.org/2000/svg\" width=\"" ++ toString size ++
  "\" height=\"" ++ toString size ++ "\" viewBox=\"0 0 " ++ toString size ++
  " " ++ toString size ++ "\">"

/-- The `GRID_LINES` f-string after interpolation: a comment, then a group
of line elements (stroke `GRID_STROKE`, width `GRID_STROKE_WIDTH`). -/
def GRID_LINES : String :=
  "  <!-- Grid lines -->\n  <g stroke=\"" ++ GRID_STROKE ++
  "\" stroke-width=\"" ++ GRID_STROKE_WIDTH_STR ++ "\" fill=\"none\">\n" ++
  "    <line x1=\"0\" y1=\"0\" x2=\"0\" y2=\"40\"/>\n" ++
  "    <line x1=\"10\" y1=\"0\" x2=\"10\" y2=\"40\"/>\n" ++
  "    <line x1=\"20\" y1=\"0\" x2=\"20\" y2=\"40\"/>\n" ++
  "    <line x1=\"30\" y1=\"0\" x2=\"30\" y2=\"40\"/>\n" ++
  "    <line x1=\"40\" y1=\"0\" x2=\"40\" y2=\"40\"/>\n" ++
  "    <line x1=\"0\" y1=\"0\" x2=\"40\" y2=\"0\"/>\n" ++
  "    <line x1=\"0\" y1=\"10\" x2=\"40\" y2=\"10\"/>\n" ++
  "    <line x1=\"0\" y1=\"20\" x2=\"40\" y2=\"20\"/>\n" ++
  "    <line x1=\"0\" y1=\"30\" x2=\"40\" y2=\"30\"/>\n" ++
  "    <line x1=\"0\" y1=\"40\" x2=\"40\" y2=\"40\"/>\n" ++
  "  </g>"

/-- One `<circle .../>` row of the `PORT_MARKERS` f-string, at center
`(cx, cy)` with radius `PORT_MARKER_RADIUS`. -/
def portCircle (cx cy : Nat) : String :=
  "    <circle cx=\"" ++ toString cx ++ "\" cy=\"" ++ toString cy ++
  "\" r=\"" ++ toString PORT_MARKER_RADIUS ++ "\"/>"

/-- The 12 port-marker centers, in the order the source lists them:
top edge, right edge, bottom edge, left edge. -/
def portCenters : List (Nat × Nat) :=
  [(10, 0), (20, 0), (30, 0),
   (40, 10), (40, 20), (40, 30),
   (10, 40), (20, 40), (30, 40),
   (0, 10), (0, 20), (0, 30)]

/-- The `PORT_MARKERS` f-string after interpolation: a comment, then a group
filled `PORT_MARKER_COLOR` holding the 12 port circles. -/
def PORT_MARKERS : String :=
  "  <!-- Port markers -->\n  <g fill=\"" ++ PORT_MARKER_COLOR ++ "\">\n" ++
  String.intercalate "\n" (portCenters.map fun p => portCircle p.1 p.2) ++
  "\n  </g>"

/-- `SVG_FOOTER = '</svg>'`. -/
def SVG_FOOTER : String := "</svg>"

/-- The `TileData` dataclass: documentation comment and the two path
strings. -/
structure TileData where
  comment : String
  outer_path : String
  inner_path : String
deriving DecidableEq, Repr

/-- `TILE_DEFINITIONS`: the source's ordered dict of the 24 road tiles, kept
in insertion order. -/
def TILE_DEFINITIONS : List (String × TileData) :=
  [("curve-12-12",
    { comment := "Curve: Up(P12) -> Right(P12)",
      outer_path := "M 10 0 L 10 10 C 10 15, 15 20, 20 20 L 40 20",
      inner_path := "M 20 0 L 20 5 C 20 7.5, 22.5 10, 25 10 L 40 10" }),
   ("curve-12-23",
    { comment := "Curve: Up(P12) -> Right(P23)",
      outer_path := "M 10 0 L 10 20 C 10 25, 15 30, 20 30 L 40 30",
      inner_path := "M 20 0 L 20 10 C 20 15, 25 20, 30 20 L 40 20" }),
   ("curve-23-12",
    { comment := "Curve: Up(P23) -> Right(P12)",
      outer_path := "M 20 0 L 20 10 C 20 15, 25 20, 30 20 L 40 20",
      inner_path := "M 30 0 L 30 5 C 30 7.5, 32.5 10, 35 10 L 40 10" }),
   ("curve-23-23",
    { comment := "Curve: Up(P23) -> Right(P23)",
      outer_path := "M 20 0 L 20 20 C 20 25, 25 30, 30 30 L 40 30",
      inner_path := "M 30 0 L 30 15 C 30 17.5, 32.5 20, 35 20 L 40 20" }),
   ("curve-ul-12-12",
    { comment := "Curve: Up(P12) -> Left(P12)",
      outer_path := "M 10 0 L 10 10 C 10 15, 5 20, 0 20 L 0 20",
      inner_path := "M 20 0 L 20 5 C 20 7.5, 17.5 10, 15 10 L 0 10" }),
   ("curve-ul-12-23",
    { comment := "Curve: Up(P12) -> Left(P23)",
      outer_path := "M 10 0 L 10 20 C 10 25, 5 30, 0 30 L 0 30",
      inner_path := "M 20 0 L 20 10 C 20 15, 15 20, 10 20 L 0 20" }),
   ("curve-ul-23-12",
    { comment := "Curve: Up(P23) -> Left(P12)",
      outer_path := "M 20 0 L 20 20 C 20 25, 15 30, 10 30 L 0 30",
      inner_path := "M 30 0 L 30 15 C 30 17.5, 25 20, 20 20 L 0 20" }),
   ("curve-ul-23-23",
    { comment := "Curve: Up(P23) -> Left(P23)",
      outer_path := "M 20 0 L 20 20 C 20 25, 25 30, 30 30 L 0 30",
      inner_path := "M 30 0 L 30 15 C 30 17.5, 32.5 20, 35 20 L 0 20" }),
   ("sharp-12-12",
    { comment := "Sharp: Up(P12) -> Right(P12)",
      outer_path := "M 10 0 L 10 20 L 40 20",
      inner_path := "M 20 0 L 20 10 L 40 10" }),
   ("sharp-12-23",
    { comment := "Sharp: Up(P12) -> Right(P23)",
      outer_path := "M 10 0 L 10 30 L 40 30",
      inner_path := "M 20 0 L 20 20 L 40 20" }),
   ("sharp-23-12",
    { comment := "Sharp: Up(P23) -> Right(P12)",
      outer_path := "M 20 0 L 20 20 L 40 20",
      inner_path := "M 30 0 L 30 10 L 40 10" }),
   ("sharp-23-23",
    { comment := "Sharp: Up(P23) -> Right(P23)",
      outer_path := "M 20 0 L 20 30 L 40 30",
      inner_path := "M 30 0 L 30 20 L 40 20" }),
   ("sharp-ul-12-12",
    { comment := "Sharp: Up(P12) -> Left(P12)",
      outer_path := "M 10 0 L 10 20 L 0 20",
      inner_path := "M 20 0 L 20 10 L 0 10" }),
   ("sharp-ul-12-23",
    { comment := "Sharp: Up(P12) -> Left(P23)",
      outer_path := "M 10 0 L 10 30 L 0 30",
      inner_path := "M 20 0 L 20 20 L 0 20" }),
   ("sharp-ul-23-12",
    { comment := "Sharp: Up(P23) -> Left(P12)",
      outer_path := "M 20 0 L 20 30 L 0 30",
      inner_path := "M 30 0 L 30 10 L 0 10" }),
   ("sharp-ul-23-23",
    { comment := "Sharp: Up(P23) -> Left(P23)",
      outer_path := "M 20 0 L 20 30 L 0 30",
      inner_path := "M 30 0 L 30 20 L 0 20" }),
   ("straight-v-11",
    { comment := "Straight Vertical: Up(P12) -> Down(P12)",
      outer_path := "M 10 0 L 10 40",
      inner_path := "M 20 0 L 20 40" }),
   ("straight-v-22",
    { comment := "Straight Vertical: Up(P23) -> Down(P23)",
      outer_path := "M 20 0 L 20 40",
      inner_path := "M 30 0 L 30 40" }),
   ("straight-v-12",
    { comment := "Straight Vertical: Up(P12) -> Down(P23) (lane shift)",
      outer_path := "M 10 0 C 10 20, 20 20, 20 40",
      inner_path := "M 20 0 C 20 20, 30 20, 30 40" }),
   ("straight-v-21",
    { comment := "Straight Vertical: Up(P23) -> Down(P12) (lane shift)",
      outer_path := "M 20 0 C 20 20, 10 20, 10 40",
      inner_path := "M 30 0 C 30 20, 20 20, 20 40" }),
   ("straight-h-44",
    { comment := "Straight Horizontal: Left(P12) -> Right(P12)",
      outer_path := "M 0 10 L 40 10",
      inner_path := "M 0 20 L 40 20" }),
   ("straight-h-88",
    { comment := "Straight Horizontal: Left(P23) -> Right(P23)",
      outer_path := "M 0 20 L 40 20",
      inner_path := "M 0 30 L 40 30" }),
   ("straight-h-48",
    { comment := "Straight Horizontal: Left(P12) -> Right(P23) (lane shift)",
      outer_path := "M 0 10 C 20 10, 20 20, 40 20",
      inner_path := "M 0 20 C 20 20, 20 30, 40 30" }),
   ("straight-h-84",
    { comment := "Straight Horizontal: Left(P23) -> Right(P12) (lane shift)",
      outer_path := "M 0 20 C 20 20, 20 10, 40 10",
      inner_path := "M 0 30 C 20 30, 20 20, 40 20" })]

/-- The `START_MARKER` literal: arrow flag plus START label. -/
def START_MARKER : String :=
  "  <!-- Start marker -->\n  <g transform=\"translate(20, 14)\">\n" ++
  "    <rect x=\"-6\" y=\"-6\" width=\"1.5\" height=\"16\" fill=\"#555\"/>\n" ++
  "    <path d=\"M -4.5 -6 v 8 L 6 -2 z\" fill=\"#3498db\"/>\n" ++
  "  </g>\n  <g transform=\"translate(20, 32)\">\n" ++
  "    <text x=\"0\" y=\"0\" font-family=\"Arial, sans-serif\" font-size=\"7\" text-anchor=\"middle\" font-weight=\"bold\" fill=\"#3498db\">START</text>\n" ++
  "  </g>"

/-- The `GOAL_MARKER` literal: concentric circles plus GOAL label. -/
def GOAL_MARKER : String :=
  "  <!-- Goal marker -->\n  <g transform=\"translate(20, 14)\">\n" ++
  "    <circle cx=\"0\" cy=\"0\" r=\"8\" fill=\"none\" stroke=\"#e74c3c\" stroke-width=\"1.5\"/>\n" ++
  "    <circle cx=\"0\" cy=\"0\" r=\"4\" fill=\"none\" stroke=\"#e74c3c\" stroke-width=\"1.5\"/>\n" ++
  "    <circle cx=\"0\" cy=\"0\" r=\"1.5\" fill=\"#e74c3c\"/>\n" ++
  "  </g>\n  <g transform=\"translate(20, 32)\">\n" ++
  "    <text x=\"0\" y=\"0\" font-family=\"Arial, sans-serif\" font-size=\"7\" text-anchor=\"middle\" font-weight=\"bold\" fill=\"#e74c3c\">GOAL</text>\n" ++
  "  </g>"

/-- The `road_group` f-string inside `generate_road_svg`: SVG comment, then
a group (stroke `ROAD_STROKE`, width `ROAD_STROKE_WIDTH`, no fill) with the
outer path element followed by the inner path element. -/
def road_group (tile : TileData) : String :=
  "  <!-- " ++ tile.comment ++ " -->\n  <g stroke=\"" ++ ROAD_STROKE ++
  "\" stroke-width=\"" ++ toString ROAD_STROKE_WIDTH ++
  "\" fill=\"none\">\n    <path d=\"" ++ tile.outer_path ++
  "\"/>\n    <path d=\"" ++ tile.inner_path ++ "\"/>\n  </g>"

/-- `generate_road_svg(svg_id, tile)`: `"\n".join` of header, grid lines,
blank, road group, blank, port markers, footer, and a final empty part
(which yields the trailing newline). -/
def generate_road_svg (svg_id : String) (tile : TileData) : String :=
  SVG_HEADER svg_id TILE_SIZE ++ "\n" ++ GRID_LINES ++ "\n" ++ "" ++ "\n" ++
  road_group tile ++ "\n" ++ "" ++ "\n" ++ PORT_MARKERS ++ "\n" ++
  SVG_FOOTER ++ "\n" ++ ""

/-- `generate_marker_svg(svg_id, marker_content)`: `"\n".join` of header,
grid lines, blank, the marker content, footer, and a final empty part.  No
port markers. -/
def generate_marker_svg (svg_id : String) (marker_content : String) : String :=
  SVG_HEADER svg_id TILE_SIZE ++ "\n" ++ GRID_LINES ++ "\n" ++ "" ++ "\n" ++
  marker_content ++ "\n" ++ SVG_FOOTER ++ "\n" ++ ""

/-- The `(filename, content)` pairs `main` passes to `write_svg`, in write
order: one `<id>.svg` per `TILE_DEFINITIONS` entry, then `start.svg` and
`goal.svg`. -/
def mainOutputs : List (String × String) :=
  (TILE_DEFINITIONS.map fun p => (p.1 ++ ".svg", generate_road_svg p.1 p.2))
  ++ [("start.svg", generate_marker_svg "start" START_MARKER),
      ("goal.svg", generate_marker_svg "goal" GOAL_MARKER)]

/-- `total_files = len(TILE_DEFINITIONS) + 2`, the count `main` reports. -/
def total_files : Nat := TILE_DEFINITIONS.length + 2

/-- `runGenerator` models one run of `main` by its observable file output;
the `Unit` argument stands for the (absent) command-line input. -/
def runGenerator (_ : Unit) : List (String × String) := mainOutputs

/-- Number of (possibly overlapping) occurrences of the pattern `pat` at
the positions of `s`. -/
def countFrom (pat : List Char) : List Char → Nat
  | [] => 0
  | c :: rest =>
    (cond (pat.isPrefixOf (c :: rest)) 1 0) + countFrom pat rest

/-- Occurrence count of a pattern string inside a subject string. -/
def countOcc (pat s : String) : Nat := countFrom pat.data s.data

/-- `containsSub pat s` holds when `pat` occurs somewhere in `s`. -/
def containsSub (pat s : String) : Bool := countOcc pat s != 0

/-- `startsWithStr pat s` holds when `s` begins with `pat`. -/
def startsWithStr (pat s : String) : Bool := pat.data.isPrefixOf s.data

/-- The last `n` characters of `s` (all of `s` when it is shorter). -/
def lastChars (n : Nat) (s : String) : List Char :=
  s.data.drop (s.data.length - n)

/-- `endsWithStr pat s` holds when `s` ends with `pat`. -/
def endsWithStr (pat s : String) : Bool :=
  lastChars pat.data.length s == pat.data &&
    Nat.ble pat.data.length s.data.length

/-- The filename minus its final four characters (the `.svg` extension). -/
def stemOf (f : String) : String := ⟨f.data.take (f.data.length - 4)⟩

end TileGenerator

namespace TileGenerator

/-- Character-list equality checked tail-recursively, used to keep kernel
evaluation of long literal comparisons shallow. -/
def eqChars : List Char → List Char → Bool
  | [], [] => true
  | a :: as, b :: bs => cond (a == b) (eqChars as bs) false
  | _, _ => false

theorem eqChars_eq : ∀ {a b : List Char}, eqChars a b = true → a = b := by
  intro a
  induction a with
  | nil =>
    intro b h
    cases b with
    | nil => rfl
    | cons y ys => simp [eqChars] at h
  | cons x xs ih =>
    intro b h
    cases b with
    | nil => simp [eqChars] at h
    | cons y ys =>
      unfold eqChars at h
      cases hxy : x == y with
      | false => rw [hxy] at h; simp at h
      | true =>
        rw [hxy] at h
        simp only [cond] at h
        rw [eq_of_beq hxy, ih h]

theorem eqStr (a b : String) (h : eqChars a.data b.data = true) : a = b :=
  String.ext (eqChars_eq h)

set_option maxRecDepth 100000 in
theorem flatGrid : GRID_LINES = "  <!-- Grid lines -->\n  <g stroke=\"#cccccc\" stroke-width=\"0.5\" fill=\"none\">\n    <line x1=\"0\" y1=\"0\" x2=\"0\" y2=\"40\"/>\n    <line x1=\"10\" y1=\"0\" x2=\"10\" y2=\"40\"/>\n    <line x1=\"20\" y1=\"0\" x2=\"20\" y2=\"40\"/>\n    <line x1=\"30\" y1=\"0\" x2=\"30\" y2=\"40\"/>\n    <line x1=\"40\" y1=\"0\" x2=\"40\" y2=\"40\"/>\n    <line x1=\"0\" y1=\"0\" x2=\"40\" y2=\"0\"/>\n    <line x1=\"0\" y1=\"10\" x2=\"40\" y2=\"10\"/>\n    <line x1=\"0\" y1=\"20\" x2=\"40\" y2=\"20\"/>\n    <line x1=\"0\" y1=\"30\" x2=\"40\" y2=\"30\"/>\n    <line x1=\"0\" y1=\"40\" x2=\"40\" y2=\"40\"/>\n  </g>" :=
  eqStr _ _ (by decide)

set_option maxRecDepth 100000 in
theorem flatPorts : PORT_MARKERS = "  <!-- Port markers -->\n  <g fill=\"#ff0000\">\n    <circle cx=\"10\" cy=\"0\" r=\"1\"/>\n    <circle cx=\"20\" cy=\"0\" r=\"1\"/>\n    <circle cx=\"30\" cy=\"0\" r=\"1\"/>\n    <circle cx=\"40\" cy=\"10\" r=\"1\"/>\n    <circle cx=\"40\" cy=\"20\" r=\"1\"/>\n    <circle cx=\"40\" cy=\"30\" r=\"1\"/>\n    <circle cx=\"10\" cy=\"40\" r=\"1\"/>\n    <circle cx=\"20\" cy=\"40\" r=\"1\"/>\n    <circle cx=\"30\" cy=\"40\" r=\"1\"/>\n    <circle cx=\"0\" cy=\"10\" r=\"1\"/>\n    <circle cx=\"0\" cy=\"20\" r=\"1\"/>\n    <circle cx=\"0\" cy=\"30\" r=\"1\"/>\n  </g>" :=
  eqStr _ _ (by decide)

set_option maxRecDepth 100000 in
theorem flatStart : START_MARKER = "  <!-- Start marker -->\n  <g transform=\"translate(20, 14)\">\n    <rect x=\"-6\" y=\"-6\" width=\"1.5\" height=\"16\" fill=\"#555\"/>\n    <path d=\"M -4.5 -6 v 8 L 6 -2 z\" fill=\"#3498db\"/>\n  </g>\n  <g transform=\"translate(20, 32)\">\n    <text x=\"0\" y=\"0\" font-family=\"Arial, sans-serif\" font-size=\"7\" text-anchor=\"middle\" font-weight=\"bold\" fill=\"#3498db\">START</text>\n  </g>" :=
  eqStr _ _ (by decide)

set_option maxRecDepth 100000 in
theorem flatGoal : GOAL_MARKER = "  <!-- Goal marker -->\n  <g transform=\"translate(20, 14)\">\n    <circle cx=\"0\" cy=\"0\" r=\"8\" fill=\"none\" stroke=\"#e74c3c\" stroke-width=\"1.5\"/>\n    <circle cx=\"0\" cy=\"0\" r=\"4\" fill=\"none\" stroke=\"#e74c3c\" stroke-width=\"1.5\"/>\n    <circle cx=\"0\" cy=\"0\" r=\"1.5\" fill=\"#e74c3c\"/>\n  </g>\n  <g transform=\"translate(20, 32)\">\n    <text x=\"0\" y=\"0\" font-family=\"Arial, sans-serif\" font-size=\"7\" text-anchor=\"middle\" font-weight=\"bold\" fill=\"#e74c3c\">GOAL</text>\n  </g>" :=
  eqStr _ _ (by decide)

set_option maxRecDepth 100000 in
theorem hdrEq_curve_12_12 : SVG_HEADER "curve-12-12" TILE_SIZE = "<?xml version=\"1.0\" encoding=\"UTF-8\"?>\n<svg id=\"curve-12-12\" xmlns=\"http://www.w3.org/2000/svg\" width=\"40\" height=\"40\" viewBox=\"0 0 40 40\">" :=
  eqStr _ _ (by decide)

set_option maxRecDepth 100000 in
theorem rgEq_curve_12_12 : road_group ⟨"Curve: Up(P12) -> Right(P12)", "M 10 0 L 10 10 C 10 15, 15 20, 20 20 L 40 20", "M 20 0 L 20 5 C 20 7.5, 22.5 10, 25 10 L 40 10"⟩ = "  <!-- Curve: Up(P12) -> Right(P12) -->\n  <g stroke=\"#000000\" stroke-width=\"1\" fill=\"none\">\n    <path d=\"M 10 0 L 10 10 C 10 15, 15 20, 20 20 L 40 20\"/>\n    <path d=\"M 20 0 L 20 5 C 20 7.5, 22.5 10, 25 10 L 40 10\"/>\n  </g>" :=
  eqStr _ _ (by decide)

theorem docEq_curve_12_12 : generate_road_svg "curve-12-12" ⟨"Curve: Up(P12) -> Right(P12)", "M 10 0 L 10 10 C 10 15, 15 20, 20 20 L 40 20", "M 20 0 L 20 5 C 20 7.5, 22.5 10, 25 10 L 40 10"⟩ =
    "<?xml version=\"1.0\" encoding=\"UTF-8\"?>\n<svg id=\"curve-12-12\" xmlns=\"http://www.w3.org/2000/svg\" width=\"40\" height=\"40\" viewBox=\"0 0 40 40\">" ++ "\n" ++ "  <!-- Grid lines -->\n  <g stroke=\"#cccccc\" stroke-width=\"0.5\" fill=\"none\">\n    <line x1=\"0\" y1=\"0\" x2=\"0\" y2=\"40\"/>\n    <line x1=\"10\" y1=\"0\" x2=\"10\" y2=\"40\"/>\n    <line x1=\"20\" y1=\"0\" x2=\"20\" y2=\"40\"/>\n    <line x1=\"30\" y1=\"0\" x2=\"30\" y2=\"40\"/>\n    <line x1=\"40\" y1=\"0\" x2=\"40\" y2=\"40\"/>\n    <line x1=\"0\" y1=\"0\" x2=\"40\" y2=\"0\"/>\n    <line x1=\"0\" y1=\"10\" x2=\"40\" y2=\"10\"/>\n    <line x1=\"0\" y1=\"20\" x2=\"40\" y2=\"20\"/>\n    <line x1=\"0\" y1=\"30\" x2=\"40\" y2=\"30\"/>\n    <line x1=\"0\" y1=\"40\" x2=\"40\" y2=\"40\"/>\n  </g>" ++ "\n" ++ "" ++ "\n" ++ "  <!-- Curve: Up(P12) -> Right(P12) -->\n  <g stroke=\"#000000\" stroke-width=\"1\" fill=\"none\">\n    <path d=\"M 10 0 L 10 10 C 10 15, 15 20, 20 20 L 40 20\"/>\n    <path d=\"M 20 0 L 20 5 C 20 7.5, 22.5 10, 25 10 L 40 10\"/>\n  </g>" ++ "\n" ++ "" ++ "\n" ++ "  <!-- Port markers -->\n  <g fill=\"#ff0000\">\n    <circle cx=\"10\" cy=\"0\" r=\"1\"/>\n    <circle cx=\"20\" cy=\"0\" r=\"1\"/>\n    <circle cx=\"30\" cy=\"0\" r=\"1\"/>\n    <circle cx=\"40\" cy=\"10\" r=\"1\"/>\n    <circle cx=\"40\" cy=\"20\" r=\"1\"/>\n    <circle cx=\"40\" cy=\"30\" r=\"1\"/>\n    <circle cx=\"10\" cy=\"40\" r=\"1\"/>\n    <circle cx=\"20\" cy=\"40\" r=\"1\"/>\n    <circle cx=\"30\" cy=\"40\" r=\"1\"/>\n    <circle cx=\"0\" cy=\"10\" r=\"1\"/>\n    <circle cx=\"0\" cy=\"20\" r=\"1\"/>\n    <circle cx=\"0\" cy=\"30\" r=\"1\"/>\n  </g>" ++ "\n" ++ "</svg>" ++ "\n" ++ "" := by
  simp only [generate_road_svg, SVG_FOOTER, flatGrid, flatPorts, hdrEq_curve_12_12, rgEq_curve_12_12]

set_option maxRecDepth 100000 in
theorem lineCnt_curve_12_12 : countOcc "<line" (generate_road_svg "curve-12-12" ⟨"Curve: Up(P12) -> Right(P12)", "M 10 0 L 10 10 C 10 15, 15 20, 20 20 L 40 20", "M 20 0 L 20 5 C 20 7.5, 22.5 10, 25 10 L 40 10"⟩) = 10 := by
  rw [docEq_curve_12_12]; decide

set_option maxRecDepth 100000 in
theorem pathCnt_curve_12_12 : countOcc "<path" (generate_road_svg "curve-12-12" ⟨"Curve: Up(P12) -> Right(P12)", "M 10 0 L 10 10 C 10 15, 15 20, 20 20 L 40 20", "M 20 0 L 20 5 C 20 7.5, 22.5 10, 25 10 L 40 10"⟩) = 2 := by
  rw [docEq_curve_12_12]; decide

set_option maxRecDepth 100000 in
theorem circCnt_curve_12_12 : countOcc "<circle" (generate_road_svg "curve-12-12" ⟨"Curve: Up(P12) -> Right(P12)", "M 10 0 L 10 10 C 10 15, 15 20, 20 20 L 40 20", "M 20 0 L 20 5 C 20 7.5, 22.5 10, 25 10 L 40 10"⟩) = 12 := by
  rw [docEq_curve_12_12]; decide

set_option maxRecDepth 100000 in
theorem tailA_curve_12_12 : endsWithStr "</svg>\n" (generate_road_svg "curve-12-12" ⟨"Curve: Up(P12) -> Right(P12)", "M 10 0 L 10 10 C 10 15, 15 20, 20 20 L 40 20", "M 20 0 L 20 5 C 20 7.5, 22.5 10, 25 10 L 40 10"⟩) = true := by
  rw [docEq_curve_12_12]; decide

set_option maxRecDepth 100000 in
theorem tailB_curve_12_12 : endsWithStr "\n\n" (generate_road_svg "curve-12-12" ⟨"Curve: Up(P12) -> Right(P12)", "M 10 0 L 10 10 C 10 15, 15 20, 20 20 L 40 20", "M 20 0 L 20 5 C 20 7.5, 22.5 10, 25 10 L 40 10"⟩) = false := by
  rw [docEq_curve_12_12]; decide

set_option maxRecDepth 100000 in
theorem hdrEq_curve_12_23 : SVG_HEADER "curve-12-23" TILE_SIZE = "<?xml version=\"1.0\" encoding=\"UTF-8\"?>\n<svg id=\"curve-12-23\" xmlns=\"http://www.w3.org/2000/svg\" width=\"40\" height=\"40\" viewBox=\"0 0 40 40\">" :=
  eqStr _ _ (by decide)

set_option maxRecDepth 100000 in
theorem rgEq_curve_12_23 : road_group ⟨"Curve: Up(P12) -> Right(P23)", "M 10 0 L 10 20 C 10 25, 15 30, 20 30 L 40 30", "M 20 0 L 20 10 C 20 15, 25 20, 30 20 L 40 20"⟩ = "  <!-- Curve: Up(P12) -> Right(P23) -->\n  <g stroke=\"#000000\" stroke-width=\"1\" fill=\"none\">\n    <path d=\"M 10 0 L 10 20 C 10 25, 15 30, 20 30 L 40 30\"/>\n    <path d=\"M 20 0 L 20 10 C 20 15, 25 20, 30 20 L 40 20\"/>\n  </g>" :=
  eqStr _ _ (by decide)

theorem docEq_curve_12_23 : generate_road_svg "curve-12-23" ⟨"Curve: Up(P12) -> Right(P23)", "M 10 0 L 10 20 C 10 25, 15 30, 20 30 L 40 30", "M 20 0 L 20 10 C 20 15, 25 20, 30 20 L 40 20"⟩ =
    "<?xml version=\"1.0\" encoding=\"UTF-8\"?>\n<svg id=\"curve-12-23\" xmlns=\"http://www.w3.org/2000/svg\" width=\"40\" height=\"40\" viewBox=\"0 0 40 40\">" ++ "\n" ++ "  <!-- Grid lines -->\n  <g stroke=\"#cccccc\" stroke-width=\"0.5\" fill=\"none\">\n    <line x1=\"0\" y1=\"0\" x2=\"0\" y2=\"40\"/>\n    <line x1=\"10\" y1=\"0\" x2=\"10\" y2=\"40\"/>\n    <line x1=\"20\" y1=\"0\" x2=\"20\" y2=\"40\"/>\n    <line x1=\"30\" y1=\"0\" x2=\"30\" y2=\"40\"/>\n    <line x1=\"40\" y1=\"0\" x2=\"40\" y2=\"40\"/>\n    <line x1=\"0\" y1=\"0\" x2=\"40\" y2=\"0\"/>\n    <line x1=\"0\" y1=\"10\" x2=\"40\" y2=\"10\"/>\n    <line x1=\"0\" y1=\"20\" x2=\"40\" y2=\"20\"/>\n    <line x1=\"0\" y1=\"30\" x2=\"40\" y2=\"30\"/>\n    <line x1=\"0\" y1=\"40\" x2=\"40\" y2=\"40\"/>\n  </g>" ++ "\n" ++ "" ++ "\n" ++ "  <!-- Curve: Up(P12) -> Right(P23) -->\n  <g stroke=\"#000000\" stroke-width=\"1\" fill=\"none\">\n    <path d=\"M 10 0 L 10 20 C 10 25, 15 30, 20 30 L 40 30\"/>\n    <path d=\"M 20 0 L 20 10 C 20 15, 25 20, 30 20 L 40 20\"/>\n  </g>" ++ "\n" ++ "" ++ "\n" ++ "  <!-- Port markers -->\n  <g fill=\"#ff0000\">\n    <circle cx=\"10\" cy=\"0\" r=\"1\"/>\n    <circle cx=\"20\" cy=\"0\" r=\"1\"/>\n    <circle cx=\"30\" cy=\"0\" r=\"1\"/>\n    <circle cx=\"40\" cy=\"10\" r=\"1\"/>\n    <circle cx=\"40\" cy=\"20\" r=\"1\"/>\n    <circle cx=\"40\" cy=\"30\" r=\"1\"/>\n    <circle cx=\"10\" cy=\"40\" r=\"1\"/>\n    <circle cx=\"20\" cy=\"40\" r=\"1\"/>\n    <circle cx=\"30\" cy=\"40\" r=\"1\"/>\n    <circle cx=\"0\" cy=\"10\" r=\"1\"/>\n    <circle cx=\"0\" cy=\"20\" r=\"1\"/>\n    <circle cx=\"0\" cy=\"30\" r=\"1\"/>\n  </g>" ++ "\n" ++ "</svg>" ++ "\n" ++ "" := by
  simp only [generate_road_svg, SVG_FOOTER, flatGrid, flatPorts, hdrEq_curve_12_23, rgEq_curve_12_23]

set_option maxRecDepth 100000 in
theorem lineCnt_curve_12_23 : countOcc "<line" (generate_road_svg "curve-12-23" ⟨"Curve: Up(P12) -> Right(P23)", "M 10 0 L 10 20 C 10 25, 15 30, 20 30 L 40 30", "M 20 0 L 20 10 C 20 15, 25 20, 30 20 L 40 20"⟩) = 10 := by
  rw [docEq_curve_12_23]; decide

set_option maxRecDepth 100000 in
theorem pathCnt_curve_12_23 : countOcc "<path" (generate_road_svg "curve-12-23" ⟨"Curve: Up(P12) -> Right(P23)", "M 10 0 L 10 20 C 10 25, 15 30, 20 30 L 40 30", "M 20 0 L 20 10 C 20 15, 25 20, 30 20 L 40 20"⟩) = 2 := by
  rw [docEq_curve_12_23]; decide

set_option maxRecDepth 100000 in
theorem circCnt_curve_12_23 : countOcc "<circle" (generate_road_svg "curve-12-23" ⟨"Curve: Up(P12) -> Right(P23)", "M 10 0 L 10 20 C 10 25, 15 30, 20 30 L 40 30", "M 20 0 L 20 10 C 20 15, 25 20, 30 20 L 40 20"⟩) = 12 := by
  rw [docEq_curve_12_23]; decide

set_option maxRecDepth 100000 in
theorem tailA_curve_12_23 : endsWithStr "</svg>\n" (generate_road_svg "curve-12-23" ⟨"Curve: Up(P12) -> Right(P23)", "M 10 0 L 10 20 C 10 25, 15 30, 20 30 L 40 30", "M 20 0 L 20 10 C 20 15, 25 20, 30 20 L 40 20"⟩) = true := by
  rw [docEq_curve_12_23]; decide

set_option maxRecDepth 100000 in
theorem tailB_curve_12_23 : endsWithStr "\n\n" (generate_road_svg "curve-12-23" ⟨"Curve: Up(P12) -> Right(P23)", "M 10 0 L 10 20 C 10 25, 15 30, 20 30 L 40 30", "M 20 0 L 20 10 C 20 15, 25 20, 30 20 L 40 20"⟩) = false := by
  rw [docEq_curve_12_23]; decide

set_option maxRecDepth 100000 in
theorem hdrEq_curve_23_12 : SVG_HEADER "curve-23-12" TILE_SIZE = "<?xml version=\"1.0\" encoding=\"UTF-8\"?>\n<svg id=\"curve-23-12\" xmlns=\"http://www.w3.org/2000/svg\" width=\"40\" height=\"40\" viewBox=\"0 0 40 40\">" :=
  eqStr _ _ (by decide)

set_option maxRecDepth 100000 in
theorem rgEq_curve_23_12 : road_group ⟨"Curve: Up(P23) -> Right(P12)", "M 20 0 L 20 10 C 20 15, 25 20, 30 20 L 40 20", "M 30 0 L 30 5 C 30 7.5, 32.5 10, 35 10 L 40 10"⟩ = "  <!-- Curve: Up(P23) -> Right(P12) -->\n  <g stroke=\"#000000\" stroke-width=\"1\" fill=\"none\">\n    <path d=\"M 20 0 L 20 10 C 20 15, 25 20, 30 20 L 40 20\"/>\n    <path d=\"M 30 0 L 30 5 C 30 7.5, 32.5 10, 35 10 L 40 10\"/>\n  </g>" :=
  eqStr _ _ (by decide)

theorem docEq_curve_23_12 : generate_road_svg "curve-23-12" ⟨"Curve: Up(P23) -> Right(P12)", "M 20 0 L 20 10 C 20 15, 25 20, 30 20 L 40 20", "M 30 0 L 30 5 C 30 7.5, 32.5 10, 35 10 L 40 10"⟩ =
    "<?xml version=\"1.0\" encoding=\"UTF-8\"?>\n<svg id=\"curve-23-12\" xmlns=\"http://www.w3.org/2000/svg\" width=\"40\" height=\"40\" viewBox=\"0 0 40 40\">" ++ "\n" ++ "  <!-- Grid lines -->\n  <g stroke=\"#cccccc\" stroke-width=\"0.5\" fill=\"none\">\n    <line x1=\"0\" y1=\"0\" x2=\"0\" y2=\"40\"/>\n    <line x1=\"10\" y1=\"0\" x2=\"10\" y2=\"40\"/>\n    <line x1=\"20\" y1=\"0\" x2=\"20\" y2=\"40\"/>\n    <line x1=\"30\" y1=\"0\" x2=\"30\" y2=\"40\"/>\n    <line x1=\"40\" y1=\"0\" x2=\"40\" y2=\"40\"/>\n    <line x1=\"0\" y1=\"0\" x2=\"40\" y2=\"0\"/>\n    <line x1=\"0\" y1=\"10\" x2=\"40\" y2=\"10\"/>\n    <line x1=\"0\" y1=\"20\" x2=\"40\" y2=\"20\"/>\n    <line x1=\"0\" y1=\"30\" x2=\"40\" y2=\"30\"/>\n    <line x1=\"0\" y1=\"40\" x2=\"40\" y2=\"40\"/>\n  </g>" ++ "\n" ++ "" ++ "\n" ++ "  <!-- Curve: Up(P23) -> Right(P12) -->\n  <g stroke=\"#000000\" stroke-width=\"1\" fill=\"none\">\n    <path d=\"M 20 0 L 20 10 C 20 15, 25 20, 30 20 L 40 20\"/>\n    <path d=\"M 30 0 L 30 5 C 30 7.5, 32.5 10, 35 10 L 40 10\"/>\n  </g>" ++ "\n" ++ "" ++ "\n" ++ "  <!-- Port markers -->\n  <g fill=\"#ff0000\">\n    <circle cx=\"10\" cy=\"0\" r=\"1\"/>\n    <circle cx=\"20\" cy=\"0\" r=\"1\"/>\n    <circle cx=\"30\" cy=\"0\" r=\"1\"/>\n    <circle cx=\"40\" cy=\"10\" r=\"1\"/>\n    <circle cx=\"40\" cy=\"20\" r=\"1\"/>\n    <circle cx=\"40\" cy=\"30\" r=\"1\"/>\n    <circle cx=\"10\" cy=\"40\" r=\"1\"/>\n    <circle cx=\"20\" cy=\"40\" r=\"1\"/>\n    <circle cx=\"30\" cy=\"40\" r=\"1\"/>\n    <circle cx=\"0\" cy=\"10\" r=\"1\"/>\n    <circle cx=\"0\" cy=\"20\" r=\"1\"/>\n    <circle cx=\"0\" cy=\"30\" r=\"1\"/>\n  </g>" ++ "\n" ++ "</svg>" ++ "\n" ++ "" := by
  simp only [generate_road_svg, SVG_FOOTER, flatGrid, flatPorts, hdrEq_curve_23_12, rgEq_curve_23_12]

set_option maxRecDepth 100000 in
theorem lineCnt_curve_23_12 : countOcc "<line" (generate_road_svg "curve-23-12" ⟨"Curve: Up(P23) -> Right(P12)", "M 20 0 L 20 10 C 20 15, 25 20, 30 20 L 40 20", "M 30 0 L 30 5 C 30 7.5, 32.5 10, 35 10 L 40 10"⟩) = 10 := by
  rw [docEq_curve_23_12]; decide

set_option maxRecDepth 100000 in
theorem pathCnt_curve_23_12 : countOcc "<path" (generate_road_svg "curve-23-12" ⟨"Curve: Up(P23) -> Right(P12)", "M 20 0 L 20 10 C 20 15, 25 20, 30 20 L 40 20", "M 30 0 L 30 5 C 30 7.5, 32.5 10, 35 10 L 40 10"⟩) = 2 := by
  rw [docEq_curve_23_12]; decide

set_option maxRecDepth 100000 in
theorem circCnt_curve_23_12 : countOcc "<circle" (generate_road_svg "curve-23-12" ⟨"Curve: Up(P23) -> Right(P12)", "M 20 0 L 20 10 C 20 15, 25 20, 30 20 L 40 20", "M 30 0 L 30 5 C 30 7.5, 32.5 10, 35 10 L 40 10"⟩) = 12 := by
  rw [docEq_curve_23_12]; decide

set_option maxRecDepth 100000 in
theorem tailA_curve_23_12 : endsWithStr "</svg>\n" (generate_road_svg "curve-23-12" ⟨"Curve: Up(P23) -> Right(P12)", "M 20 0 L 20 10 C 20 15, 25 20, 30 20 L 40 20", "M 30 0 L 30 5 C 30 7.5, 32.5 10, 35 10 L 40 10"⟩) = true := by
  rw [docEq_curve_23_12]; decide

set_option maxRecDepth 100000 in
theorem tailB_curve_23_12 : endsWithStr "\n\n" (generate_road_svg "curve-23-12" ⟨"Curve: Up(P23) -> Right(P12)", "M 20 0 L 20 10 C 20 15, 25 20, 30 20 L 40 20", "M 30 0 L 30 5 C 30 7.5, 32.5 10, 35 10 L 40 10"⟩) = false := by
  rw [docEq_curve_23_12]; decide

set_option maxRecDepth 100000 in
theorem hdrEq_curve_23_23 : SVG_HEADER "curve-23-23" TILE_SIZE = "<?xml version=\"1.0\" encoding=\"UTF-8\"?>\n<svg id=\"curve-23-23\" xmlns=\"http://www.w3.org/2000/svg\" width=\"40\" height=\"40\" viewBox=\"0 0 40 40\">" :=
  eqStr _ _ (by decide)

set_option maxRecDepth 100000 in
theorem rgEq_curve_23_23 : road_group ⟨"Curve: Up(P23) -> Right(P23)", "M 20 0 L 20 20 C 20 25, 25 30, 30 30 L 40 30", "M 30 0 L 30 15 C 30 17.5, 32.5 20, 35 20 L 40 20"⟩ = "  <!-- Curve: Up(P23) -> Right(P23) -->\n  <g stroke=\"#000000\" stroke-width=\"1\" fill=\"none\">\n    <path d=\"M 20 0 L 20 20 C 20 25, 25 30, 30 30 L 40 30\"/>\n    <path d=\"M 30 0 L 30 15 C 30 17.5, 32.5 20, 35 20 L 40 20\"/>\n  </g>" :=
  eqStr _ _ (by decide)

theorem docEq_curve_23_23 : generate_road_svg "curve-23-23" ⟨"Curve: Up(P23) -> Right(P23)", "M 20 0 L 20 20 C 20 25, 25 30, 30 30 L 40 30", "M 30 0 L 30 15 C 30 17.5, 32.5 20, 35 20 L 40 20"⟩ =
    "<?xml version=\"1.0\" encoding=\"UTF-8\"?>\n<svg id=\"curve-23-23\" xmlns=\"http://www.w3.org/2000/svg\" width=\"40\" height=\"40\" viewBox=\"0 0 40 40\">" ++ "\n" ++ "  <!-- Grid lines -->\n  <g stroke=\"#cccccc\" stroke-width=\"0.5\" fill=\"none\">\n    <line x1=\"0\" y1=\"0\" x2=\"0\" y2=\"40\"/>\n    <line x1=\"10\" y1=\"0\" x2=\"10\" y2=\"40\"/>\n    <line x1=\"20\" y1=\"0\" x2=\"20\" y2=\"40\"/>\n    <line x1=\"30\" y1=\"0\" x2=\"30\" y2=\"40\"/>\n    <line x1=\"40\" y1=\"0\" x2=\"40\" y2=\"40\"/>\n    <line x1=\"0\" y1=\"0\" x2=\"40\" y2=\"0\"/>\n    <line x1=\"0\" y1=\"10\" x2=\"40\" y2=\"10\"/>\n    <line x1=\"0\" y1=\"20\" x2=\"40\" y2=\"20\"/>\n    <line x1=\"0\" y1=\"30\" x2=\"40\" y2=\"30\"/>\n    <line x1=\"0\" y1=\"40\" x2=\"40\" y2=\"40\"/>\n  </g>" ++ "\n" ++ "" ++ "\n" ++ "  <!-- Curve: Up(P23) -> Right(P23) -->\n  <g stroke=\"#000000\" stroke-width=\"1\" fill=\"none\">\n    <path d=\"M 20 0 L 20 20 C 20 25, 25 30, 30 30 L 40 30\"/>\n    <path d=\"M 30 0 L 30 15 C 30 17.5, 32.5 20, 35 20 L 40 20\"/>\n  </g>" ++ "\n" ++ "" ++ "\n" ++ "  <!-- Port markers -->\n  <g fill=\"#ff0000\">\n    <circle cx=\"10\" cy=\"0\" r=\"1\"/>\n    <circle cx=\"20\" cy=\"0\" r=\"1\"/>\n    <circle cx=\"30\" cy=\"0\" r=\"1\"/>\n    <circle cx=\"40\" cy=\"10\" r=\"1\"/>\n    <circle cx=\"40\" cy=\"20\" r=\"1\"/>\n    <circle cx=\"40\" cy=\"30\" r=\"1\"/>\n    <circle cx=\"10\" cy=\"40\" r=\"1\"/>\n    <circle cx=\"20\" cy=\"40\" r=\"1\"/>\n    <circle cx=\"30\" cy=\"40\" r=\"1\"/>\n    <circle cx=\"0\" cy=\"10\" r=\"1\"/>\n    <circle cx=\"0\" cy=\"20\" r=\"1\"/>\n    <circle cx=\"0\" cy=\"30\" r=\"1\"/>\n  </g>" ++ "\n" ++ "</svg>" ++ "\n" ++ "" := by
  simp only [generate_road_svg, SVG_FOOTER, flatGrid, flatPorts, hdrEq_curve_23_23, rgEq_curve_23_23]

set_option maxRecDepth 100000 in
theorem lineCnt_curve_23_23 : countOcc "<line" (generate_road_svg "curve-23-23" ⟨"Curve: Up(P23) -> Right(P23)", "M 20 0 L 20 20 C 20 25, 25 30, 30 30 L 40 30", "M 30 0 L 30 15 C 30 17.5, 32.5 20, 35 20 L 40 20"⟩) = 10 := by
  rw [docEq_curve_23_23]; decide

set_option maxRecDepth 100000 in
theorem pathCnt_curve_23_23 : countOcc "<path" (generate_road_svg "curve-23-23" ⟨"Curve: Up(P23) -> Right(P23)", "M 20 0 L 20 20 C 20 25, 25 30, 30 30 L 40 30", "M 30 0 L 30 15 C 30 17.5, 32.5 20, 35 20 L 40 20"⟩) = 2 := by
  rw [docEq_curve_23_23]; decide

set_option maxRecDepth 100000 in
theorem circCnt_curve_23_23 : countOcc "<circle" (generate_road_svg "curve-23-23" ⟨"Curve: Up(P23) -> Right(P23)", "M 20 0 L 20 20 C 20 25, 25 30, 30 30 L 40 30", "M 30 0 L 30 15 C 30 17.5, 32.5 20, 35 20 L 40 20"⟩) = 12 := by
  rw [docEq_curve_23_23]; decide

set_option maxRecDepth 100000 in
theorem tailA_curve_23_23 : endsWithStr "</svg>\n" (generate_road_svg "curve-23-23" ⟨"Curve: Up(P23) -> Right(P23)", "M 20 0 L 20 20 C 20 25, 25 30, 30 30 L 40 30", "M 30 0 L 30 15 C 30 17.5, 32.5 20, 35 20 L 40 20"⟩) = true := by
  rw [docEq_curve_23_23]; decide

set_option maxRecDepth 100000 in
theorem tailB_curve_23_23 : endsWithStr "\n\n" (generate_road_svg "curve-23-23" ⟨"Curve: Up(P23) -> Right(P23)", "M 20 0 L 20 20 C 20 25, 25 30, 30 30 L 40 30", "M 30 0 L 30 15 C 30 17.5, 32.5 20, 35 20 L 40 20"⟩) = false := by
  rw [docEq_curve_23_23]; decide

set_option maxRecDepth 100000 in
theorem hdrEq_curve_ul_12_12 : SVG_HEADER "curve-ul-12-12" TILE_SIZE = "<?xml version=\"1.0\" encoding=\"UTF-8\"?>\n<svg id=\"curve-ul-12-12\" xmlns=\"http://www.w3.org/2000/svg\" width=\"40\" height=\"40\" viewBox=\"0 0 40 40\">" :=
  eqStr _ _ (by decide)

set_option maxRecDepth 100000 in
theorem rgEq_curve_ul_12_12 : road_group ⟨"Curve: Up(P12) -> Left(P12)", "M 10 0 L 10 10 C 10 15, 5 20, 0 20 L 0 20", "M 20 0 L 20 5 C 20 7.5, 17.5 10, 15 10 L 0 10"⟩ = "  <!-- Curve: Up(P12) -> Left(P12) -->\n  <g stroke=\"#000000\" stroke-width=\"1\" fill=\"none\">\n    <path d=\"M 10 0 L 10 10 C 10 15, 5 20, 0 20 L 0 20\"/>\n    <path d=\"M 20 0 L 20 5 C 20 7.5, 17.5 10, 15 10 L 0 10\"/>\n  </g>" :=
  eqStr _ _ (by decide)

theorem docEq_curve_ul_12_12 : generate_road_svg "curve-ul-12-12" ⟨"Curve: Up(P12) -> Left(P12)", "M 10 0 L 10 10 C 10 15, 5 20, 0 20 L 0 20", "M 20 0 L 20 5 C 20 7.5, 17.5 10, 15 10 L 0 10"⟩ =
    "<?xml version=\"1.0\" encoding=\"UTF-8\"?>\n<svg id=\"curve-ul-12-12\" xmlns=\"http://www.w3.org/2000/svg\" width=\"40\" height=\"40\" viewBox=\"0 0 40 40\">" ++ "\n" ++ "  <!-- Grid lines -->\n  <g stroke=\"#cccccc\" stroke-width=\"0.5\" fill=\"none\">\n    <line x1=\"0\" y1=\"0\" x2=\"0\" y2=\"40\"/>\n    <line x1=\"10\" y1=\"0\" x2=\"10\" y2=\"40\"/>\n    <line x1=\"20\" y1=\"0\" x2=\"20\" y2=\"40\"/>\n    <line x1=\"30\" y1=\"0\" x2=\"30\" y2=\"40\"/>\n    <line x1=\"40\" y1=\"0\" x2=\"40\" y2=\"40\"/>\n    <line x1=\"0\" y1=\"0\" x2=\"40\" y2=\"0\"/>\n    <line x1=\"0\" y1=\"10\" x2=\"40\" y2=\"10\"/>\n    <line x1=\"0\" y1=\"20\" x2=\"40\" y2=\"20\"/>\n    <line x1=\"0\" y1=\"30\" x2=\"40\" y2=\"30\"/>\n    <line x1=\"0\" y1=\"40\" x2=\"40\" y2=\"40\"/>\n  </g>" ++ "\n" ++ "" ++ "\n" ++ "  <!-- Curve: Up(P12) -> Left(P12) -->\n  <g stroke=\"#000000\" stroke-width=\"1\" fill=\"none\">\n    <path d=\"M 10 0 L 10 10 C 10 15, 5 20, 0 20 L 0 20\"/>\n    <path d=\"M 20 0 L 20 5 C 20 7.5, 17.5 10, 15 10 L 0 10\"/>\n  </g>" ++ "\n" ++ "" ++ "\n" ++ "  <!-- Port markers -->\n  <g fill=\"#ff0000\">\n    <circle cx=\"10\" cy=\"0\" r=\"1\"/>\n    <circle cx=\"20\" cy=\"0\" r=\"1\"/>\n    <circle cx=\"30\" cy=\"0\" r=\"1\"/>\n    <circle cx=\"40\" cy=\"10\" r=\"1\"/>\n    <circle cx=\"40\" cy=\"20\" r=\"1\"/>\n    <circle cx=\"40\" cy=\"30\" r=\"1\"/>\n    <circle cx=\"10\" cy=\"40\" r=\"1\"/>\n    <circle cx=\"20\" cy=\"40\" r=\"1\"/>\n    <circle cx=\"30\" cy=\"40\" r=\"1\"/>\n    <circle cx=\"0\" cy=\"10\" r=\"1\"/>\n    <circle cx=\"0\" cy=\"20\" r=\"1\"/>\n    <circle cx=\"0\" cy=\"30\" r=\"1\"/>\n  </g>" ++ "\n" ++ "</svg>" ++ "\n" ++ "" := by
  simp only [generate_road_svg, SVG_FOOTER, flatGrid, flatPorts, hdrEq_curve_ul_12_12, rgEq_curve_ul_12_12]

set_option maxRecDepth 100000 in
theorem lineCnt_curve_ul_12_12 : countOcc "<line" (generate_road_svg "curve-ul-12-12" ⟨"Curve: Up(P12) -> Left(P12)", "M 10 0 L 10 10 C 10 15, 5 20, 0 20 L 0 20", "M 20 0 L 20 5 C 20 7.5, 17.5 10, 15 10 L 0 10"⟩) = 10 := by
  rw [docEq_curve_ul_12_12]; decide

set_option maxRecDepth 100000 in
theorem pathCnt_curve_ul_12_12 : countOcc "<path" (generate_road_svg "curve-ul-12-12" ⟨"Curve: Up(P12) -> Left(P12)", "M 10 0 L 10 10 C 10 15, 5 20, 0 20 L 0 20", "M 20 0 L 20 5 C 20 7.5, 17.5 10, 15 10 L 0 10"⟩) = 2 := by
  rw [docEq_curve_ul_12_12]; decide

set_option maxRecDepth 100000 in
theorem circCnt_curve_ul_12_12 : countOcc "<circle" (generate_road_svg "curve-ul-12-12" ⟨"Curve: Up(P12) -> Left(P12)", "M 10 0 L 10 10 C 10 15, 5 20, 0 20 L 0 20", "M 20 0 L 20 5 C 20 7.5, 17.5 10, 15 10 L 0 10"⟩) = 12 := by
  rw [docEq_curve_ul_12_12]; decide

set_option maxRecDepth 100000 in
theorem tailA_curve_ul_12_12 : endsWithStr "</svg>\n" (generate_road_svg "curve-ul-12-12" ⟨"Curve: Up(P12) -> Left(P12)", "M 10 0 L 10 10 C 10 15, 5 20, 0 20 L 0 20", "M 20 0 L 20 5 C 20 7.5, 17.5 10, 15 10 L 0 10"⟩) = true := by
  rw [docEq_curve_ul_12_12]; decide

set_option maxRecDepth 100000 in
theorem tailB_curve_ul_12_12 : endsWithStr "\n\n" (generate_road_svg "curve-ul-12-12" ⟨"Curve: Up(P12) -> Left(P12)", "M 10 0 L 10 10 C 10 15, 5 20, 0 20 L 0 20", "M 20 0 L 20 5 C 20 7.5, 17.5 10, 15 10 L 0 10"⟩) = false := by
  rw [docEq_curve_ul_12_12]; decide

set_option maxRecDepth 100000 in
theorem hdrEq_curve_ul_12_23 : SVG_HEADER "curve-ul-12-23" TILE_SIZE = "<?xml version=\"1.0\" encoding=\"UTF-8\"?>\n<svg id=\"curve-ul-12-23\" xmlns=\"http://www.w3.org/2000/svg\" width=\"40\" height=\"40\" viewBox=\"0 0 40 40\">" :=
  eqStr _ _ (by decide)

set_option maxRecDepth 100000 in
theorem rgEq_curve_ul_12_23 : road_group ⟨"Curve: Up(P12) -> Left(P23)", "M 10 0 L 10 20 C 10 25, 5 30, 0 30 L 0 30", "M 20 0 L 20 10 C 20 15, 15 20, 10 20 L 0 20"⟩ = "  <!-- Curve: Up(P12) -> Left(P23) -->\n  <g stroke=\"#000000\" stroke-width=\"1\" fill=\"none\">\n    <path d=\"M 10 0 L 10 20 C 10 25, 5 30, 0 30 L 0 30\"/>\n    <path d=\"M 20 0 L 20 10 C 20 15, 15 20, 10 20 L 0 20\"/>\n  </g>" :=
  eqStr _ _ (by decide)

theorem docEq_curve_ul_12_23 : generate_road_svg "curve-ul-12-23" ⟨"Curve: Up(P12) -> Left(P23)", "M 10 0 L 10 20 C 10 25, 5 30, 0 30 L 0 30", "M 20 0 L 20 10 C 20 15, 15 20, 10 20 L 0 20"⟩ =
    "<?xml version=\"1.0\" encoding=\"UTF-8\"?>\n<svg id=\"curve-ul-12-23\" xmlns=\"http://www.w3.org/2000/svg\" width=\"40\" height=\"40\" viewBox=\"0 0 40 40\">" ++ "\n" ++ "  <!-- Grid lines -->\n  <g stroke=\"#cccccc\" stroke-width=\"0.5\" fill=\"none\">\n    <line x1=\"0\" y1=\"0\" x2=\"0\" y2=\"40\"/>\n    <line x1=\"10\" y1=\"0\" x2=\"10\" y2=\"40\"/>\n    <line x1=\"20\" y1=\"0\" x2=\"20\" y2=\"40\"/>\n    <line x1=\"30\" y1=\"0\" x2=\"30\" y2=\"40\"/>\n    <line x1=\"40\" y1=\"0\" x2=\"40\" y2=\"40\"/>\n    <line x1=\"0\" y1=\"0\" x2=\"40\" y2=\"0\"/>\n    <line x1=\"0\" y1=\"10\" x2=\"40\" y2=\"10\"/>\n    <line x1=\"0\" y1=\"20\" x2=\"40\" y2=\"20\"/>\n    <line x1=\"0\" y1=\"30\" x2=\"40\" y2=\"30\"/>\n    <line x1=\"0\" y1=\"40\" x2=\"40\" y2=\"40\"/>\n  </g>" ++ "\n" ++ "" ++ "\n" ++ "  <!-- Curve: Up(P12) -> Left(P23) -->\n  <g stroke=\"#000000\" stroke-width=\"1\" fill=\"none\">\n    <path d=\"M 10 0 L 10 20 C 10 25, 5 30, 0 30 L 0 30\"/>\n    <path d=\"M 20 0 L 20 10 C 20 15, 15 20, 10 20 L 0 20\"/>\n  </g>" ++ "\n" ++ "" ++ "\n" ++ "  <!-- Port markers -->\n  <g fill=\"#ff0000\">\n    <circle cx=\"10\" cy=\"0\" r=\"1\"/>\n    <circle cx=\"20\" cy=\"0\" r=\"1\"/>\n    <circle cx=\"30\" cy=\"0\" r=\"1\"/>\n    <circle cx=\"40\" cy=\"10\" r=\"1\"/>\n    <circle cx=\"40\" cy=\"20\" r=\"1\"/>\n    <circle cx=\"40\" cy=\"30\" r=\"1\"/>\n    <circle cx=\"10\" cy=\"40\" r=\"1\"/>\n    <circle cx=\"20\" cy=\"40\" r=\"1\"/>\n    <circle cx=\"30\" cy=\"40\" r=\"1\"/>\n    <circle cx=\"0\" cy=\"10\" r=\"1\"/>\n    <circle cx=\"0\" cy=\"20\" r=\"1\"/>\n    <circle cx=\"0\" cy=\"30\" r=\"1\"/>\n  </g>" ++ "\n" ++ "</svg>" ++ "\n" ++ "" := by
  simp only [generate_road_svg, SVG_FOOTER, flatGrid, flatPorts, hdrEq_curve_ul_12_23, rgEq_curve_ul_12_23]

set_option maxRecDepth 100000 in
theorem lineCnt_curve_ul_12_23 : countOcc "<line" (generate_road_svg "curve-ul-12-23" ⟨"Curve: Up(P12) -> Left(P23)", "M 10 0 L 10 20 C 10 25, 5 30, 0 30 L 0 30", "M 20 0 L 20 10 C 20 15, 15 20, 10 20 L 0 20"⟩) = 10 := by
  rw [docEq_curve_ul_12_23]; decide

set_option maxRecDepth 100000 in
theorem pathCnt_curve_ul_12_23 : countOcc "<path" (generate_road_svg "curve-ul-12-23" ⟨"Curve: Up(P12) -> Left(P23)", "M 10 0 L 10 20 C 10 25, 5 30, 0 30 L 0 30", "M 20 0 L 20 10 C 20 15, 15 20, 10 20 L 0 20"⟩) = 2 := by
  rw [docEq_curve_ul_12_23]; decide

set_option maxRecDepth 100000 in
theorem circCnt_curve_ul_12_23 : countOcc "<circle" (generate_road_svg "curve-ul-12-23" ⟨"Curve: Up(P12) -> Left(P23)", "M 10 0 L 10 20 C 10 25, 5 30, 0 30 L 0 30", "M 20 0 L 20 10 C 20 15, 15 20, 10 20 L 0 20"⟩) = 12 := by
  rw [docEq_curve_ul_12_23]; decide

set_option maxRecDepth 100000 in
theorem tailA_curve_ul_12_23 : endsWithStr "</svg>\n" (generate_road_svg "curve-ul-12-23" ⟨"Curve: Up(P12) -> Left(P23)", "M 10 0 L 10 20 C 10 25, 5 30, 0 30 L 0 30", "M 20 0 L 20 10 C 20 15, 15 20, 10 20 L 0 20"⟩) = true := by
  rw [docEq_curve_ul_12_23]; decide

set_option maxRecDepth 100000 in
theorem tailB_curve_ul_12_23 : endsWithStr "\n\n" (generate_road_svg "curve-ul-12-23" ⟨"Curve: Up(P12) -> Left(P23)", "M 10 0 L 10 20 C 10 25, 5 30, 0 30 L 0 30", "M 20 0 L 20 10 C 20 15, 15 20, 10 20 L 0 20"⟩) = false := by
  rw [docEq_curve_ul_12_23]; decide

set_option maxRecDepth 100000 in
theorem hdrEq_curve_ul_23_12 : SVG_HEADER "curve-ul-23-12" TILE_SIZE = "<?xml version=\"1.0\" encoding=\"UTF-8\"?>\n<svg id=\"curve-ul-23-12\" xmlns=\"http://www.w3.org/2000/svg\" width=\"40\" height=\"40\" viewBox=\"0 0 40 40\">" :=
  eqStr _ _ (by decide)

set_option maxRecDepth 100000 in
theorem rgEq_curve_ul_23_12 : road_group ⟨"Curve: Up(P23) -> Left(P12)", "M 20 0 L 20 20 C 20 25, 15 30, 10 30 L 0 30", "M 30 0 L 30 15 C 30 17.5, 25 20, 20 20 L 0 20"⟩ = "  <!-- Curve: Up(P23) -> Left(P12) -->\n  <g stroke=\"#000000\" stroke-width=\"1\" fill=\"none\">\n    <path d=\"M 20 0 L 20 20 C 20 25, 15 30, 10 30 L 0 30\"/>\n    <path d=\"M 30 0 L 30 15 C 30 17.5, 25 20, 20 20 L 0 20\"/>\n  </g>" :=
  eqStr _ _ (by decide)

theorem docEq_curve_ul_23_12 : generate_road_svg "curve-ul-23-12" ⟨"Curve: Up(P23) -> Left(P12)", "M 20 0 L 20 20 C 20 25, 15 30, 10 30 L 0 30", "M 30 0 L 30 15 C 30 17.5, 25 20, 20 20 L 0 20"⟩ =
    "<?xml version=\"1.0\" encoding=\"UTF-8\"?>\n<svg id=\"curve-ul-23-12\" xmlns=\"http://www.w3.org/2000/svg\" width=\"40\" height=\"40\" viewBox=\"0 0 40 40\">" ++ "\n" ++ "  <!-- Grid lines -->\n  <g stroke=\"#cccccc\" stroke-width=\"0.5\" fill=\"none\">\n    <line x1=\"0\" y1=\"0\" x2=\"0\" y2=\"40\"/>\n    <line x1=\"10\" y1=\"0\" x2=\"10\" y2=\"40\"/>\n    <line x1=\"20\" y1=\"0\" x2=\"20\" y2=\"40\"/>\n    <line x1=\"30\" y1=\"0\" x2=\"30\" y2=\"40\"/>\n    <line x1=\"40\" y1=\"0\" x2=\"40\" y2=\"40\"/>\n    <line x1=\"0\" y1=\"0\" x2=\"40\" y2=\"0\"/>\n    <line x1=\"0\" y1=\"10\" x2=\"40\" y2=\"10\"/>\n    <line x1=\"0\" y1=\"20\" x2=\"40\" y2=\"20\"/>\n    <line x1=\"0\" y1=\"30\" x2=\"40\" y2=\"30\"/>\n    <line x1=\"0\" y1=\"40\" x2=\"40\" y2=\"40\"/>\n  </g>" ++ "\n" ++ "" ++ "\n" ++ "  <!-- Curve: Up(P23) -> Left(P12) -->\n  <g stroke=\"#000000\" stroke-width=\"1\" fill=\"none\">\n    <path d=\"M 20 0 L 20 20 C 20 25, 15 30, 10 30 L 0 30\"/>\n    <path d=\"M 30 0 L 30 15 C 30 17.5, 25 20, 20 20 L 0 20\"/>\n  </g>" ++ "\n" ++ "" ++ "\n" ++ "  <!-- Port markers -->\n  <g fill=\"#ff0000\">\n    <circle cx=\"10\" cy=\"0\" r=\"1\"/>\n    <circle cx=\"20\" cy=\"0\" r=\"1\"/>\n    <circle cx=\"30\" cy=\"0\" r=\"1\"/>\n    <circle cx=\"40\" cy=\"10\" r=\"1\"/>\n    <circle cx=\"40\" cy=\"20\" r=\"1\"/>\n    <circle cx=\"40\" cy=\"30\" r=\"1\"/>\n    <circle cx=\"10\" cy=\"40\" r=\"1\"/>\n    <circle cx=\"20\" cy=\"40\" r=\"1\"/>\n    <circle cx=\"30\" cy=\"40\" r=\"1\"/>\n    <circle cx=\"0\" cy=\"10\" r=\"1\"/>\n    <circle cx=\"0\" cy=\"20\" r=\"1\"/>\n    <circle cx=\"0\" cy=\"30\" r=\"1\"/>\n  </g>" ++ "\n" ++ "</svg>" ++ "\n" ++ "" := by
  simp only [generate_road_svg, SVG_FOOTER, flatGrid, flatPorts, hdrEq_curve_ul_23_12, rgEq_curve_ul_23_12]

set_option maxRecDepth 100000 in
theorem lineCnt_curve_ul_23_12 : countOcc "<line" (generate_road_svg "curve-ul-23-12" ⟨"Curve: Up(P23) -> Left(P12)", "M 20 0 L 20 20 C 20 25, 15 30, 10 30 L 0 30", "M 30 0 L 30 15 C 30 17.5, 25 20, 20 20 L 0 20"⟩) = 10 := by
  rw [docEq_curve_ul_23_12]; decide

set_option maxRecDepth 100000 in
theorem pathCnt_curve_ul_23_12 : countOcc "<path" (generate_road_svg "curve-ul-23-12" ⟨"Curve: Up(P23) -> Left(P12)", "M 20 0 L 20 20 C 20 25, 15 30, 10 30 L 0 30", "M 30 0 L 30 15 C 30 17.5, 25 20, 20 20 L 0 20"⟩) = 2 := by
  rw [docEq_curve_ul_23_12]; decide

set_option maxRecDepth 100000 in
theorem circCnt_curve_ul_23_12 : countOcc "<circle" (generate_road_svg "curve-ul-23-12" ⟨"Curve: Up(P23) -> Left(P12)", "M 20 0 L 20 20 C 20 25, 15 30, 10 30 L 0 30", "M 30 0 L 30 15 C 30 17.5, 25 20, 20 20 L 0 20"⟩) = 12 := by
  rw [docEq_curve_ul_23_12]; decide

set_option maxRecDepth 100000 in
theorem tailA_curve_ul_23_12 : endsWithStr "</svg>\n" (generate_road_svg "curve-ul-23-12" ⟨"Curve: Up(P23) -> Left(P12)", "M 20 0 L 20 20 C 20 25, 15 30, 10 30 L 0 30", "M 30 0 L 30 15 C 30 17.5, 25 20, 20 20 L 0 20"⟩) = true := by
  rw [docEq_curve_ul_23_12]; decide

set_option maxRecDepth 100000 in
theorem tailB_curve_ul_23_12 : endsWithStr "\n\n" (generate_road_svg "curve-ul-23-12" ⟨"Curve: Up(P23) -> Left(P12)", "M 20 0 L 20 20 C 20 25, 15 30, 10 30 L 0 30", "M 30 0 L 30 15 C 30 17.5, 25 20, 20 20 L 0 20"⟩) = false := by
  rw [docEq_curve_ul_23_12]; decide

set_option maxRecDepth 100000 in
theorem hdrEq_curve_ul_23_23 : SVG_HEADER "curve-ul-23-23" TILE_SIZE = "<?xml version=\"1.0\" encoding=\"UTF-8\"?>\n<svg id=\"curve-ul-23-23\" xmlns=\"http://www.w3.org/2000/svg\" width=\"40\" height=\"40\" viewBox=\"0 0 40 40\">" :=
  eqStr _ _ (by decide)

set_option maxRecDepth 100000 in
theorem rgEq_curve_ul_23_23 : road_group ⟨"Curve: Up(P23) -> Left(P23)", "M 20 0 L 20 20 C 20 25, 25 30, 30 30 L 0 30", "M 30 0 L 30 15 C 30 17.5, 32.5 20, 35 20 L 0 20"⟩ = "  <!-- Curve: Up(P23) -> Left(P23) -->\n  <g stroke=\"#000000\" stroke-width=\"1\" fill=\"none\">\n    <path d=\"M 20 0 L 20 20 C 20 25, 25 30, 30 30 L 0 30\"/>\n    <path d=\"M 30 0 L 30 15 C 30 17.5, 32.5 20, 35 20 L 0 20\"/>\n  </g>" :=
  eqStr _ _ (by decide)

theorem docEq_curve_ul_23_23 : generate_road_svg "curve-ul-23-23" ⟨"Curve: Up(P23) -> Left(P23)", "M 20 0 L 20 20 C 20 25, 25 30, 30 30 L 0 30", "M 30 0 L 30 15 C 30 17.5, 32.5 20, 35 20 L 0 20"⟩ =
    "<?xml version=\"1.0\" encoding=\"UTF-8\"?>\n<svg id=\"curve-ul-23-23\" xmlns=\"http://www.w3.org/2000/svg\" width=\"40\" height=\"40\" viewBox=\"0 0 40 40\">" ++ "\n" ++ "  <!-- Grid lines -->\n  <g stroke=\"#cccccc\" stroke-width=\"0.5\" fill=\"none\">\n    <line x1=\"0\" y1=\"0\" x2=\"0\" y2=\"40\"/>\n    <line x1=\"10\" y1=\"0\" x2=\"10\" y2=\"40\"/>\n    <line x1=\"20\" y1=\"0\" x2=\"20\" y2=\"40\"/>\n    <line x1=\"30\" y1=\"0\" x2=\"30\" y2=\"40\"/>\n    <line x1=\"40\" y1=\"0\" x2=\"40\" y2=\"40\"/>\n    <line x1=\"0\" y1=\"0\" x2=\"40\" y2=\"0\"/>\n    <line x1=\"0\" y1=\"10\" x2=\"40\" y2=\"10\"/>\n    <line x1=\"0\" y1=\"20\" x2=\"40\" y2=\"20\"/>\n    <line x1=\"0\" y1=\"30\" x2=\"40\" y2=\"30\"/>\n    <line x1=\"0\" y1=\"40\" x2=\"40\" y2=\"40\"/>\n  </g>" ++ "\n" ++ "" ++ "\n" ++ "  <!-- Curve: Up(P23) -> Left(P23) -->\n  <g stroke=\"#000000\" stroke-width=\"1\" fill=\"none\">\n    <path d=\"M 20 0 L 20 20 C 20 25, 25 30, 30 30 L 0 30\"/>\n    <path d=\"M 30 0 L 30 15 C 30 17.5, 32.5 20, 35 20 L 0 20\"/>\n  </g>" ++ "\n" ++ "" ++ "\n" ++ "  <!-- Port markers -->\n  <g fill=\"#ff0000\">\n    <circle cx=\"10\" cy=\"0\" r=\"1\"/>\n    <circle cx=\"20\" cy=\"0\" r=\"1\"/>\n    <circle cx=\"30\" cy=\"0\" r=\"1\"/>\n    <circle cx=\"40\" cy=\"10\" r=\"1\"/>\n    <circle cx=\"40\" cy=\"20\" r=\"1\"/>\n    <circle cx=\"40\" cy=\"30\" r=\"1\"/>\n    <circle cx=\"10\" cy=\"40\" r=\"1\"/>\n    <circle cx=\"20\" cy=\"40\" r=\"1\"/>\n    <circle cx=\"30\" cy=\"40\" r=\"1\"/>\n    <circle cx=\"0\" cy=\"10\" r=\"1\"/>\n    <circle cx=\"0\" cy=\"20\" r=\"1\"/>\n    <circle cx=\"0\" cy=\"30\" r=\"1\"/>\n  </g>" ++ "\n" ++ "</svg>" ++ "\n" ++ "" := by
  simp only [generate_road_svg, SVG_FOOTER, flatGrid, flatPorts, hdrEq_curve_ul_23_23, rgEq_curve_ul_23_23]

set_option maxRecDepth 100000 in
theorem lineCnt_curve_ul_23_23 : countOcc "<line" (generate_road_svg "curve-ul-23-23" ⟨"Curve: Up(P23) -> Left(P23)", "M 20 0 L 20 20 C 20 25, 25 30, 30 30 L 0 30", "M 30 0 L 30 15 C 30 17.5, 32.5 20, 35 20 L 0 20"⟩) = 10 := by
  rw [docEq_curve_ul_23_23]; decide

set_option maxRecDepth 100000 in
theorem pathCnt_curve_ul_23_23 : countOcc "<path" (generate_road_svg "curve-ul-23-23" ⟨"Curve: Up(P23) -> Left(P23)", "M 20 0 L 20 20 C 20 25, 25 30, 30 30 L 0 30", "M 30 0 L 30 15 C 30 17.5, 32.5 20, 35 20 L 0 20"⟩) = 2 := by
  rw [docEq_curve_ul_23_23]; decide

set_option maxRecDepth 100000 in
theorem circCnt_curve_ul_23_23 : countOcc "<circle" (generate_road_svg "curve-ul-23-23" ⟨"Curve: Up(P23) -> Left(P23)", "M 20 0 L 20 20 C 20 25, 25 30, 30 30 L 0 30", "M 30 0 L 30 15 C 30 17.5, 32.5 20, 35 20 L 0 20"⟩) = 12 := by
  rw [docEq_curve_ul_23_23]; decide

set_option maxRecDepth 100000 in
theorem tailA_curve_ul_23_23 : endsWithStr "</svg>\n" (generate_road_svg "curve-ul-23-23" ⟨"Curve: Up(P23) -> Left(P23)", "M 20 0 L 20 20 C 20 25, 25 30, 30 30 L 0 30", "M 30 0 L 30 15 C 30 17.5, 32.5 20, 35 20 L 0 20"⟩) = true := by
  rw [docEq_curve_ul_23_23]; decide

set_option maxRecDepth 100000 in
theorem tailB_curve_ul_23_23 : endsWithStr "\n\n" (generate_road_svg "curve-ul-23-23" ⟨"Curve: Up(P23) -> Left(P23)", "M 20 0 L 20 20 C 20 25, 25 30, 30 30 L 0 30", "M 30 0 L 30 15 C 30 17.5, 32.5 20, 35 20 L 0 20"⟩) = false := by
  rw [docEq_curve_ul_23_23]; decide

set_option maxRecDepth 100000 in
theorem hdrEq_sharp_12_12 : SVG_HEADER "sharp-12-12" TILE_SIZE = "<?xml version=\"1.0\" encoding=\"UTF-8\"?>\n<svg id=\"sharp-12-12\" xmlns=\"http://www.w3.org/2000/svg\" width=\"40\" height=\"40\" viewBox=\"0 0 40 40\">" :=
  eqStr _ _ (by decide)

set_option maxRecDepth 100000 in
theorem rgEq_sharp_12_12 : road_group ⟨"Sharp: Up(P12) -> Right(P12)", "M 10 0 L 10 20 L 40 20", "M 20 0 L 20 10 L 40 10"⟩ = "  <!-- Sharp: Up(P12) -> Right(P12) -->\n  <g stroke=\"#000000\" stroke-width=\"1\" fill=\"none\">\n    <path d=\"M 10 0 L 10 20 L 40 20\"/>\n    <path d=\"M 20 0 L 20 10 L 40 10\"/>\n  </g>" :=
  eqStr _ _ (by decide)

theorem docEq_sharp_12_12 : generate_road_svg "sharp-12-12" ⟨"Sharp: Up(P12) -> Right(P12)", "M 10 0 L 10 20 L 40 20", "M 20 0 L 20 10 L 40 10"⟩ =
    "<?xml version=\"1.0\" encoding=\"UTF-8\"?>\n<svg id=\"sharp-12-12\" xmlns=\"http://www.w3.org/2000/svg\" width=\"40\" height=\"40\" viewBox=\"0 0 40 40\">" ++ "\n" ++ "  <!-- Grid lines -->\n  <g stroke=\"#cccccc\" stroke-width=\"0.5\" fill=\"none\">\n    <line x1=\"0\" y1=\"0\" x2=\"0\" y2=\"40\"/>\n    <line x1=\"10\" y1=\"0\" x2=\"10\" y2=\"40\"/>\n    <line x1=\"20\" y1=\"0\" x2=\"20\" y2=\"40\"/>\n    <line x1=\"30\" y1=\"0\" x2=\"30\" y2=\"40\"/>\n    <line x1=\"40\" y1=\"0\" x2=\"40\" y2=\"40\"/>\n    <line x1=\"0\" y1=\"0\" x2=\"40\" y2=\"0\"/>\n    <line x1=\"0\" y1=\"10\" x2=\"40\" y2=\"10\"/>\n    <line x1=\"0\" y1=\"20\" x2=\"40\" y2=\"20\"/>\n    <line x1=\"0\" y1=\"30\" x2=\"40\" y2=\"30\"/>\n    <line x1=\"0\" y1=\"40\" x2=\"40\" y2=\"40\"/>\n  </g>" ++ "\n" ++ "" ++ "\n" ++ "  <!-- Sharp: Up(P12) -> Right(P12) -->\n  <g stroke=\"#000000\" stroke-width=\"1\" fill=\"none\">\n    <path d=\"M 10 0 L 10 20 L 40 20\"/>\n    <path d=\"M 20 0 L 20 10 L 40 10\"/>\n  </g>" ++ "\n" ++ "" ++ "\n" ++ "  <!-- Port markers -->\n  <g fill=\"#ff0000\">\n    <circle cx=\"10\" cy=\"0\" r=\"1\"/>\n    <circle cx=\"20\" cy=\"0\" r=\"1\"/>\n    <circle cx=\"30\" cy=\"0\" r=\"1\"/>\n    <circle cx=\"40\" cy=\"10\" r=\"1\"/>\n    <circle cx=\"40\" cy=\"20\" r=\"1\"/>\n    <circle cx=\"40\" cy=\"30\" r=\"1\"/>\n    <circle cx=\"10\" cy=\"40\" r=\"1\"/>\n    <circle cx=\"20\" cy=\"40\" r=\"1\"/>\n    <circle cx=\"30\" cy=\"40\" r=\"1\"/>\n    <circle cx=\"0\" cy=\"10\" r=\"1\"/>\n    <circle cx=\"0\" cy=\"20\" r=\"1\"/>\n    <circle cx=\"0\" cy=\"30\" r=\"1\"/>\n  </g>" ++ "\n" ++ "</svg>" ++ "\n" ++ "" := by
  simp only [generate_road_svg, SVG_FOOTER, flatGrid, flatPorts, hdrEq_sharp_12_12, rgEq_sharp_12_12]

set_option maxRecDepth 100000 in
theorem lineCnt_sharp_12_12 : countOcc "<line" (generate_road_svg "sharp-12-12" ⟨"Sharp: Up(P12) -> Right(P12)", "M 10 0 L 10 20 L 40 20", "M 20 0 L 20 10 L 40 10"⟩) = 10 := by
  rw [docEq_sharp_12_12]; decide

set_option maxRecDepth 100000 in
theorem pathCnt_sharp_12_12 : countOcc "<path" (generate_road_svg "sharp-12-12" ⟨"Sharp: Up(P12) -> Right(P12)", "M 10 0 L 10 20 L 40 20", "M 20 0 L 20 10 L 40 10"⟩) = 2 := by
  rw [docEq_sharp_12_12]; decide

set_option maxRecDepth 100000 in
theorem circCnt_sharp_12_12 : countOcc "<circle" (generate_road_svg "sharp-12-12" ⟨"Sharp: Up(P12) -> Right(P12)", "M 10 0 L 10 20 L 40 20", "M 20 0 L 20 10 L 40 10"⟩) = 12 := by
  rw [docEq_sharp_12_12]; decide

set_option maxRecDepth 100000 in
theorem tailA_sharp_12_12 : endsWithStr "</svg>\n" (generate_road_svg "sharp-12-12" ⟨"Sharp: Up(P12) -> Right(P12)", "M 10 0 L 10 20 L 40 20", "M 20 0 L 20 10 L 40 10"⟩) = true := by
  rw [docEq_sharp_12_12]; decide

set_option maxRecDepth 100000 in
theorem tailB_sharp_12_12 : endsWithStr "\n\n" (generate_road_svg "sharp-12-12" ⟨"Sharp: Up(P12) -> Right(P12)", "M 10 0 L 10 20 L 40 20", "M 20 0 L 20 10 L 40 10"⟩) = false := by
  rw [docEq_sharp_12_12]; decide

set_option maxRecDepth 100000 in
theorem hdrEq_sharp_12_23 : SVG_HEADER "sharp-12-23" TILE_SIZE = "<?xml version=\"1.0\" encoding=\"UTF-8\"?>\n<svg id=\"sharp-12-23\" xmlns=\"http://www.w3.org/2000/svg\" width=\"40\" height=\"40\" viewBox=\"0 0 40 40\">" :=
  eqStr _ _ (by decide)

set_option maxRecDepth 100000 in
theorem rgEq_sharp_12_23 : road_group ⟨"Sharp: Up(P12) -> Right(P23)", "M 10 0 L 10 30 L 40 30", "M 20 0 L 20 20 L 40 20"⟩ = "  <!-- Sharp: Up(P12) -> Right(P23) -->\n  <g stroke=\"#000000\" stroke-width=\"1\" fill=\"none\">\n    <path d=\"M 10 0 L 10 30 L 40 30\"/>\n    <path d=\"M 20 0 L 20 20 L 40 20\"/>\n  </g>" :=
  eqStr _ _ (by decide)

theorem docEq_sharp_12_23 : generate_road_svg "sharp-12-23" ⟨"Sharp: Up(P12) -> Right(P23)", "M 10 0 L 10 30 L 40 30", "M 20 0 L 20 20 L 40 20"⟩ =
    "<?xml version=\"1.0\" encoding=\"UTF-8\"?>\n<svg id=\"sharp-12-23\" xmlns=\"http://www.w3.org/2000/svg\" width=\"40\" height=\"40\" viewBox=\"0 0 40 40\">" ++ "\n" ++ "  <!-- Grid lines -->\n  <g stroke=\"#cccccc\" stroke-width=\"0.5\" fill=\"none\">\n    <line x1=\"0\" y1=\"0\" x2=\"0\" y2=\"40\"/>\n    <line x1=\"10\" y1=\"0\" x2=\"10\" y2=\"40\"/>\n    <line x1=\"20\" y1=\"0\" x2=\"20\" y2=\"40\"/>\n    <line x1=\"30\" y1=\"0\" x2=\"30\" y2=\"40\"/>\n    <line x1=\"40\" y1=\"0\" x2=\"40\" y2=\"40\"/>\n    <line x1=\"0\" y1=\"0\" x2=\"40\" y2=\"0\"/>\n    <line x1=\"0\" y1=\"10\" x2=\"40\" y2=\"10\"/>\n    <line x1=\"0\" y1=\"20\" x2=\"40\" y2=\"20\"/>\n    <line x1=\"0\" y1=\"30\" x2=\"40\" y2=\"30\"/>\n    <line x1=\"0\" y1=\"40\" x2=\"40\" y2=\"40\"/>\n  </g>" ++ "\n" ++ "" ++ "\n" ++ "  <!-- Sharp: Up(P12) -> Right(P23) -->\n  <g stroke=\"#000000\" stroke-width=\"1\" fill=\"none\">\n    <path d=\"M 10 0 L 10 30 L 40 30\"/>\n    <path d=\"M 20 0 L 20 20 L 40 20\"/>\n  </g>" ++ "\n" ++ "" ++ "\n" ++ "  <!-- Port markers -->\n  <g fill=\"#ff0000\">\n    <circle cx=\"10\" cy=\"0\" r=\"1\"/>\n    <circle cx=\"20\" cy=\"0\" r=\"1\"/>\n    <circle cx=\"30\" cy=\"0\" r=\"1\"/>\n    <circle cx=\"40\" cy=\"10\" r=\"1\"/>\n    <circle cx=\"40\" cy=\"20\" r=\"1\"/>\n    <circle cx=\"40\" cy=\"30\" r=\"1\"/>\n    <circle cx=\"10\" cy=\"40\" r=\"1\"/>\n    <circle cx=\"20\" cy=\"40\" r=\"1\"/>\n    <circle cx=\"30\" cy=\"40\" r=\"1\"/>\n    <circle cx=\"0\" cy=\"10\" r=\"1\"/>\n    <circle cx=\"0\" cy=\"20\" r=\"1\"/>\n    <circle cx=\"0\" cy=\"30\" r=\"1\"/>\n  </g>" ++ "\n" ++ "</svg>" ++ "\n" ++ "" := by
  simp only [generate_road_svg, SVG_FOOTER, flatGrid, flatPorts, hdrEq_sharp_12_23, rgEq_sharp_12_23]

set_option maxRecDepth 100000 in
theorem lineCnt_sharp_12_23 : countOcc "<line" (generate_road_svg "sharp-12-23" ⟨"Sharp: Up(P12) -> Right(P23)", "M 10 0 L 10 30 L 40 30", "M 20 0 L 20 20 L 40 20"⟩) = 10 := by
  rw [docEq_sharp_12_23]; decide

set_option maxRecDepth 100000 in
theorem pathCnt_sharp_12_23 : countOcc "<path" (generate_road_svg "sharp-12-23" ⟨"Sharp: Up(P12) -> Right(P23)", "M 10 0 L 10 30 L 40 30", "M 20 0 L 20 20 L 40 20"⟩) = 2 := by
  rw [docEq_sharp_12_23]; decide

set_option maxRecDepth 100000 in
theorem circCnt_sharp_12_23 : countOcc "<circle" (generate_road_svg "sharp-12-23" ⟨"Sharp: Up(P12) -> Right(P23)", "M 10 0 L 10 30 L 40 30", "M 20 0 L 20 20 L 40 20"⟩) = 12 := by
  rw [docEq_sharp_12_23]; decide

set_option maxRecDepth 100000 in
theorem tailA_sharp_12_23 : endsWithStr "</svg>\n" (generate_road_svg "sharp-12-23" ⟨"Sharp: Up(P12) -> Right(P23)", "M 10 0 L 10 30 L 40 30", "M 20 0 L 20 20 L 40 20"⟩) = true := by
  rw [docEq_sharp_12_23]; decide

set_option maxRecDepth 100000 in
theorem tailB_sharp_12_23 : endsWithStr "\n\n" (generate_road_svg "sharp-12-23" ⟨"Sharp: Up(P12) -> Right(P23)", "M 10 0 L 10 30 L 40 30", "M 20 0 L 20 20 L 40 20"⟩) = false := by
  rw [docEq_sharp_12_23]; decide

set_option maxRecDepth 100000 in
theorem hdrEq_sharp_23_12 : SVG_HEADER "sharp-23-12" TILE_SIZE = "<?xml version=\"1.0\" encoding=\"UTF-8\"?>\n<svg id=\"sharp-23-12\" xmlns=\"http://www.w3.org/2000/svg\" width=\"40\" height=\"40\" viewBox=\"0 0 40 40\">" :=
  eqStr _ _ (by decide)

set_option maxRecDepth 100000 in
theorem rgEq_sharp_23_12 : road_group ⟨"Sharp: Up(P23) -> Right(P12)", "M 20 0 L 20 20 L 40 20", "M 30 0 L 30 10 L 40 10"⟩ = "  <!-- Sharp: Up(P23) -> Right(P12) -->\n  <g stroke=\"#000000\" stroke-width=\"1\" fill=\"none\">\n    <path d=\"M 20 0 L 20 20 L 40 20\"/>\n    <path d=\"M 30 0 L 30 10 L 40 10\"/>\n  </g>" :=
  eqStr _ _ (by decide)

theorem docEq_sharp_23_12 : generate_road_svg "sharp-23-12" ⟨"Sharp: Up(P23) -> Right(P12)", "M 20 0 L 20 20 L 40 20", "M 30 0 L 30 10 L 40 10"⟩ =
    "<?xml version=\"1.0\" encoding=\"UTF-8\"?>\n<svg id=\"sharp-23-12\" xmlns=\"http://www.w3.org/2000/svg\" width=\"40\" height=\"40\" viewBox=\"0 0 40 40\">" ++ "\n" ++ "  <!-- Grid lines -->\n  <g stroke=\"#cccccc\" stroke-width=\"0.5\" fill=\"none\">\n    <line x1=\"0\" y1=\"0\" x2=\"0\" y2=\"40\"/>\n    <line x1=\"10\" y1=\"0\" x2=\"10\" y2=\"40\"/>\n    <line x1=\"20\" y1=\"0\" x2=\"20\" y2=\"40\"/>\n    <line x1=\"30\" y1=\"0\" x2=\"30\" y2=\"40\"/>\n    <line x1=\"40\" y1=\"0\" x2=\"40\" y2=\"40\"/>\n    <line x1=\"0\" y1=\"0\" x2=\"40\" y2=\"0\"/>\n    <line x1=\"0\" y1=\"10\" x2=\"40\" y2=\"10\"/>\n    <line x1=\"0\" y1=\"20\" x2=\"40\" y2=\"20\"/>\n    <line x1=\"0\" y1=\"30\" x2=\"40\" y2=\"30\"/>\n    <line x1=\"0\" y1=\"40\" x2=\"40\" y2=\"40\"/>\n  </g>" ++ "\n" ++ "" ++ "\n" ++ "  <!-- Sharp: Up(P23) -> Right(P12) -->\n  <g stroke=\"#000000\" stroke-width=\"1\" fill=\"none\">\n    <path d=\"M 20 0 L 20 20 L 40 20\"/>\n    <path d=\"M 30 0 L 30 10 L 40 10\"/>\n  </g>" ++ "\n" ++ "" ++ "\n" ++ "  <!-- Port markers -->\n  <g fill=\"#ff0000\">\n    <circle cx=\"10\" cy=\"0\" r=\"1\"/>\n    <circle cx=\"20\" cy=\"0\" r=\"1\"/>\n    <circle cx=\"30\" cy=\"0\" r=\"1\"/>\n    <circle cx=\"40\" cy=\"10\" r=\"1\"/>\n    <circle cx=\"40\" cy=\"20\" r=\"1\"/>\n    <circle cx=\"40\" cy=\"30\" r=\"1\"/>\n    <circle cx=\"10\" cy=\"40\" r=\"1\"/>\n    <circle cx=\"20\" cy=\"40\" r=\"1\"/>\n    <circle cx=\"30\" cy=\"40\" r=\"1\"/>\n    <circle cx=\"0\" cy=\"10\" r=\"1\"/>\n    <circle cx=\"0\" cy=\"20\" r=\"1\"/>\n    <circle cx=\"0\" cy=\"30\" r=\"1\"/>\n  </g>" ++ "\n" ++ "</svg>" ++ "\n" ++ "" := by
  simp only [generate_road_svg, SVG_FOOTER, flatGrid, flatPorts, hdrEq_sharp_23_12, rgEq_sharp_23_12]

set_option maxRecDepth 100000 in
theorem lineCnt_sharp_23_12 : countOcc "<line" (generate_road_svg "sharp-23-12" ⟨"Sharp: Up(P23) -> Right(P12)", "M 20 0 L 20 20 L 40 20", "M 30 0 L 30 10 L 40 10"⟩) = 10 := by
  rw [docEq_sharp_23_12]; decide

set_option maxRecDepth 100000 in
theorem pathCnt_sharp_23_12 : countOcc "<path" (generate_road_svg "sharp-23-12" ⟨"Sharp: Up(P23) -> Right(P12)", "M 20 0 L 20 20 L 40 20", "M 30 0 L 30 10 L 40 10"⟩) = 2 := by
  rw [docEq_sharp_23_12]; decide

set_option maxRecDepth 100000 in
theorem circCnt_sharp_23_12 : countOcc "<circle" (generate_road_svg "sharp-23-12" ⟨"Sharp: Up(P23) -> Right(P12)", "M 20 0 L 20 20 L 40 20", "M 30 0 L 30 10 L 40 10"⟩) = 12 := by
  rw [docEq_sharp_23_12]; decide

set_option maxRecDepth 100000 in
theorem tailA_sharp_23_12 : endsWithStr "</svg>\n" (generate_road_svg "sharp-23-12" ⟨"Sharp: Up(P23) -> Right(P12)", "M 20 0 L 20 20 L 40 20", "M 30 0 L 30 10 L 40 10"⟩) = true := by
  rw [docEq_sharp_23_12]; decide

set_option maxRecDepth 100000 in
theorem tailB_sharp_23_12 : endsWithStr "\n\n" (generate_road_svg "sharp-23-12" ⟨"Sharp: Up(P23) -> Right(P12)", "M 20 0 L 20 20 L 40 20", "M 30 0 L 30 10 L 40 10"⟩) = false := by
  rw [docEq_sharp_23_12]; decide

set_option maxRecDepth 100000 in
theorem hdrEq_sharp_23_23 : SVG_HEADER "sharp-23-23" TILE_SIZE = "<?xml version=\"1.0\" encoding=\"UTF-8\"?>\n<svg id=\"sharp-23-23\" xmlns=\"http://www.w3.org/2000/svg\" width=\"40\" height=\"40\" viewBox=\"0 0 40 40\">" :=
  eqStr _ _ (by decide)

set_option maxRecDepth 100000 in
theorem rgEq_sharp_23_23 : road_group ⟨"Sharp: Up(P23) -> Right(P23)", "M 20 0 L 20 30 L 40 30", "M 30 0 L 30 20 L 40 20"⟩ = "  <!-- Sharp: Up(P23) -> Right(P23) -->\n  <g stroke=\"#000000\" stroke-width=\"1\" fill=\"none\">\n    <path d=\"M 20 0 L 20 30 L 40 30\"/>\n    <path d=\"M 30 0 L 30 20 L 40 20\"/>\n  </g>" :=
  eqStr _ _ (by decide)

theorem docEq_sharp_23_23 : generate_road_svg "sharp-23-23" ⟨"Sharp: Up(P23) -> Right(P23)", "M 20 0 L 20 30 L 40 30", "M 30 0 L 30 20 L 40 20"⟩ =
    "<?xml version=\"1.0\" encoding=\"UTF-8\"?>\n<svg id=\"sharp-23-23\" xmlns=\"http://www.w3.org/2000/svg\" width=\"40\" height=\"40\" viewBox=\"0 0 40 40\">" ++ "\n" ++ "  <!-- Grid lines -->\n  <g stroke=\"#cccccc\" stroke-width=\"0.5\" fill=\"none\">\n    <line x1=\"0\" y1=\"0\" x2=\"0\" y2=\"40\"/>\n    <line x1=\"10\" y1=\"0\" x2=\"10\" y2=\"40\"/>\n    <line x1=\"20\" y1=\"0\" x2=\"20\" y2=\"40\"/>\n    <line x1=\"30\" y1=\"0\" x2=\"30\" y2=\"40\"/>\n    <line x1=\"40\" y1=\"0\" x2=\"40\" y2=\"40\"/>\n    <line x1=\"0\" y1=\"0\" x2=\"40\" y2=\"0\"/>\n    <line x1=\"0\" y1=\"10\" x2=\"40\" y2=\"10\"/>\n    <line x1=\"0\" y1=\"20\" x2=\"40\" y2=\"20\"/>\n    <line x1=\"0\" y1=\"30\" x2=\"40\" y2=\"30\"/>\n    <line x1=\"0\" y1=\"40\" x2=\"40\" y2=\"40\"/>\n  </g>" ++ "\n" ++ "" ++ "\n" ++ "  <!-- Sharp: Up(P23) -> Right(P23) -->\n  <g stroke=\"#000000\" stroke-width=\"1\" fill=\"none\">\n    <path d=\"M 20 0 L 20 30 L 40 30\"/>\n    <path d=\"M 30 0 L 30 20 L 40 20\"/>\n  </g>" ++ "\n" ++ "" ++ "\n" ++ "  <!-- Port markers -->\n  <g fill=\"#ff0000\">\n    <circle cx=\"10\" cy=\"0\" r=\"1\"/>\n    <circle cx=\"20\" cy=\"0\" r=\"1\"/>\n    <circle cx=\"30\" cy=\"0\" r=\"1\"/>\n    <circle cx=\"40\" cy=\"10\" r=\"1\"/>\n    <circle cx=\"40\" cy=\"20\" r=\"1\"/>\n    <circle cx=\"40\" cy=\"30\" r=\"1\"/>\n    <circle cx=\"10\" cy=\"40\" r=\"1\"/>\n    <circle cx=\"20\" cy=\"40\" r=\"1\"/>\n    <circle cx=\"30\" cy=\"40\" r=\"1\"/>\n    <circle cx=\"0\" cy=\"10\" r=\"1\"/>\n    <circle cx=\"0\" cy=\"20\" r=\"1\"/>\n    <circle cx=\"0\" cy=\"30\" r=\"1\"/>\n  </g>" ++ "\n" ++ "</svg>" ++ "\n" ++ "" := by
  simp only [generate_road_svg, SVG_FOOTER, flatGrid, flatPorts, hdrEq_sharp_23_23, rgEq_sharp_23_23]

set_option maxRecDepth 100000 in
theorem lineCnt_sharp_23_23 : countOcc "<line" (generate_road_svg "sharp-23-23" ⟨"Sharp: Up(P23) -> Right(P23)", "M 20 0 L 20 30 L 40 30", "M 30 0 L 30 20 L 40 20"⟩) = 10 := by
  rw [docEq_sharp_23_23]; decide

set_option maxRecDepth 100000 in
theorem pathCnt_sharp_23_23 : countOcc "<path" (generate_road_svg "sharp-23-23" ⟨"Sharp: Up(P23) -> Right(P23)", "M 20 0 L 20 30 L 40 30", "M 30 0 L 30 20 L 40 20"⟩) = 2 := by
  rw [docEq_sharp_23_23]; decide

set_option maxRecDepth 100000 in
theorem circCnt_sharp_23_23 : countOcc "<circle" (generate_road_svg "sharp-23-23" ⟨"Sharp: Up(P23) -> Right(P23)", "M 20 0 L 20 30 L 40 30", "M 30 0 L 30 20 L 40 20"⟩) = 12 := by
  rw [docEq_sharp_23_23]; decide

set_option maxRecDepth 100000 in
theorem tailA_sharp_23_23 : endsWithStr "</svg>\n" (generate_road_svg "sharp-23-23" ⟨"Sharp: Up(P23) -> Right(P23)", "M 20 0 L 20 30 L 40 30", "M 30 0 L 30 20 L 40 20"⟩) = true := by
  rw [docEq_sharp_23_23]; decide

set_option maxRecDepth 100000 in
theorem tailB_sharp_23_23 : endsWithStr "\n\n" (generate_road_svg "sharp-23-23" ⟨"Sharp: Up(P23) -> Right(P23)", "M 20 0 L 20 30 L 40 30", "M 30 0 L 30 20 L 40 20"⟩) = false := by
  rw [docEq_sharp_23_23]; decide

set_option maxRecDepth 100000 in
theorem hdrEq_sharp_ul_12_12 : SVG_HEADER "sharp-ul-12-12" TILE_SIZE = "<?xml version=\"1.0\" encoding=\"UTF-8\"?>\n<svg id=\"sharp-ul-12-12\" xmlns=\"http://www.w3.org/2000/svg\" width=\"40\" height=\"40\" viewBox=\"0 0 40 40\">" :=
  eqStr _ _ (by decide)

set_option maxRecDepth 100000 in
theorem rgEq_sharp_ul_12_12 : road_group ⟨"Sharp: Up(P12) -> Left(P12)", "M 10 0 L 10 20 L 0 20", "M 20 0 L 20 10 L 0 10"⟩ = "  <!-- Sharp: Up(P12) -> Left(P12) -->\n  <g stroke=\"#000000\" stroke-width=\"1\" fill=\"none\">\n    <path d=\"M 10 0 L 10 20 L 0 20\"/>\n    <path d=\"M 20 0 L 20 10 L 0 10\"/>\n  </g>" :=
  eqStr _ _ (by decide)

theorem docEq_sharp_ul_12_12 : generate_road_svg "sharp-ul-12-12" ⟨"Sharp: Up(P12) -> Left(P12)", "M 10 0 L 10 20 L 0 20", "M 20 0 L 20 10 L 0 10"⟩ =
    "<?xml version=\"1.0\" encoding=\"UTF-8\"?>\n<svg id=\"sharp-ul-12-12\" xmlns=\"http://www.w3.org/2000/svg\" width=\"40\" height=\"40\" viewBox=\"0 0 40 40\">" ++ "\n" ++ "  <!-- Grid lines -->\n  <g stroke=\"#cccccc\" stroke-width=\"0.5\" fill=\"none\">\n    <line x1=\"0\" y1=\"0\" x2=\"0\" y2=\"40\"/>\n    <line x1=\"10\" y1=\"0\" x2=\"10\" y2=\"40\"/>\n    <line x1=\"20\" y1=\"0\" x2=\"20\" y2=\"40\"/>\n    <line x1=\"30\" y1=\"0\" x2=\"30\" y2=\"40\"/>\n    <line x1=\"40\" y1=\"0\" x2=\"40\" y2=\"40\"/>\n    <line x1=\"0\" y1=\"0\" x2=\"40\" y2=\"0\"/>\n    <line x1=\"0\" y1=\"10\" x2=\"40\" y2=\"10\"/>\n    <line x1=\"0\" y1=\"20\" x2=\"40\" y2=\"20\"/>\n    <line x1=\"0\" y1=\"30\" x2=\"40\" y2=\"30\"/>\n    <line x1=\"0\" y1=\"40\" x2=\"40\" y2=\"40\"/>\n  </g>" ++ "\n" ++ "" ++ "\n" ++ "  <!-- Sharp: Up(P12) -> Left(P12) -->\n  <g stroke=\"#000000\" stroke-width=\"1\" fill=\"none\">\n    <path d=\"M 10 0 L 10 20 L 0 20\"/>\n    <path d=\"M 20 0 L 20 10 L 0 10\"/>\n  </g>" ++ "\n" ++ "" ++ "\n" ++ "  <!-- Port markers -->\n  <g fill=\"#ff0000\">\n    <circle cx=\"10\" cy=\"0\" r=\"1\"/>\n    <circle cx=\"20\" cy=\"0\" r=\"1\"/>\n    <circle cx=\"30\" cy=\"0\" r=\"1\"/>\n    <circle cx=\"40\" cy=\"10\" r=\"1\"/>\n    <circle cx=\"40\" cy=\"20\" r=\"1\"/>\n    <circle cx=\"40\" cy=\"30\" r=\"1\"/>\n    <circle cx=\"10\" cy=\"40\" r=\"1\"/>\n    <circle cx=\"20\" cy=\"40\" r=\"1\"/>\n    <circle cx=\"30\" cy=\"40\" r=\"1\"/>\n    <circle cx=\"0\" cy=\"10\" r=\"1\"/>\n    <circle cx=\"0\" cy=\"20\" r=\"1\"/>\n    <circle cx=\"0\" cy=\"30\" r=\"1\"/>\n  </g>" ++ "\n" ++ "</svg>" ++ "\n" ++ "" := by
  simp only [generate_road_svg, SVG_FOOTER, flatGrid, flatPorts, hdrEq_sharp_ul_12_12, rgEq_sharp_ul_12_12]

set_option maxRecDepth 100000 in
theorem lineCnt_sharp_ul_12_12 : countOcc "<line" (generate_road_svg "sharp-ul-12-12" ⟨"Sharp: Up(P12) -> Left(P12)", "M 10 0 L 10 20 L 0 20", "M 20 0 L 20 10 L 0 10"⟩) = 10 := by
  rw [docEq_sharp_ul_12_12]; decide

set_option maxRecDepth 100000 in
theorem pathCnt_sharp_ul_12_12 : countOcc "<path" (generate_road_svg "sharp-ul-12-12" ⟨"Sharp: Up(P12) -> Left(P12)", "M 10 0 L 10 20 L 0 20", "M 20 0 L 20 10 L 0 10"⟩) = 2 := by
  rw [docEq_sharp_ul_12_12]; decide

set_option maxRecDepth 100000 in
theorem circCnt_sharp_ul_12_12 : countOcc "<circle" (generate_road_svg "sharp-ul-12-12" ⟨"Sharp: Up(P12) -> Left(P12)", "M 10 0 L 10 20 L 0 20", "M 20 0 L 20 10 L 0 10"⟩) = 12 := by
  rw [docEq_sharp_ul_12_12]; decide

set_option maxRecDepth 100000 in
theorem tailA_sharp_ul_12_12 : endsWithStr "</svg>\n" (generate_road_svg "sharp-ul-12-12" ⟨"Sharp: Up(P12) -> Left(P12)", "M 10 0 L 10 20 L 0 20", "M 20 0 L 20 10 L 0 10"⟩) = true := by
  rw [docEq_sharp_ul_12_12]; decide

set_option maxRecDepth 100000 in
theorem tailB_sharp_ul_12_12 : endsWithStr "\n\n" (generate_road_svg "sharp-ul-12-12" ⟨"Sharp: Up(P12) -> Left(P12)", "M 10 0 L 10 20 L 0 20", "M 20 0 L 20 10 L 0 10"⟩) = false := by
  rw [docEq_sharp_ul_12_12]; decide

set_option maxRecDepth 100000 in
theorem hdrEq_sharp_ul_12_23 : SVG_HEADER "sharp-ul-12-23" TILE_SIZE = "<?xml version=\"1.0\" encoding=\"UTF-8\"?>\n<svg id=\"sharp-ul-12-23\" xmlns=\"http://www.w3.org/2000/svg\" width=\"40\" height=\"40\" viewBox=\"0 0 40 40\">" :=
  eqStr _ _ (by decide)

set_option maxRecDepth 100000 in
theorem rgEq_sharp_ul_12_23 : road_group ⟨"Sharp: Up(P12) -> Left(P23)", "M 10 0 L 10 30 L 0 30", "M 20 0 L 20 20 L 0 20"⟩ = "  <!-- Sharp: Up(P12) -> Left(P23) -->\n  <g stroke=\"#000000\" stroke-width=\"1\" fill=\"none\">\n    <path d=\"M 10 0 L 10 30 L 0 30\"/>\n    <path d=\"M 20 0 L 20 20 L 0 20\"/>\n  </g>" :=
  eqStr _ _ (by decide)

theorem docEq_sharp_ul_12_23 : generate_road_svg "sharp-ul-12-23" ⟨"Sharp: Up(P12) -> Left(P23)", "M 10 0 L 10 30 L 0 30", "M 20 0 L 20 20 L 0 20"⟩ =
    "<?xml version=\"1.0\" encoding=\"UTF-8\"?>\n<svg id=\"sharp-ul-12-23\" xmlns=\"http://www.w3.org/2000/svg\" width=\"40\" height=\"40\" viewBox=\"0 0 40 40\">" ++ "\n" ++ "  <!-- Grid lines -->\n  <g stroke=\"#cccccc\" stroke-width=\"0.5\" fill=\"none\">\n    <line x1=\"0\" y1=\"0\" x2=\"0\" y2=\"40\"/>\n    <line x1=\"10\" y1=\"0\" x2=\"10\" y2=\"40\"/>\n    <line x1=\"20\" y1=\"0\" x2=\"20\" y2=\"40\"/>\n    <line x1=\"30\" y1=\"0\" x2=\"30\" y2=\"40\"/>\n    <line x1=\"40\" y1=\"0\" x2=\"40\" y2=\"40\"/>\n    <line x1=\"0\" y1=\"0\" x2=\"40\" y2=\"0\"/>\n    <line x1=\"0\" y1=\"10\" x2=\"40\" y2=\"10\"/>\n    <line x1=\"0\" y1=\"20\" x2=\"40\" y2=\"20\"/>\n    <line x1=\"0\" y1=\"30\" x2=\"40\" y2=\"30\"/>\n    <line x1=\"0\" y1=\"40\" x2=\"40\" y2=\"40\"/>\n  </g>" ++ "\n" ++ "" ++ "\n" ++ "  <!-- Sharp: Up(P12) -> Left(P23) -->\n  <g stroke=\"#000000\" stroke-width=\"1\" fill=\"none\">\n    <path d=\"M 10 0 L 10 30 L 0 30\"/>\n    <path d=\"M 20 0 L 20 20 L 0 20\"/>\n  </g>" ++ "\n" ++ "" ++ "\n" ++ "  <!-- Port markers -->\n  <g fill=\"#ff0000\">\n    <circle cx=\"10\" cy=\"0\" r=\"1\"/>\n    <circle cx=\"20\" cy=\"0\" r=\"1\"/>\n    <circle cx=\"30\" cy=\"0\" r=\"1\"/>\n    <circle cx=\"40\" cy=\"10\" r=\"1\"/>\n    <circle cx=\"40\" cy=\"20\" r=\"1\"/>\n    <circle cx=\"40\" cy=\"30\" r=\"1\"/>\n    <circle cx=\"10\" cy=\"40\" r=\"1\"/>\n    <circle cx=\"20\" cy=\"40\" r=\"1\"/>\n    <circle cx=\"30\" cy=\"40\" r=\"1\"/>\n    <circle cx=\"0\" cy=\"10\" r=\"1\"/>\n    <circle cx=\"0\" cy=\"20\" r=\"1\"/>\n    <circle cx=\"0\" cy=\"30\" r=\"1\"/>\n  </g>" ++ "\n" ++ "</svg>" ++ "\n" ++ "" := by
  simp only [generate_road_svg, SVG_FOOTER, flatGrid, flatPorts, hdrEq_sharp_ul_12_23, rgEq_sharp_ul_12_23]

set_option maxRecDepth 100000 in
theorem lineCnt_sharp_ul_12_23 : countOcc "<line" (generate_road_svg "sharp-ul-12-23" ⟨"Sharp: Up(P12) -> Left(P23)", "M 10 0 L 10 30 L 0 30", "M 20 0 L 20 20 L 0 20"⟩) = 10 := by
  rw [docEq_sharp_ul_12_23]; decide

set_option maxRecDepth 100000 in
theorem pathCnt_sharp_ul_12_23 : countOcc "<path" (generate_road_svg "sharp-ul-12-23" ⟨"Sharp: Up(P12) -> Left(P23)", "M 10 0 L 10 30 L 0 30", "M 20 0 L 20 20 L 0 20"⟩) = 2 := by
  rw [docEq_sharp_ul_12_23]; decide

set_option maxRecDepth 100000 in
theorem circCnt_sharp_ul_12_23 : countOcc "<circle" (generate_road_svg "sharp-ul-12-23" ⟨"Sharp: Up(P12) -> Left(P23)", "M 10 0 L 10 30 L 0 30", "M 20 0 L 20 20 L 0 20"⟩) = 12 := by
  rw [docEq_sharp_ul_12_23]; decide

set_option maxRecDepth 100000 in
theorem tailA_sharp_ul_12_23 : endsWithStr "</svg>\n" (generate_road_svg "sharp-ul-12-23" ⟨"Sharp: Up(P12) -> Left(P23)", "M 10 0 L 10 30 L 0 30", "M 20 0 L 20 20 L 0 20"⟩) = true := by
  rw [docEq_sharp_ul_12_23]; decide

set_option maxRecDepth 100000 in
theorem tailB_sharp_ul_12_23 : endsWithStr "\n\n" (generate_road_svg "sharp-ul-12-23" ⟨"Sharp: Up(P12) -> Left(P23)", "M 10 0 L 10 30 L 0 30", "M 20 0 L 20 20 L 0 20"⟩) = false := by
  rw [docEq_sharp_ul_12_23]; decide

set_option maxRecDepth 100000 in
theorem hdrEq_sharp_ul_23_12 : SVG_HEADER "sharp-ul-23-12" TILE_SIZE = "<?xml version=\"1.0\" encoding=\"UTF-8\"?>\n<svg id=\"sharp-ul-23-12\" xmlns=\"http://www.w3.org/2000/svg\" width=\"40\" height=\"40\" viewBox=\"0 0 40 40\">" :=
  eqStr _ _ (by decide)

set_option maxRecDepth 100000 in
theorem rgEq_sharp_ul_23_12 : road_group ⟨"Sharp: Up(P23) -> Left(P12)", "M 20 0 L 20 30 L 0 30", "M 30 0 L 30 10 L 0 10"⟩ = "  <!-- Sharp: Up(P23) -> Left(P12) -->\n  <g stroke=\"#000000\" stroke-width=\"1\" fill=\"none\">\n    <path d=\"M 20 0 L 20 30 L 0 30\"/>\n    <path d=\"M 30 0 L 30 10 L 0 10\"/>\n  </g>" :=
  eqStr _ _ (by decide)

theorem docEq_sharp_ul_23_12 : generate_road_svg "sharp-ul-23-12" ⟨"Sharp: Up(P23) -> Left(P12)", "M 20 0 L 20 30 L 0 30", "M 30 0 L 30 10 L 0 10"⟩ =
    "<?xml version=\"1.0\" encoding=\"UTF-8\"?>\n<svg id=\"sharp-ul-23-12\" xmlns=\"http://www.w3.org/2000/svg\" width=\"40\" height=\"40\" viewBox=\"0 0 40 40\">" ++ "\n" ++ "  <!-- Grid lines -->\n  <g stroke=\"#cccccc\" stroke-width=\"0.5\" fill=\"none\">\n    <line x1=\"0\" y1=\"0\" x2=\"0\" y2=\"40\"/>\n    <line x1=\"10\" y1=\"0\" x2=\"10\" y2=\"40\"/>\n    <line x1=\"20\" y1=\"0\" x2=\"20\" y2=\"40\"/>\n    <line x1=\"30\" y1=\"0\" x2=\"30\" y2=\"40\"/>\n    <line x1=\"40\" y1=\"0\" x2=\"40\" y2=\"40\"/>\n    <line x1=\"0\" y1=\"0\" x2=\"40\" y2=\"0\"/>\n    <line x1=\"0\" y1=\"10\" x2=\"40\" y2=\"10\"/>\n    <line x1=\"0\" y1=\"20\" x2=\"40\" y2=\"20\"/>\n    <line x1=\"0\" y1=\"30\" x2=\"40\" y2=\"30\"/>\n    <line x1=\"0\" y1=\"40\" x2=\"40\" y2=\"40\"/>\n  </g>" ++ "\n" ++ "" ++ "\n" ++ "  <!-- Sharp: Up(P23) -> Left(P12) -->\n  <g stroke=\"#000000\" stroke-width=\"1\" fill=\"none\">\n    <path d=\"M 20 0 L 20 30 L 0 30\"/>\n    <path d=\"M 30 0 L 30 10 L 0 10\"/>\n  </g>" ++ "\n" ++ "" ++ "\n" ++ "  <!-- Port markers -->\n  <g fill=\"#ff0000\">\n    <circle cx=\"10\" cy=\"0\" r=\"1\"/>\n    <circle cx=\"20\" cy=\"0\" r=\"1\"/>\n    <circle cx=\"30\" cy=\"0\" r=\"1\"/>\n    <circle cx=\"40\" cy=\"10\" r=\"1\"/>\n    <circle cx=\"40\" cy=\"20\" r=\"1\"/>\n    <circle cx=\"40\" cy=\"30\" r=\"1\"/>\n    <circle cx=\"10\" cy=\"40\" r=\"1\"/>\n    <circle cx=\"20\" cy=\"40\" r=\"1\"/>\n    <circle cx=\"30\" cy=\"40\" r=\"1\"/>\n    <circle cx=\"0\" cy=\"10\" r=\"1\"/>\n    <circle cx=\"0\" cy=\"20\" r=\"1\"/>\n    <circle cx=\"0\" cy=\"30\" r=\"1\"/>\n  </g>" ++ "\n" ++ "</svg>" ++ "\n" ++ "" := by
  simp only [generate_road_svg, SVG_FOOTER, flatGrid, flatPorts, hdrEq_sharp_ul_23_12, rgEq_sharp_ul_23_12]

set_option maxRecDepth 100000 in
theorem lineCnt_sharp_ul_23_12 : countOcc "<line" (generate_road_svg "sharp-ul-23-12" ⟨"Sharp: Up(P23) -> Left(P12)", "M 20 0 L 20 30 L 0 30", "M 30 0 L 30 10 L 0 10"⟩) = 10 := by
  rw [docEq_sharp_ul_23_12]; decide

set_option maxRecDepth 100000 in
theorem pathCnt_sharp_ul_23_12 : countOcc "<path" (generate_road_svg "sharp-ul-23-12" ⟨"Sharp: Up(P23) -> Left(P12)", "M 20 0 L 20 30 L 0 30", "M 30 0 L 30 10 L 0 10"⟩) = 2 := by
  rw [docEq_sharp_ul_23_12]; decide

set_option maxRecDepth 100000 in
theorem circCnt_sharp_ul_23_12 : countOcc "<circle" (generate_road_svg "sharp-ul-23-12" ⟨"Sharp: Up(P23) -> Left(P12)", "M 20 0 L 20 30 L 0 30", "M 30 0 L 30 10 L 0 10"⟩) = 12 := by
  rw [docEq_sharp_ul_23_12]; decide

set_option maxRecDepth 100000 in
theorem tailA_sharp_ul_23_12 : endsWithStr "</svg>\n" (generate_road_svg "sharp-ul-23-12" ⟨"Sharp: Up(P23) -> Left(P12)", "M 20 0 L 20 30 L 0 30", "M 30 0 L 30 10 L 0 10"⟩) = true := by
  rw [docEq_sharp_ul_23_12]; decide

set_option maxRecDepth 100000 in
theorem tailB_sharp_ul_23_12 : endsWithStr "\n\n" (generate_road_svg "sharp-ul-23-12" ⟨"Sharp: Up(P23) -> Left(P12)", "M 20 0 L 20 30 L 0 30", "M 30 0 L 30 10 L 0 10"⟩) = false := by
  rw [docEq_sharp_ul_23_12]; decide

set_option maxRecDepth 100000 in
theorem hdrEq_sharp_ul_23_23 : SVG_HEADER "sharp-ul-23-23" TILE_SIZE = "<?xml version=\"1.0\" encoding=\"UTF-8\"?>\n<svg id=\"sharp-ul-23-23\" xmlns=\"http://www.w3.org/2000/svg\" width=\"40\" height=\"40\" viewBox=\"0 0 40 40\">" :=
  eqStr _ _ (by decide)

set_option maxRecDepth 100000 in
theorem rgEq_sharp_ul_23_23 : road_group ⟨"Sharp: Up(P23) -> Left(P23)", "M 20 0 L 20 30 L 0 30", "M 30 0 L 30 20 L 0 20"⟩ = "  <!-- Sharp: Up(P23) -> Left(P23) -->\n  <g stroke=\"#000000\" stroke-width=\"1\" fill=\"none\">\n    <path d=\"M 20 0 L 20 30 L 0 30\"/>\n    <path d=\"M 30 0 L 30 20 L 0 20\"/>\n  </g>" :=
  eqStr _ _ (by decide)

theorem docEq_sharp_ul_23_23 : generate_road_svg "sharp-ul-23-23" ⟨"Sharp: Up(P23) -> Left(P23)", "M 20 0 L 20 30 L 0 30", "M 30 0 L 30 20 L 0 20"⟩ =
    "<?xml version=\"1.0\" encoding=\"UTF-8\"?>\n<svg id=\"sharp-ul-23-23\" xmlns=\"http://www.w3.org/2000/svg\" width=\"40\" height=\"40\" viewBox=\"0 0 40 40\">" ++ "\n" ++ "  <!-- Grid lines -->\n  <g stroke=\"#cccccc\" stroke-width=\"0.5\" fill=\"none\">\n    <line x1=\"0\" y1=\"0\" x2=\"0\" y2=\"40\"/>\n    <line x1=\"10\" y1=\"0\" x2=\"10\" y2=\"40\"/>\n    <line x1=\"20\" y1=\"0\" x2=\"20\" y2=\"40\"/>\n    <line x1=\"30\" y1=\"0\" x2=\"30\" y2=\"40\"/>\n    <line x1=\"40\" y1=\"0\" x2=\"40\" y2=\"40\"/>\n    <line x1=\"0\" y1=\"0\" x2=\"40\" y2=\"0\"/>\n    <line x1=\"0\" y1=\"10\" x2=\"40\" y2=\"10\"/>\n    <line x1=\"0\" y1=\"20\" x2=\"40\" y2=\"20\"/>\n    <line x1=\"0\" y1=\"30\" x2=\"40\" y2=\"30\"/>\n    <line x1=\"0\" y1=\"40\" x2=\"40\" y2=\"40\"/>\n  </g>" ++ "\n" ++ "" ++ "\n" ++ "  <!-- Sharp: Up(P23) -> Left(P23) -->\n  <g stroke=\"#000000\" stroke-width=\"1\" fill=\"none\">\n    <path d=\"M 20 0 L 20 30 L 0 30\"/>\n    <path d=\"M 30 0 L 30 20 L 0 20\"/>\n  </g>" ++ "\n" ++ "" ++ "\n" ++ "  <!-- Port markers -->\n  <g fill=\"#ff0000\">\n    <circle cx=\"10\" cy=\"0\" r=\"1\"/>\n    <circle cx=\"20\" cy=\"0\" r=\"1\"/>\n    <circle cx=\"30\" cy=\"0\" r=\"1\"/>\n    <circle cx=\"40\" cy=\"10\" r=\"1\"/>\n    <circle cx=\"40\" cy=\"20\" r=\"1\"/>\n    <circle cx=\"40\" cy=\"30\" r=\"1\"/>\n    <circle cx=\"10\" cy=\"40\" r=\"1\"/>\n    <circle cx=\"20\" cy=\"40\" r=\"1\"/>\n    <circle cx=\"30\" cy=\"40\" r=\"1\"/>\n    <circle cx=\"0\" cy=\"10\" r=\"1\"/>\n    <circle cx=\"0\" cy=\"20\" r=\"1\"/>\n    <circle cx=\"0\" cy=\"30\" r=\"1\"/>\n  </g>" ++ "\n" ++ "</svg>" ++ "\n" ++ "" := by
  simp only [generate_road_svg, SVG_FOOTER, flatGrid, flatPorts, hdrEq_sharp_ul_23_23, rgEq_sharp_ul_23_23]

set_option maxRecDepth 100000 in
theorem lineCnt_sharp_ul_23_23 : countOcc "<line" (generate_road_svg "sharp-ul-23-23" ⟨"Sharp: Up(P23) -> Left(P23)", "M 20 0 L 20 30 L 0 30", "M 30 0 L 30 20 L 0 20"⟩) = 10 := by
  rw [docEq_sharp_ul_23_23]; decide

set_option maxRecDepth 100000 in
theorem pathCnt_sharp_ul_23_23 : countOcc "<path" (generate_road_svg "sharp-ul-23-23" ⟨"Sharp: Up(P23) -> Left(P23)", "M 20 0 L 20 30 L 0 30", "M 30 0 L 30 20 L 0 20"⟩) = 2 := by
  rw [docEq_sharp_ul_23_23]; decide

set_option maxRecDepth 100000 in
theorem circCnt_sharp_ul_23_23 : countOcc "<circle" (generate_road_svg "sharp-ul-23-23" ⟨"Sharp: Up(P23) -> Left(P23)", "M 20 0 L 20 30 L 0 30", "M 30 0 L 30 20 L 0 20"⟩) = 12 := by
  rw [docEq_sharp_ul_23_23]; decide

set_option maxRecDepth 100000 in
theorem tailA_sharp_ul_23_23 : endsWithStr "</svg>\n" (generate_road_svg "sharp-ul-23-23" ⟨"Sharp: Up(P23) -> Left(P23)", "M 20 0 L 20 30 L 0 30", "M 30 0 L 30 20 L 0 20"⟩) = true := by
  rw [docEq_sharp_ul_23_23]; decide

set_option maxRecDepth 100000 in
theorem tailB_sharp_ul_23_23 : endsWithStr "\n\n" (generate_road_svg "sharp-ul-23-23" ⟨"Sharp: Up(P23) -> Left(P23)", "M 20 0 L 20 30 L 0 30", "M 30 0 L 30 20 L 0 20"⟩) = false := by
  rw [docEq_sharp_ul_23_23]; decide

set_option maxRecDepth 100000 in
theorem hdrEq_straight_v_11 : SVG_HEADER "straight-v-11" TILE_SIZE = "<?xml version=\"1.0\" encoding=\"UTF-8\"?>\n<svg id=\"straight-v-11\" xmlns=\"http://www.w3.org/2000/svg\" width=\"40\" height=\"40\" viewBox=\"0 0 40 40\">" :=
  eqStr _ _ (by decide)

set_option maxRecDepth 100000 in
theorem rgEq_straight_v_11 : road_group ⟨"Straight Vertical: Up(P12) -> Down(P12)", "M 10 0 L 10 40", "M 20 0 L 20 40"⟩ = "  <!-- Straight Vertical: Up(P12) -> Down(P12) -->\n  <g stroke=\"#000000\" stroke-width=\"1\" fill=\"none\">\n    <path d=\"M 10 0 L 10 40\"/>\n    <path d=\"M 20 0 L 20 40\"/>\n  </g>" :=
  eqStr _ _ (by decide)

theorem docEq_straight_v_11 : generate_road_svg "straight-v-11" ⟨"Straight Vertical: Up(P12) -> Down(P12)", "M 10 0 L 10 40", "M 20 0 L 20 40"⟩ =
    "<?xml version=\"1.0\" encoding=\"UTF-8\"?>\n<svg id=\"straight-v-11\" xmlns=\"http://www.w3.org/2000/svg\" width=\"40\" height=\"40\" viewBox=\"0 0 40 40\">" ++ "\n" ++ "  <!-- Grid lines -->\n  <g stroke=\"#cccccc\" stroke-width=\"0.5\" fill=\"none\">\n    <line x1=\"0\" y1=\"0\" x2=\"0\" y2=\"40\"/>\n    <line x1=\"10\" y1=\"0\" x2=\"10\" y2=\"40\"/>\n    <line x1=\"20\" y1=\"0\" x2=\"20\" y2=\"40\"/>\n    <line x1=\"30\" y1=\"0\" x2=\"30\" y2=\"40\"/>\n    <line x1=\"40\" y1=\"0\" x2=\"40\" y2=\"40\"/>\n    <line x1=\"0\" y1=\"0\" x2=\"40\" y2=\"0\"/>\n    <line x1=\"0\" y1=\"10\" x2=\"40\" y2=\"10\"/>\n    <line x1=\"0\" y1=\"20\" x2=\"40\" y2=\"20\"/>\n    <line x1=\"0\" y1=\"30\" x2=\"40\" y2=\"30\"/>\n    <line x1=\"0\" y1=\"40\" x2=\"40\" y2=\"40\"/>\n  </g>" ++ "\n" ++ "" ++ "\n" ++ "  <!-- Straight Vertical: Up(P12) -> Down(P12) -->\n  <g stroke=\"#000000\" stroke-width=\"1\" fill=\"none\">\n    <path d=\"M 10 0 L 10 40\"/>\n    <path d=\"M 20 0 L 20 40\"/>\n  </g>" ++ "\n" ++ "" ++ "\n" ++ "  <!-- Port markers -->\n  <g fill=\"#ff0000\">\n    <circle cx=\"10\" cy=\"0\" r=\"1\"/>\n    <circle cx=\"20\" cy=\"0\" r=\"1\"/>\n    <circle cx=\"30\" cy=\"0\" r=\"1\"/>\n    <circle cx=\"40\" cy=\"10\" r=\"1\"/>\n    <circle cx=\"40\" cy=\"20\" r=\"1\"/>\n    <circle cx=\"40\" cy=\"30\" r=\"1\"/>\n    <circle cx=\"10\" cy=\"40\" r=\"1\"/>\n    <circle cx=\"20\" cy=\"40\" r=\"1\"/>\n    <circle cx=\"30\" cy=\"40\" r=\"1\"/>\n    <circle cx=\"0\" cy=\"10\" r=\"1\"/>\n    <circle cx=\"0\" cy=\"20\" r=\"1\"/>\n    <circle cx=\"0\" cy=\"30\" r=\"1\"/>\n  </g>" ++ "\n" ++ "</svg>" ++ "\n" ++ "" := by
  simp only [generate_road_svg, SVG_FOOTER, flatGrid, flatPorts, hdrEq_straight_v_11, rgEq_straight_v_11]

set_option maxRecDepth 100000 in
theorem lineCnt_straight_v_11 : countOcc "<line" (generate_road_svg "straight-v-11" ⟨"Straight Vertical: Up(P12) -> Down(P12)", "M 10 0 L 10 40", "M 20 0 L 20 40"⟩) = 10 := by
  rw [docEq_straight_v_11]; decide

set_option maxRecDepth 100000 in
theorem pathCnt_straight_v_11 : countOcc "<path" (generate_road_svg "straight-v-11" ⟨"Straight Vertical: Up(P12) -> Down(P12)", "M 10 0 L 10 40", "M 20 0 L 20 40"⟩) = 2 := by
  rw [docEq_straight_v_11]; decide

set_option maxRecDepth 100000 in
theorem circCnt_straight_v_11 : countOcc "<circle" (generate_road_svg "straight-v-11" ⟨"Straight Vertical: Up(P12) -> Down(P12)", "M 10 0 L 10 40", "M 20 0 L 20 40"⟩) = 12 := by
  rw [docEq_straight_v_11]; decide

set_option maxRecDepth 100000 in
theorem tailA_straight_v_11 : endsWithStr "</svg>\n" (generate_road_svg "straight-v-11" ⟨"Straight Vertical: Up(P12) -> Down(P12)", "M 10 0 L 10 40", "M 20 0 L 20 40"⟩) = true := by
  rw [docEq_straight_v_11]; decide

set_option maxRecDepth 100000 in
theorem tailB_straight_v_11 : endsWithStr "\n\n" (generate_road_svg "straight-v-11" ⟨"Straight Vertical: Up(P12) -> Down(P12)", "M 10 0 L 10 40", "M 20 0 L 20 40"⟩) = false := by
  rw [docEq_straight_v_11]; decide

set_option maxRecDepth 100000 in
theorem hdrEq_straight_v_22 : SVG_HEADER "straight-v-22" TILE_SIZE = "<?xml version=\"1.0\" encoding=\"UTF-8\"?>\n<svg id=\"straight-v-22\" xmlns=\"http://www.w3.org/2000/svg\" width=\"40\" height=\"40\" viewBox=\"0 0 40 40\">" :=
  eqStr _ _ (by decide)

set_option maxRecDepth 100000 in
theorem rgEq_straight_v_22 : road_group ⟨"Straight Vertical: Up(P23) -> Down(P23)", "M 20 0 L 20 40", "M 30 0 L 30 40"⟩ = "  <!-- Straight Vertical: Up(P23) -> Down(P23) -->\n  <g stroke=\"#000000\" stroke-width=\"1\" fill=\"none\">\n    <path d=\"M 20 0 L 20 40\"/>\n    <path d=\"M 30 0 L 30 40\"/>\n  </g>" :=
  eqStr _ _ (by decide)

theorem docEq_straight_v_22 : generate_road_svg "straight-v-22" ⟨"Straight Vertical: Up(P23) -> Down(P23)", "M 20 0 L 20 40", "M 30 0 L 30 40"⟩ =
    "<?xml version=\"1.0\" encoding=\"UTF-8\"?>\n<svg id=\"straight-v-22\" xmlns=\"http://www.w3.org/2000/svg\" width=\"40\" height=\"40\" viewBox=\"0 0 40 40\">" ++ "\n" ++ "  <!-- Grid lines -->\n  <g stroke=\"#cccccc\" stroke-width=\"0.5\" fill=\"none\">\n    <line x1=\"0\" y1=\"0\" x2=\"0\" y2=\"40\"/>\n    <line x1=\"10\" y1=\"0\" x2=\"10\" y2=\"40\"/>\n    <line x1=\"20\" y1=\"0\" x2=\"20\" y2=\"40\"/>\n    <line x1=\"30\" y1=\"0\" x2=\"30\" y2=\"40\"/>\n    <line x1=\"40\" y1=\"0\" x2=\"40\" y2=\"40\"/>\n    <line x1=\"0\" y1=\"0\" x2=\"40\" y2=\"0\"/>\n    <line x1=\"0\" y1=\"10\" x2=\"40\" y2=\"10\"/>\n    <line x1=\"0\" y1=\"20\" x2=\"40\" y2=\"20\"/>\n    <line x1=\"0\" y1=\"30\" x2=\"40\" y2=\"30\"/>\n    <line x1=\"0\" y1=\"40\" x2=\"40\" y2=\"40\"/>\n  </g>" ++ "\n" ++ "" ++ "\n" ++ "  <!-- Straight Vertical: Up(P23) -> Down(P23) -->\n  <g stroke=\"#000000\" stroke-width=\"1\" fill=\"none\">\n    <path d=\"M 20 0 L 20 40\"/>\n    <path d=\"M 30 0 L 30 40\"/>\n  </g>" ++ "\n" ++ "" ++ "\n" ++ "  <!-- Port markers -->\n  <g fill=\"#ff0000\">\n    <circle cx=\"10\" cy=\"0\" r=\"1\"/>\n    <circle cx=\"20\" cy=\"0\" r=\"1\"/>\n    <circle cx=\"30\" cy=\"0\" r=\"1\"/>\n    <circle cx=\"40\" cy=\"10\" r=\"1\"/>\n    <circle cx=\"40\" cy=\"20\" r=\"1\"/>\n    <circle cx=\"40\" cy=\"30\" r=\"1\"/>\n    <circle cx=\"10\" cy=\"40\" r=\"1\"/>\n    <circle cx=\"20\" cy=\"40\" r=\"1\"/>\n    <circle cx=\"30\" cy=\"40\" r=\"1\"/>\n    <circle cx=\"0\" cy=\"10\" r=\"1\"/>\n    <circle cx=\"0\" cy=\"20\" r=\"1\"/>\n    <circle cx=\"0\" cy=\"30\" r=\"1\"/>\n  </g>" ++ "\n" ++ "</svg>" ++ "\n" ++ "" := by
  simp only [generate_road_svg, SVG_FOOTER, flatGrid, flatPorts, hdrEq_straight_v_22, rgEq_straight_v_22]

set_option maxRecDepth 100000 in
theorem lineCnt_straight_v_22 : countOcc "<line" (generate_road_svg "straight-v-22" ⟨"Straight Vertical: Up(P23) -> Down(P23)", "M 20 0 L 20 40", "M 30 0 L 30 40"⟩) = 10 := by
  rw [docEq_straight_v_22]; decide

set_option maxRecDepth 100000 in
theorem pathCnt_straight_v_22 : countOcc "<path" (generate_road_svg "straight-v-22" ⟨"Straight Vertical: Up(P23) -> Down(P23)", "M 20 0 L 20 40", "M 30 0 L 30 40"⟩) = 2 := by
  rw [docEq_straight_v_22]; decide

set_option maxRecDepth 100000 in
theorem circCnt_straight_v_22 : countOcc "<circle" (generate_road_svg "straight-v-22" ⟨"Straight Vertical: Up(P23) -> Down(P23)", "M 20 0 L 20 40", "M 30 0 L 30 40"⟩) = 12 := by
  rw [docEq_straight_v_22]; decide

set_option maxRecDepth 100000 in
theorem tailA_straight_v_22 : endsWithStr "</svg>\n" (generate_road_svg "straight-v-22" ⟨"Straight Vertical: Up(P23) -> Down(P23)", "M 20 0 L 20 40", "M 30 0 L 30 40"⟩) = true := by
  rw [docEq_straight_v_22]; decide

set_option maxRecDepth 100000 in
theorem tailB_straight_v_22 : endsWithStr "\n\n" (generate_road_svg "straight-v-22" ⟨"Straight Vertical: Up(P23) -> Down(P23)", "M 20 0 L 20 40", "M 30 0 L 30 40"⟩) = false := by
  rw [docEq_straight_v_22]; decide

set_option maxRecDepth 100000 in
theorem hdrEq_straight_v_12 : SVG_HEADER "straight-v-12" TILE_SIZE = "<?xml version=\"1.0\" encoding=\"UTF-8\"?>\n<svg id=\"straight-v-12\" xmlns=\"http://www.w3.org/2000/svg\" width=\"40\" height=\"40\" viewBox=\"0 0 40 40\">" :=
  eqStr _ _ (by decide)

set_option maxRecDepth 100000 in
theorem rgEq_straight_v_12 : road_group ⟨"Straight Vertical: Up(P12) -> Down(P23) (lane shift)", "M 10 0 C 10 20, 20 20, 20 40", "M 20 0 C 20 20, 30 20, 30 40"⟩ = "  <!-- Straight Vertical: Up(P12) -> Down(P23) (lane shift) -->\n  <g stroke=\"#000000\" stroke-width=\"1\" fill=\"none\">\n    <path d=\"M 10 0 C 10 20, 20 20, 20 40\"/>\n    <path d=\"M 20 0 C 20 20, 30 20, 30 40\"/>\n  </g>" :=
  eqStr _ _ (by decide)

theorem docEq_straight_v_12 : generate_road_svg "straight-v-12" ⟨"Straight Vertical: Up(P12) -> Down(P23) (lane shift)", "M 10 0 C 10 20, 20 20, 20 40", "M 20 0 C 20 20, 30 20, 30 40"⟩ =
    "<?xml version=\"1.0\" encoding=\"UTF-8\"?>\n<svg id=\"straight-v-12\" xmlns=\"http://www.w3.org/2000/svg\" width=\"40\" height=\"40\" viewBox=\"0 0 40 40\">" ++ "\n" ++ "  <!-- Grid lines -->\n  <g stroke=\"#cccccc\" stroke-width=\"0.5\" fill=\"none\">\n    <line x1=\"0\" y1=\"0\" x2=\"0\" y2=\"40\"/>\n    <line x1=\"10\" y1=\"0\" x2=\"10\" y2=\"40\"/>\n    <line x1=\"20\" y1=\"0\" x2=\"20\" y2=\"40\"/>\n    <line x1=\"30\" y1=\"0\" x2=\"30\" y2=\"40\"/>\n    <line x1=\"40\" y1=\"0\" x2=\"40\" y2=\"40\"/>\n    <line x1=\"0\" y1=\"0\" x2=\"40\" y2=\"0\"/>\n    <line x1=\"0\" y1=\"10\" x2=\"40\" y2=\"10\"/>\n    <line x1=\"0\" y1=\"20\" x2=\"40\" y2=\"20\"/>\n    <line x1=\"0\" y1=\"30\" x2=\"40\" y2=\"30\"/>\n    <line x1=\"0\" y1=\"40\" x2=\"40\" y2=\"40\"/>\n  </g>" ++ "\n" ++ "" ++ "\n" ++ "  <!-- Straight Vertical: Up(P12) -> Down(P23) (lane shift) -->\n  <g stroke=\"#000000\" stroke-width=\"1\" fill=\"none\">\n    <path d=\"M 10 0 C 10 20, 20 20, 20 40\"/>\n    <path d=\"M 20 0 C 20 20, 30 20, 30 40\"/>\n  </g>" ++ "\n" ++ "" ++ "\n" ++ "  <!-- Port markers -->\n  <g fill=\"#ff0000\">\n    <circle cx=\"10\" cy=\"0\" r=\"1\"/>\n    <circle cx=\"20\" cy=\"0\" r=\"1\"/>\n    <circle cx=\"30\" cy=\"0\" r=\"1\"/>\n    <circle cx=\"40\" cy=\"10\" r=\"1\"/>\n    <circle cx=\"40\" cy=\"20\" r=\"1\"/>\n    <circle cx=\"40\" cy=\"30\" r=\"1\"/>\n    <circle cx=\"10\" cy=\"40\" r=\"1\"/>\n    <circle cx=\"20\" cy=\"40\" r=\"1\"/>\n    <circle cx=\"30\" cy=\"40\" r=\"1\"/>\n    <circle cx=\"0\" cy=\"10\" r=\"1\"/>\n    <circle cx=\"0\" cy=\"20\" r=\"1\"/>\n    <circle cx=\"0\" cy=\"30\" r=\"1\"/>\n  </g>" ++ "\n" ++ "</svg>" ++ "\n" ++ "" := by
  simp only [generate_road_svg, SVG_FOOTER, flatGrid, flatPorts, hdrEq_straight_v_12, rgEq_straight_v_12]

set_option maxRecDepth 100000 in
theorem lineCnt_straight_v_12 : countOcc "<line" (generate_road_svg "straight-v-12" ⟨"Straight Vertical: Up(P12) -> Down(P23) (lane shift)", "M 10 0 C 10 20, 20 20, 20 40", "M 20 0 C 20 20, 30 20, 30 40"⟩) = 10 := by
  rw [docEq_straight_v_12]; decide

set_option maxRecDepth 100000 in
theorem pathCnt_straight_v_12 : countOcc "<path" (generate_road_svg "straight-v-12" ⟨"Straight Vertical: Up(P12) -> Down(P23) (lane shift)", "M 10 0 C 10 20, 20 20, 20 40", "M 20 0 C 20 20, 30 20, 30 40"⟩) = 2 := by
  rw [docEq_straight_v_12]; decide

set_option maxRecDepth 100000 in
theorem circCnt_straight_v_12 : countOcc "<circle" (generate_road_svg "straight-v-12" ⟨"Straight Vertical: Up(P12) -> Down(P23) (lane shift)", "M 10 0 C 10 20, 20 20, 20 40", "M 20 0 C 20 20, 30 20, 30 40"⟩) = 12 := by
  rw [docEq_straight_v_12]; decide

set_option maxRecDepth 100000 in
theorem tailA_straight_v_12 : endsWithStr "</svg>\n" (generate_road_svg "straight-v-12" ⟨"Straight Vertical: Up(P12) -> Down(P23) (lane shift)", "M 10 0 C 10 20, 20 20, 20 40", "M 20 0 C 20 20, 30 20, 30 40"⟩) = true := by
  rw [docEq_straight_v_12]; decide

set_option maxRecDepth 100000 in
theorem tailB_straight_v_12 : endsWithStr "\n\n" (generate_road_svg "straight-v-12" ⟨"Straight Vertical: Up(P12) -> Down(P23) (lane shift)", "M 10 0 C 10 20, 20 20, 20 40", "M 20 0 C 20 20, 30 20, 30 40"⟩) = false := by
  rw [docEq_straight_v_12]; decide

set_option maxRecDepth 100000 in
theorem hdrEq_straight_v_21 : SVG_HEADER "straight-v-21" TILE_SIZE = "<?xml version=\"1.0\" encoding=\"UTF-8\"?>\n<svg id=\"straight-v-21\" xmlns=\"http://www.w3.org/2000/svg\" width=\"40\" height=\"40\" viewBox=\"0 0 40 40\">" :=
  eqStr _ _ (by decide)

set_option maxRecDepth 100000 in
theorem rgEq_straight_v_21 : road_group ⟨"Straight Vertical: Up(P23) -> Down(P12) (lane shift)", "M 20 0 C 20 20, 10 20, 10 40", "M 30 0 C 30 20, 20 20, 20 40"⟩ = "  <!-- Straight Vertical: Up(P23) -> Down(P12) (lane shift) -->\n  <g stroke=\"#000000\" stroke-width=\"1\" fill=\"none\">\n    <path d=\"M 20 0 C 20 20, 10 20, 10 40\"/>\n    <path d=\"M 30 0 C 30 20, 20 20, 20 40\"/>\n  </g>" :=
  eqStr _ _ (by decide)

theorem docEq_straight_v_21 : generate_road_svg "straight-v-21" ⟨"Straight Vertical: Up(P23) -> Down(P12) (lane shift)", "M 20 0 C 20 20, 10 20, 10 40", "M 30 0 C 30 20, 20 20, 20 40"⟩ =
    "<?xml version=\"1.0\" encoding=\"UTF-8\"?>\n<svg id=\"straight-v-21\" xmlns=\"http://www.w3.org/2000/svg\" width=\"40\" height=\"40\" viewBox=\"0 0 40 40\">" ++ "\n" ++ "  <!-- Grid lines -->\n  <g stroke=\"#cccccc\" stroke-width=\"0.5\" fill=\"none\">\n    <line x1=\"0\" y1=\"0\" x2=\"0\" y2=\"40\"/>\n    <line x1=\"10\" y1=\"0\" x2=\"10\" y2=\"40\"/>\n    <line x1=\"20\" y1=\"0\" x2=\"20\" y2=\"40\"/>\n    <line x1=\"30\" y1=\"0\" x2=\"30\" y2=\"40\"/>\n    <line x1=\"40\" y1=\"0\" x2=\"40\" y2=\"40\"/>\n    <line x1=\"0\" y1=\"0\" x2=\"40\" y2=\"0\"/>\n    <line x1=\"0\" y1=\"10\" x2=\"40\" y2=\"10\"/>\n    <line x1=\"0\" y1=\"20\" x2=\"40\" y2=\"20\"/>\n    <line x1=\"0\" y1=\"30\" x2=\"40\" y2=\"30\"/>\n    <line x1=\"0\" y1=\"40\" x2=\"40\" y2=\"40\"/>\n  </g>" ++ "\n" ++ "" ++ "\n" ++ "  <!-- Straight Vertical: Up(P23) -> Down(P12) (lane shift) -->\n  <g stroke=\"#000000\" stroke-width=\"1\" fill=\"none\">\n    <path d=\"M 20 0 C 20 20, 10 20, 10 40\"/>\n    <path d=\"M 30 0 C 30 20, 20 20, 20 40\"/>\n  </g>" ++ "\n" ++ "" ++ "\n" ++ "  <!-- Port markers -->\n  <g fill=\"#ff0000\">\n    <circle cx=\"10\" cy=\"0\" r=\"1\"/>\n    <circle cx=\"20\" cy=\"0\" r=\"1\"/>\n    <circle cx=\"30\" cy=\"0\" r=\"1\"/>\n    <circle cx=\"40\" cy=\"10\" r=\"1\"/>\n    <circle cx=\"40\" cy=\"20\" r=\"1\"/>\n    <circle cx=\"40\" cy=\"30\" r=\"1\"/>\n    <circle cx=\"10\" cy=\"40\" r=\"1\"/>\n    <circle cx=\"20\" cy=\"40\" r=\"1\"/>\n    <circle cx=\"30\" cy=\"40\" r=\"1\"/>\n    <circle cx=\"0\" cy=\"10\" r=\"1\"/>\n    <circle cx=\"0\" cy=\"20\" r=\"1\"/>\n    <circle cx=\"0\" cy=\"30\" r=\"1\"/>\n  </g>" ++ "\n" ++ "</svg>" ++ "\n" ++ "" := by
  simp only [generate_road_svg, SVG_FOOTER, flatGrid, flatPorts, hdrEq_straight_v_21, rgEq_straight_v_21]

set_option maxRecDepth 100000 in
theorem lineCnt_straight_v_21 : countOcc "<line" (generate_road_svg "straight-v-21" ⟨"Straight Vertical: Up(P23) -> Down(P12) (lane shift)", "M 20 0 C 20 20, 10 20, 10 40", "M 30 0 C 30 20, 20 20, 20 40"⟩) = 10 := by
  rw [docEq_straight_v_21]; decide

set_option maxRecDepth 100000 in
theorem pathCnt_straight_v_21 : countOcc "<path" (generate_road_svg "straight-v-21" ⟨"Straight Vertical: Up(P23) -> Down(P12) (lane shift)", "M 20 0 C 20 20, 10 20, 10 40", "M 30 0 C 30 20, 20 20, 20 40"⟩) = 2 := by
  rw [docEq_straight_v_21]; decide

set_option maxRecDepth 100000 in
theorem circCnt_straight_v_21 : countOcc "<circle" (generate_road_svg "straight-v-21" ⟨"Straight Vertical: Up(P23) -> Down(P12) (lane shift)", "M 20 0 C 20 20, 10 20, 10 40", "M 30 0 C 30 20, 20 20, 20 40"⟩) = 12 := by
  rw [docEq_straight_v_21]; decide

set_option maxRecDepth 100000 in
theorem tailA_straight_v_21 : endsWithStr "</svg>\n" (generate_road_svg "straight-v-21" ⟨"Straight Vertical: Up(P23) -> Down(P12) (lane shift)", "M 20 0 C 20 20, 10 20, 10 40", "M 30 0 C 30 20, 20 20, 20 40"⟩) = true := by
  rw [docEq_straight_v_21]; decide

set_option maxRecDepth 100000 in
theorem tailB_straight_v_21 : endsWithStr "\n\n" (generate_road_svg "straight-v-21" ⟨"Straight Vertical: Up(P23) -> Down(P12) (lane shift)", "M 20 0 C 20 20, 10 20, 10 40", "M 30 0 C 30 20, 20 20, 20 40"⟩) = false := by
  rw [docEq_straight_v_21]; decide

set_option maxRecDepth 100000 in
theorem hdrEq_straight_h_44 : SVG_HEADER "straight-h-44" TILE_SIZE = "<?xml version=\"1.0\" encoding=\"UTF-8\"?>\n<svg id=\"straight-h-44\" xmlns=\"http://www.w3.org/2000/svg\" width=\"40\" height=\"40\" viewBox=\"0 0 40 40\">" :=
  eqStr _ _ (by decide)

set_option maxRecDepth 100000 in
theorem rgEq_straight_h_44 : road_group ⟨"Straight Horizontal: Left(P12) -> Right(P12)", "M 0 10 L 40 10", "M 0 20 L 40 20"⟩ = "  <!-- Straight Horizontal: Left(P12) -> Right(P12) -->\n  <g stroke=\"#000000\" stroke-width=\"1\" fill=\"none\">\n    <path d=\"M 0 10 L 40 10\"/>\n    <path d=\"M 0 20 L 40 20\"/>\n  </g>" :=
  eqStr _ _ (by decide)

theorem docEq_straight_h_44 : generate_road_svg "straight-h-44" ⟨"Straight Horizontal: Left(P12) -> Right(P12)", "M 0 10 L 40 10", "M 0 20 L 40 20"⟩ =
    "<?xml version=\"1.0\" encoding=\"UTF-8\"?>\n<svg id=\"straight-h-44\" xmlns=\"http://www.w3.org/2000/svg\" width=\"40\" height=\"40\" viewBox=\"0 0 40 40\">" ++ "\n" ++ "  <!-- Grid lines -->\n  <g stroke=\"#cccccc\" stroke-width=\"0.5\" fill=\"none\">\n    <line x1=\"0\" y1=\"0\" x2=\"0\" y2=\"40\"/>\n    <line x1=\"10\" y1=\"0\" x2=\"10\" y2=\"40\"/>\n    <line x1=\"20\" y1=\"0\" x2=\"20\" y2=\"40\"/>\n    <line x1=\"30\" y1=\"0\" x2=\"30\" y2=\"40\"/>\n    <line x1=\"40\" y1=\"0\" x2=\"40\" y2=\"40\"/>\n    <line x1=\"0\" y1=\"0\" x2=\"40\" y2=\"0\"/>\n    <line x1=\"0\" y1=\"10\" x2=\"40\" y2=\"10\"/>\n    <line x1=\"0\" y1=\"20\" x2=\"40\" y2=\"20\"/>\n    <line x1=\"0\" y1=\"30\" x2=\"40\" y2=\"30\"/>\n    <line x1=\"0\" y1=\"40\" x2=\"40\" y2=\"40\"/>\n  </g>" ++ "\n" ++ "" ++ "\n" ++ "  <!-- Straight Horizontal: Left(P12) -> Right(P12) -->\n  <g stroke=\"#000000\" stroke-width=\"1\" fill=\"none\">\n    <path d=\"M 0 10 L 40 10\"/>\n    <path d=\"M 0 20 L 40 20\"/>\n  </g>" ++ "\n" ++ "" ++ "\n" ++ "  <!-- Port markers -->\n  <g fill=\"#ff0000\">\n    <circle cx=\"10\" cy=\"0\" r=\"1\"/>\n    <circle cx=\"20\" cy=\"0\" r=\"1\"/>\n    <circle cx=\"30\" cy=\"0\" r=\"1\"/>\n    <circle cx=\"40\" cy=\"10\" r=\"1\"/>\n    <circle cx=\"40\" cy=\"20\" r=\"1\"/>\n    <circle cx=\"40\" cy=\"30\" r=\"1\"/>\n    <circle cx=\"10\" cy=\"40\" r=\"1\"/>\n    <circle cx=\"20\" cy=\"40\" r=\"1\"/>\n    <circle cx=\"30\" cy=\"40\" r=\"1\"/>\n    <circle cx=\"0\" cy=\"10\" r=\"1\"/>\n    <circle cx=\"0\" cy=\"20\" r=\"1\"/>\n    <circle cx=\"0\" cy=\"30\" r=\"1\"/>\n  </g>" ++ "\n" ++ "</svg>" ++ "\n" ++ "" := by
  simp only [generate_road_svg, SVG_FOOTER, flatGrid, flatPorts, hdrEq_straight_h_44, rgEq_straight_h_44]

set_option maxRecDepth 100000 in
theorem lineCnt_straight_h_44 : countOcc "<line" (generate_road_svg "straight-h-44" ⟨"Straight Horizontal: Left(P12) -> Right(P12)", "M 0 10 L 40 10", "M 0 20 L 40 20"⟩) = 10 := by
  rw [docEq_straight_h_44]; decide

set_option maxRecDepth 100000 in
theorem pathCnt_straight_h_44 : countOcc "<path" (generate_road_svg "straight-h-44" ⟨"Straight Horizontal: Left(P12) -> Right(P12)", "M 0 10 L 40 10", "M 0 20 L 40 20"⟩) = 2 := by
  rw [docEq_straight_h_44]; decide

set_option maxRecDepth 100000 in
theorem circCnt_straight_h_44 : countOcc "<circle" (generate_road_svg "straight-h-44" ⟨"Straight Horizontal: Left(P12) -> Right(P12)", "M 0 10 L 40 10", "M 0 20 L 40 20"⟩) = 12 := by
  rw [docEq_straight_h_44]; decide

set_option maxRecDepth 100000 in
theorem tailA_straight_h_44 : endsWithStr "</svg>\n" (generate_road_svg "straight-h-44" ⟨"Straight Horizontal: Left(P12) -> Right(P12)", "M 0 10 L 40 10", "M 0 20 L 40 20"⟩) = true := by
  rw [docEq_straight_h_44]; decide

set_option maxRecDepth 100000 in
theorem tailB_straight_h_44 : endsWithStr "\n\n" (generate_road_svg "straight-h-44" ⟨"Straight Horizontal: Left(P12) -> Right(P12)", "M 0 10 L 40 10", "M 0 20 L 40 20"⟩) = false := by
  rw [docEq_straight_h_44]; decide

set_option maxRecDepth 100000 in
theorem hdrEq_straight_h_88 : SVG_HEADER "straight-h-88" TILE_SIZE = "<?xml version=\"1.0\" encoding=\"UTF-8\"?>\n<svg id=\"straight-h-88\" xmlns=\"http://www.w3.org/2000/svg\" width=\"40\" height=\"40\" viewBox=\"0 0 40 40\">" :=
  eqStr _ _ (by decide)

set_option maxRecDepth 100000 in
theorem rgEq_straight_h_88 : road_group ⟨"Straight Horizontal: Left(P23) -> Right(P23)", "M 0 20 L 40 20", "M 0 30 L 40 30"⟩ = "  <!-- Straight Horizontal: Left(P23) -> Right(P23) -->\n  <g stroke=\"#000000\" stroke-width=\"1\" fill=\"none\">\n    <path d=\"M 0 20 L 40 20\"/>\n    <path d=\"M 0 30 L 40 30\"/>\n  </g>" :=
  eqStr _ _ (by decide)

theorem docEq_straight_h_88 : generate_road_svg "straight-h-88" ⟨"Straight Horizontal: Left(P23) -> Right(P23)", "M 0 20 L 40 20", "M 0 30 L 40 30"⟩ =
    "<?xml version=\"1.0\" encoding=\"UTF-8\"?>\n<svg id=\"straight-h-88\" xmlns=\"http://www.w3.org/2000/svg\" width=\"40\" height=\"40\" viewBox=\"0 0 40 40\">" ++ "\n" ++ "  <!-- Grid lines -->\n  <g stroke=\"#cccccc\" stroke-width=\"0.5\" fill=\"none\">\n    <line x1=\"0\" y1=\"0\" x2=\"0\" y2=\"40\"/>\n    <line x1=\"10\" y1=\"0\" x2=\"10\" y2=\"40\"/>\n    <line x1=\"20\" y1=\"0\" x2=\"20\" y2=\"40\"/>\n    <line x1=\"30\" y1=\"0\" x2=\"30\" y2=\"40\"/>\n    <line x1=\"40\" y1=\"0\" x2=\"40\" y2=\"40\"/>\n    <line x1=\"0\" y1=\"0\" x2=\"40\" y2=\"0\"/>\n    <line x1=\"0\" y1=\"10\" x2=\"40\" y2=\"10\"/>\n    <line x1=\"0\" y1=\"20\" x2=\"40\" y2=\"20\"/>\n    <line x1=\"0\" y1=\"30\" x2=\"40\" y2=\"30\"/>\n    <line x1=\"0\" y1=\"40\" x2=\"40\" y2=\"40\"/>\n  </g>" ++ "\n" ++ "" ++ "\n" ++ "  <!-- Straight Horizontal: Left(P23) -> Right(P23) -->\n  <g stroke=\"#000000\" stroke-width=\"1\" fill=\"none\">\n    <path d=\"M 0 20 L 40 20\"/>\n    <path d=\"M 0 30 L 40 30\"/>\n  </g>" ++ "\n" ++ "" ++ "\n" ++ "  <!-- Port markers -->\n  <g fill=\"#ff0000\">\n    <circle cx=\"10\" cy=\"0\" r=\"1\"/>\n    <circle cx=\"20\" cy=\"0\" r=\"1\"/>\n    <circle cx=\"30\" cy=\"0\" r=\"1\"/>\n    <circle cx=\"40\" cy=\"10\" r=\"1\"/>\n    <circle cx=\"40\" cy=\"20\" r=\"1\"/>\n    <circle cx=\"40\" cy=\"30\" r=\"1\"/>\n    <circle cx=\"10\" cy=\"40\" r=\"1\"/>\n    <circle cx=\"20\" cy=\"40\" r=\"1\"/>\n    <circle cx=\"30\" cy=\"40\" r=\"1\"/>\n    <circle cx=\"0\" cy=\"10\" r=\"1\"/>\n    <circle cx=\"0\" cy=\"20\" r=\"1\"/>\n    <circle cx=\"0\" cy=\"30\" r=\"1\"/>\n  </g>" ++ "\n" ++ "</svg>" ++ "\n" ++ "" := by
  simp only [generate_road_svg, SVG_FOOTER, flatGrid, flatPorts, hdrEq_straight_h_88, rgEq_straight_h_88]

set_option maxRecDepth 100000 in
theorem lineCnt_straight_h_88 : countOcc "<line" (generate_road_svg "straight-h-88" ⟨"Straight Horizontal: Left(P23) -> Right(P23)", "M 0 20 L 40 20", "M 0 30 L 40 30"⟩) = 10 := by
  rw [docEq_straight_h_88]; decide

set_option maxRecDepth 100000 in
theorem pathCnt_straight_h_88 : countOcc "<path" (generate_road_svg "straight-h-88" ⟨"Straight Horizontal: Left(P23) -> Right(P23)", "M 0 20 L 40 20", "M 0 30 L 40 30"⟩) = 2 := by
  rw [docEq_straight_h_88]; decide

set_option maxRecDepth 100000 in
theorem circCnt_straight_h_88 : countOcc "<circle" (generate_road_svg "straight-h-88" ⟨"Straight Horizontal: Left(P23) -> Right(P23)", "M 0 20 L 40 20", "M 0 30 L 40 30"⟩) = 12 := by
  rw [docEq_straight_h_88]; decide

set_option maxRecDepth 100000 in
theorem tailA_straight_h_88 : endsWithStr "</svg>\n" (generate_road_svg "straight-h-88" ⟨"Straight Horizontal: Left(P23) -> Right(P23)", "M 0 20 L 40 20", "M 0 30 L 40 30"⟩) = true := by
  rw [docEq_straight_h_88]; decide

set_option maxRecDepth 100000 in
theorem tailB_straight_h_88 : endsWithStr "\n\n" (generate_road_svg "straight-h-88" ⟨"Straight Horizontal: Left(P23) -> Right(P23)", "M 0 20 L 40 20", "M 0 30 L 40 30"⟩) = false := by
  rw [docEq_straight_h_88]; decide

set_option maxRecDepth 100000 in
theorem hdrEq_straight_h_48 : SVG_HEADER "straight-h-48" TILE_SIZE = "<?xml version=\"1.0\" encoding=\"UTF-8\"?>\n<svg id=\"straight-h-48\" xmlns=\"http://www.w3.org/2000/svg\" width=\"40\" height=\"40\" viewBox=\"0 0 40 40\">" :=
  eqStr _ _ (by decide)

set_option maxRecDepth 100000 in
theorem rgEq_straight_h_48 : road_group ⟨"Straight Horizontal: Left(P12) -> Right(P23) (lane shift)", "M 0 10 C 20 10, 20 20, 40 20", "M 0 20 C 20 20, 20 30, 40 30"⟩ = "  <!-- Straight Horizontal: Left(P12) -> Right(P23) (lane shift) -->\n  <g stroke=\"#000000\" stroke-width=\"1\" fill=\"none\">\n    <path d=\"M 0 10 C 20 10, 20 20, 40 20\"/>\n    <path d=\"M 0 20 C 20 20, 20 30, 40 30\"/>\n  </g>" :=
  eqStr _ _ (by decide)

theorem docEq_straight_h_48 : generate_road_svg "straight-h-48" ⟨"Straight Horizontal: Left(P12) -> Right(P23) (lane shift)", "M 0 10 C 20 10, 20 20, 40 20", "M 0 20 C 20 20, 20 30, 40 30"⟩ =
    "<?xml version=\"1.0\" encoding=\"UTF-8\"?>\n<svg id=\"straight-h-48\" xmlns=\"http://www.w3.org/2000/svg\" width=\"40\" height=\"40\" viewBox=\"0 0 40 40\">" ++ "\n" ++ "  <!-- Grid lines -->\n  <g stroke=\"#cccccc\" stroke-width=\"0.5\" fill=\"none\">\n    <line x1=\"0\" y1=\"0\" x2=\"0\" y2=\"40\"/>\n    <line x1=\"10\" y1=\"0\" x2=\"10\" y2=\"40\"/>\n    <line x1=\"20\" y1=\"0\" x2=\"20\" y2=\"40\"/>\n    <line x1=\"30\" y1=\"0\" x2=\"30\" y2=\"40\"/>\n    <line x1=\"40\" y1=\"0\" x2=\"40\" y2=\"40\"/>\n    <line x1=\"0\" y1=\"0\" x2=\"40\" y2=\"0\"/>\n    <line x1=\"0\" y1=\"10\" x2=\"40\" y2=\"10\"/>\n    <line x1=\"0\" y1=\"20\" x2=\"40\" y2=\"20\"/>\n    <line x1=\"0\" y1=\"30\" x2=\"40\" y2=\"30\"/>\n    <line x1=\"0\" y1=\"40\" x2=\"40\" y2=\"40\"/>\n  </g>" ++ "\n" ++ "" ++ "\n" ++ "  <!-- Straight Horizontal: Left(P12) -> Right(P23) (lane shift) -->\n  <g stroke=\"#000000\" stroke-width=\"1\" fill=\"none\">\n    <path d=\"M 0 10 C 20 10, 20 20, 40 20\"/>\n    <path d=\"M 0 20 C 20 20, 20 30, 40 30\"/>\n  </g>" ++ "\n" ++ "" ++ "\n" ++ "  <!-- Port markers -->\n  <g fill=\"#ff0000\">\n    <circle cx=\"10\" cy=\"0\" r=\"1\"/>\n    <circle cx=\"20\" cy=\"0\" r=\"1\"/>\n    <circle cx=\"30\" cy=\"0\" r=\"1\"/>\n    <circle cx=\"40\" cy=\"10\" r=\"1\"/>\n    <circle cx=\"40\" cy=\"20\" r=\"1\"/>\n    <circle cx=\"40\" cy=\"30\" r=\"1\"/>\n    <circle cx=\"10\" cy=\"40\" r=\"1\"/>\n    <circle cx=\"20\" cy=\"40\" r=\"1\"/>\n    <circle cx=\"30\" cy=\"40\" r=\"1\"/>\n    <circle cx=\"0\" cy=\"10\" r=\"1\"/>\n    <circle cx=\"0\" cy=\"20\" r=\"1\"/>\n    <circle cx=\"0\" cy=\"30\" r=\"1\"/>\n  </g>" ++ "\n" ++ "</svg>" ++ "\n" ++ "" := by
  simp only [generate_road_svg, SVG_FOOTER, flatGrid, flatPorts, hdrEq_straight_h_48, rgEq_straight_h_48]

set_option maxRecDepth 100000 in
theorem lineCnt_straight_h_48 : countOcc "<line" (generate_road_svg "straight-h-48" ⟨"Straight Horizontal: Left(P12) -> Right(P23) (lane shift)", "M 0 10 C 20 10, 20 20, 40 20", "M 0 20 C 20 20, 20 30, 40 30"⟩) = 10 := by
  rw [docEq_straight_h_48]; decide

set_option maxRecDepth 100000 in
theorem pathCnt_straight_h_48 : countOcc "<path" (generate_road_svg "straight-h-48" ⟨"Straight Horizontal: Left(P12) -> Right(P23) (lane shift)", "M 0 10 C 20 10, 20 20, 40 20", "M 0 20 C 20 20, 20 30, 40 30"⟩) = 2 := by
  rw [docEq_straight_h_48]; decide

set_option maxRecDepth 100000 in
theorem circCnt_straight_h_48 : countOcc "<circle" (generate_road_svg "straight-h-48" ⟨"Straight Horizontal: Left(P12) -> Right(P23) (lane shift)", "M 0 10 C 20 10, 20 20, 40 20", "M 0 20 C 20 20, 20 30, 40 30"⟩) = 12 := by
  rw [docEq_straight_h_48]; decide

set_option maxRecDepth 100000 in
theorem tailA_straight_h_48 : endsWithStr "</svg>\n" (generate_road_svg "straight-h-48" ⟨"Straight Horizontal: Left(P12) -> Right(P23) (lane shift)", "M 0 10 C 20 10, 20 20, 40 20", "M 0 20 C 20 20, 20 30, 40 30"⟩) = true := by
  rw [docEq_straight_h_48]; decide

set_option maxRecDepth 100000 in
theorem tailB_straight_h_48 : endsWithStr "\n\n" (generate_road_svg "straight-h-48" ⟨"Straight Horizontal: Left(P12) -> Right(P23) (lane shift)", "M 0 10 C 20 10, 20 20, 40 20", "M 0 20 C 20 20, 20 30, 40 30"⟩) = false := by
  rw [docEq_straight_h_48]; decide

set_option maxRecDepth 100000 in
theorem hdrEq_straight_h_84 : SVG_HEADER "straight-h-84" TILE_SIZE = "<?xml version=\"1.0\" encoding=\"UTF-8\"?>\n<svg id=\"straight-h-84\" xmlns=\"http://www.w3.org/2000/svg\" width=\"40\" height=\"40\" viewBox=\"0 0 40 40\">" :=
  eqStr _ _ (by decide)

set_option maxRecDepth 100000 in
theorem rgEq_straight_h_84 : road_group ⟨"Straight Horizontal: Left(P23) -> Right(P12) (lane shift)", "M 0 20 C 20 20, 20 10, 40 10", "M 0 30 C 20 30, 20 20, 40 20"⟩ = "  <!-- Straight Horizontal: Left(P23) -> Right(P12) (lane shift) -->\n  <g stroke=\"#000000\" stroke-width=\"1\" fill=\"none\">\n    <path d=\"M 0 20 C 20 20, 20 10, 40 10\"/>\n    <path d=\"M 0 30 C 20 30, 20 20, 40 20\"/>\n  </g>" :=
  eqStr _ _ (by decide)

theorem docEq_straight_h_84 : generate_road_svg "straight-h-84" ⟨"Straight Horizontal: Left(P23) -> Right(P12) (lane shift)", "M 0 20 C 20 20, 20 10, 40 10", "M 0 30 C 20 30, 20 20, 40 20"⟩ =
    "<?xml version=\"1.0\" encoding=\"UTF-8\"?>\n<svg id=\"straight-h-84\" xmlns=\"http://www.w3.org/2000/svg\" width=\"40\" height=\"40\" viewBox=\"0 0 40 40\">" ++ "\n" ++ "  <!-- Grid lines -->\n  <g stroke=\"#cccccc\" stroke-width=\"0.5\" fill=\"none\">\n    <line x1=\"0\" y1=\"0\" x2=\"0\" y2=\"40\"/>\n    <line x1=\"10\" y1=\"0\" x2=\"10\" y2=\"40\"/>\n    <line x1=\"20\" y1=\"0\" x2=\"20\" y2=\"40\"/>\n    <line x1=\"30\" y1=\"0\" x2=\"30\" y2=\"40\"/>\n    <line x1=\"40\" y1=\"0\" x2=\"40\" y2=\"40\"/>\n    <line x1=\"0\" y1=\"0\" x2=\"40\" y2=\"0\"/>\n    <line x1=\"0\" y1=\"10\" x2=\"40\" y2=\"10\"/>\n    <line x1=\"0\" y1=\"20\" x2=\"40\" y2=\"20\"/>\n    <line x1=\"0\" y1=\"30\" x2=\"40\" y2=\"30\"/>\n    <line x1=\"0\" y1=\"40\" x2=\"40\" y2=\"40\"/>\n  </g>" ++ "\n" ++ "" ++ "\n" ++ "  <!-- Straight Horizontal: Left(P23) -> Right(P12) (lane shift) -->\n  <g stroke=\"#000000\" stroke-width=\"1\" fill=\"none\">\n    <path d=\"M 0 20 C 20 20, 20 10, 40 10\"/>\n    <path d=\"M 0 30 C 20 30, 20 20, 40 20\"/>\n  </g>" ++ "\n" ++ "" ++ "\n" ++ "  <!-- Port markers -->\n  <g fill=\"#ff0000\">\n    <circle cx=\"10\" cy=\"0\" r=\"1\"/>\n    <circle cx=\"20\" cy=\"0\" r=\"1\"/>\n    <circle cx=\"30\" cy=\"0\" r=\"1\"/>\n    <circle cx=\"40\" cy=\"10\" r=\"1\"/>\n    <circle cx=\"40\" cy=\"20\" r=\"1\"/>\n    <circle cx=\"40\" cy=\"30\" r=\"1\"/>\n    <circle cx=\"10\" cy=\"40\" r=\"1\"/>\n    <circle cx=\"20\" cy=\"40\" r=\"1\"/>\n    <circle cx=\"30\" cy=\"40\" r=\"1\"/>\n    <circle cx=\"0\" cy=\"10\" r=\"1\"/>\n    <circle cx=\"0\" cy=\"20\" r=\"1\"/>\n    <circle cx=\"0\" cy=\"30\" r=\"1\"/>\n  </g>" ++ "\n" ++ "</svg>" ++ "\n" ++ "" := by
  simp only [generate_road_svg, SVG_FOOTER, flatGrid, flatPorts, hdrEq_straight_h_84, rgEq_straight_h_84]

set_option maxRecDepth 100000 in
theorem lineCnt_straight_h_84 : countOcc "<line" (generate_road_svg "straight-h-84" ⟨"Straight Horizontal: Left(P23) -> Right(P12) (lane shift)", "M 0 20 C 20 20, 20 10, 40 10", "M 0 30 C 20 30, 20 20, 40 20"⟩) = 10 := by
  rw [docEq_straight_h_84]; decide

set_option maxRecDepth 100000 in
theorem pathCnt_straight_h_84 : countOcc "<path" (generate_road_svg "straight-h-84" ⟨"Straight Horizontal: Left(P23) -> Right(P12) (lane shift)", "M 0 20 C 20 20, 20 10, 40 10", "M 0 30 C 20 30, 20 20, 40 20"⟩) = 2 := by
  rw [docEq_straight_h_84]; decide

set_option maxRecDepth 100000 in
theorem circCnt_straight_h_84 : countOcc "<circle" (generate_road_svg "straight-h-84" ⟨"Straight Horizontal: Left(P23) -> Right(P12) (lane shift)", "M 0 20 C 20 20, 20 10, 40 10", "M 0 30 C 20 30, 20 20, 40 20"⟩) = 12 := by
  rw [docEq_straight_h_84]; decide

set_option maxRecDepth 100000 in
theorem tailA_straight_h_84 : endsWithStr "</svg>\n" (generate_road_svg "straight-h-84" ⟨"Straight Horizontal: Left(P23) -> Right(P12) (lane shift)", "M 0 20 C 20 20, 20 10, 40 10", "M 0 30 C 20 30, 20 20, 40 20"⟩) = true := by
  rw [docEq_straight_h_84]; decide

set_option maxRecDepth 100000 in
theorem tailB_straight_h_84 : endsWithStr "\n\n" (generate_road_svg "straight-h-84" ⟨"Straight Horizontal: Left(P23) -> Right(P12) (lane shift)", "M 0 20 C 20 20, 20 10, 40 10", "M 0 30 C 20 30, 20 20, 40 20"⟩) = false := by
  rw [docEq_straight_h_84]; decide

set_option maxRecDepth 100000 in
theorem hdrEq_start : SVG_HEADER "start" TILE_SIZE = "<?xml version=\"1.0\" encoding=\"UTF-8\"?>\n<svg id=\"start\" xmlns=\"http://www.w3.org/2000/svg\" width=\"40\" height=\"40\" viewBox=\"0 0 40 40\">" :=
  eqStr _ _ (by decide)

theorem docEq_start : generate_marker_svg "start" START_MARKER =
    "<?xml version=\"1.0\" encoding=\"UTF-8\"?>\n<svg id=\"start\" xmlns=\"http://www.w3.org/2000/svg\" width=\"40\" height=\"40\" viewBox=\"0 0 40 40\">" ++ "\n" ++ "  <!-- Grid lines -->\n  <g stroke=\"#cccccc\" stroke-width=\"0.5\" fill=\"none\">\n    <line x1=\"0\" y1=\"0\" x2=\"0\" y2=\"40\"/>\n    <line x1=\"10\" y1=\"0\" x2=\"10\" y2=\"40\"/>\n    <line x1=\"20\" y1=\"0\" x2=\"20\" y2=\"40\"/>\n    <line x1=\"30\" y1=\"0\" x2=\"30\" y2=\"40\"/>\n    <line x1=\"40\" y1=\"0\" x2=\"40\" y2=\"40\"/>\n    <line x1=\"0\" y1=\"0\" x2=\"40\" y2=\"0\"/>\n    <line x1=\"0\" y1=\"10\" x2=\"40\" y2=\"10\"/>\n    <line x1=\"0\" y1=\"20\" x2=\"40\" y2=\"20\"/>\n    <line x1=\"0\" y1=\"30\" x2=\"40\" y2=\"30\"/>\n    <line x1=\"0\" y1=\"40\" x2=\"40\" y2=\"40\"/>\n  </g>" ++ "\n" ++ "" ++ "\n" ++ "  <!-- Start marker -->\n  <g transform=\"translate(20, 14)\">\n    <rect x=\"-6\" y=\"-6\" width=\"1.5\" height=\"16\" fill=\"#555\"/>\n    <path d=\"M -4.5 -6 v 8 L 6 -2 z\" fill=\"#3498db\"/>\n  </g>\n  <g transform=\"translate(20, 32)\">\n    <text x=\"0\" y=\"0\" font-family=\"Arial, sans-serif\" font-size=\"7\" text-anchor=\"middle\" font-weight=\"bold\" fill=\"#3498db\">START</text>\n  </g>" ++ "\n" ++ "</svg>" ++ "\n" ++ "" := by
  simp only [generate_marker_svg, SVG_FOOTER, flatGrid, flatStart, hdrEq_start]

set_option maxRecDepth 100000 in
theorem lineCnt_start : countOcc "<line" (generate_marker_svg "start" START_MARKER) = 10 := by
  rw [docEq_start]; decide

set_option maxRecDepth 100000 in
theorem tailA_start : endsWithStr "</svg>\n" (generate_marker_svg "start" START_MARKER) = true := by
  rw [docEq_start]; decide

set_option maxRecDepth 100000 in
theorem tailB_start : endsWithStr "\n\n" (generate_marker_svg "start" START_MARKER) = false := by
  rw [docEq_start]; decide

set_option maxRecDepth 100000 in
theorem hdrEq_goal : SVG_HEADER "goal" TILE_SIZE = "<?xml version=\"1.0\" encoding=\"UTF-8\"?>\n<svg id=\"goal\" xmlns=\"http://www.w3.org/2000/svg\" width=\"40\" height=\"40\" viewBox=\"0 0 40 40\">" :=
  eqStr _ _ (by decide)

theorem docEq_goal : generate_marker_svg "goal" GOAL_MARKER =
    "<?xml version=\"1.0\" encoding=\"UTF-8\"?>\n<svg id=\"goal\" xmlns=\"http://www.w3.org/2000/svg\" width=\"40\" height=\"40\" viewBox=\"0 0 40 40\">" ++ "\n" ++ "  <!-- Grid lines -->\n  <g stroke=\"#cccccc\" stroke-width=\"0.5\" fill=\"none\">\n    <line x1=\"0\" y1=\"0\" x2=\"0\" y2=\"40\"/>\n    <line x1=\"10\" y1=\"0\" x2=\"10\" y2=\"40\"/>\n    <line x1=\"20\" y1=\"0\" x2=\"20\" y2=\"40\"/>\n    <line x1=\"30\" y1=\"0\" x2=\"30\" y2=\"40\"/>\n    <line x1=\"40\" y1=\"0\" x2=\"40\" y2=\"40\"/>\n    <line x1=\"0\" y1=\"0\" x2=\"40\" y2=\"0\"/>\n    <line x1=\"0\" y1=\"10\" x2=\"40\" y2=\"10\"/>\n    <line x1=\"0\" y1=\"20\" x2=\"40\" y2=\"20\"/>\n    <line x1=\"0\" y1=\"30\" x2=\"40\" y2=\"30\"/>\n    <line x1=\"0\" y1=\"40\" x2=\"40\" y2=\"40\"/>\n  </g>" ++ "\n" ++ "" ++ "\n" ++ "  <!-- Goal marker -->\n  <g transform=\"translate(20, 14)\">\n    <circle cx=\"0\" cy=\"0\" r=\"8\" fill=\"none\" stroke=\"#e74c3c\" stroke-width=\"1.5\"/>\n    <circle cx=\"0\" cy=\"0\" r=\"4\" fill=\"none\" stroke=\"#e74c3c\" stroke-width=\"1.5\"/>\n    <circle cx=\"0\" cy=\"0\" r=\"1.5\" fill=\"#e74c3c\"/>\n  </g>\n  <g transform=\"translate(20, 32)\">\n    <text x=\"0\" y=\"0\" font-family=\"Arial, sans-serif\" font-size=\"7\" text-anchor=\"middle\" font-weight=\"bold\" fill=\"#e74c3c\">GOAL</text>\n  </g>" ++ "\n" ++ "</svg>" ++ "\n" ++ "" := by
  simp only [generate_marker_svg, SVG_FOOTER, flatGrid, flatGoal, hdrEq_goal]

set_option maxRecDepth 100000 in
theorem lineCnt_goal : countOcc "<line" (generate_marker_svg "goal" GOAL_MARKER) = 10 := by
  rw [docEq_goal]; decide

set_option maxRecDepth 100000 in
theorem tailA_goal : endsWithStr "</svg>\n" (generate_marker_svg "goal" GOAL_MARKER) = true := by
  rw [docEq_goal]; decide

set_option maxRecDepth 100000 in
theorem tailB_goal : endsWithStr "\n\n" (generate_marker_svg "goal" GOAL_MARKER) = false := by
  rw [docEq_goal]; decide

end TileGenerator


namespace TileGenerator

set_option maxRecDepth 20000 in
/-- Claim C1: the no-argument entry point emits exactly 26 documents — one
`<id>.svg` per key of `TILE_DEFINITIONS` (all 24 keys distinct), plus
`start.svg` and `goal.svg` — and the reported `total_files` count is 26. -/
theorem main_generates_26_files :
    mainOutputs.map Prod.fst =
      ["curve-12-12.svg", "curve-12-23.svg", "curve-23-12.svg",
       "curve-23-23.svg", "curve-ul-12-12.svg", "curve-ul-12-23.svg",
       "curve-ul-23-12.svg", "curve-ul-23-23.svg", "sharp-12-12.svg",
       "sharp-12-23.svg", "sharp-23-12.svg", "sharp-23-23.svg",
       "sharp-ul-12-12.svg", "sharp-ul-12-23.svg", "sharp-ul-23-12.svg",
       "sharp-ul-23-23.svg", "straight-v-11.svg", "straight-v-22.svg",
       "straight-v-12.svg", "straight-v-21.svg", "straight-h-44.svg",
       "straight-h-88.svg", "straight-h-48.svg", "straight-h-84.svg",
       "start.svg", "goal.svg"] ∧
    mainOutputs.map Prod.fst =
      (TILE_DEFINITIONS.map fun p => p.1 ++ ".svg") ++
        ["start.svg", "goal.svg"] ∧
    mainOutputs.length = 26 ∧
    TILE_DEFINITIONS.length = 24 ∧
    (TILE_DEFINITIONS.map Prod.fst).Nodup ∧
    total_files = 26 := by
  refine ⟨by decide, by decide, by decide, by decide, by decide, by decide⟩

/-- Claim C7: both render functions, and the generator run as a whole, are
deterministic: equal arguments give byte-identical document text, and two
runs produce the same `(filename, content)` list.  In this embedding both
functions are pure `String` functions, so this holds definitionally. -/
theorem generator_deterministic :
    (∀ u v : Unit, runGenerator u = runGenerator v) ∧
    (∀ (i j : String) (t s : TileData), i = j → t = s →
      generate_road_svg i t = generate_road_svg j s) ∧
    (∀ (i j : String) (c d : String), i = j → c = d →
      generate_marker_svg i c = generate_marker_svg j d) := by
  refine ⟨fun _ _ => rfl, ?_, ?_⟩
  · intro i j t s hij hts; rw [hij, hts]
  · intro i j c d hij hcd; rw [hij, hcd]

/-- Claim C10: for every road tile, the document decomposes so that the
tile's comment appears as an SVG comment immediately before the road group,
and inside the group the `outer_path` path element precedes the
`inner_path` path element. -/
theorem road_group_layout_order :
    ∀ (id : String) (t : TileData), generate_road_svg id t =
      SVG_HEADER id TILE_SIZE ++ "\n" ++ GRID_LINES ++ "\n" ++ "\n" ++
      "  <!-- " ++ t.comment ++ " -->\n  <g stroke=\"" ++ ROAD_STROKE ++
      "\" stroke-width=\"" ++ toString ROAD_STROKE_WIDTH ++
      "\" fill=\"none\">\n    <path d=\"" ++ t.outer_path ++
      "\"/>\n    <path d=\"" ++ t.inner_path ++ "\"/>\n  </g>" ++
      "\n" ++ "\n" ++ PORT_MARKERS ++ "\n" ++ SVG_FOOTER ++ "\n" := by
  intro id t
  apply String.ext
  simp [generate_road_svg, road_group, String.data_append, List.append_assoc]

set_option maxRecDepth 20000 in
/-- Claim C4: the two marker documents contain no port-marker circles (no
radius-1 circle element, nothing filled `#ff0000`), while the grid-lines
group is still present: `generate_marker_svg` keeps the same
header/grid/footer skeleton as road tiles and omits only the port dots. -/
theorem marker_tiles_omit_port_dots :
    countOcc "r=\"1\"/>" (generate_marker_svg "start" START_MARKER) = 0 ∧
    countOcc "r=\"1\"/>" (generate_marker_svg "goal" GOAL_MARKER) = 0 ∧
    countOcc "fill=\"#ff0000\"" (generate_marker_svg "start" START_MARKER) = 0 ∧
    countOcc "fill=\"#ff0000\"" (generate_marker_svg "goal" GOAL_MARKER) = 0 ∧
    (∀ id c : String, generate_marker_svg id c =
      SVG_HEADER id TILE_SIZE ++ "\n" ++ GRID_LINES ++ "\n" ++ "\n" ++
      c ++ "\n" ++ SVG_FOOTER ++ "\n") ∧
    (∀ (id : String) (t : TileData), generate_road_svg id t =
      SVG_HEADER id TILE_SIZE ++ "\n" ++ GRID_LINES ++ "\n" ++ "\n" ++
      (road_group t ++ "\n" ++ "\n" ++ PORT_MARKERS) ++ "\n" ++
      SVG_FOOTER ++ "\n") := by
  refine ⟨by decide, by decide, by decide, by decide, ?_, ?_⟩
  · intro id c
    apply String.ext
    simp [generate_marker_svg, String.data_append, List.append_assoc]
  · intro id t
    apply String.ext
    simp [generate_road_svg, String.data_append, List.append_assoc]

end TileGenerator

namespace TileGenerator

set_option maxRecDepth 20000 in
/-- Claim C5: the tile `sharp-12-12` stores outer path
`M 10 0 L 10 20 L 40 20` and inner path `M 20 0 L 20 10 L 40 10`, and its
rendered road group carries exactly those two `d` attributes, outer first. -/
theorem sharp_12_12_exact_paths :
    TILE_DEFINITIONS.lookup "sharp-12-12" =
      some ⟨"Sharp: Up(P12) -> Right(P12)",
            "M 10 0 L 10 20 L 40 20", "M 20 0 L 20 10 L 40 10"⟩ ∧
    road_group ⟨"Sharp: Up(P12) -> Right(P12)",
                "M 10 0 L 10 20 L 40 20", "M 20 0 L 20 10 L 40 10"⟩ =
      "  <!-- Sharp: Up(P12) -> Right(P12) -->\n  <g stroke=\"#000000\" stroke-width=\"1\" fill=\"none\">\n    <path d=\"M 10 0 L 10 20 L 40 20\"/>\n    <path d=\"M 20 0 L 20 10 L 40 10\"/>\n  </g>" ∧
    (∃ u v : String,
      generate_road_svg "sharp-12-12"
        ⟨"Sharp: Up(P12) -> Right(P12)",
         "M 10 0 L 10 20 L 40 20", "M 20 0 L 20 10 L 40 10"⟩ =
      u ++ road_group ⟨"Sharp: Up(P12) -> Right(P12)",
                       "M 10 0 L 10 20 L 40 20", "M 20 0 L 20 10 L 40 10"⟩
        ++ v) := by
  refine ⟨by decide, by decide, ?_⟩
  refine ⟨SVG_HEADER "sharp-12-12" TILE_SIZE ++ "\n" ++ GRID_LINES ++
    "\n" ++ "\n",
    "\n" ++ "\n" ++ PORT_MARKERS ++ "\n" ++ SVG_FOOTER ++ "\n" ++ "", ?_⟩
  apply String.ext
  simp [generate_road_svg, String.data_append, List.append_assoc]

set_option maxRecDepth 20000 in
/-- Claim C6: the tile `straight-v-12` stores outer path
`M 10 0 C 10 20, 20 20, 20 40` and inner path
`M 20 0 C 20 20, 30 20, 30 40`, and its rendered road group carries exactly
those two `d` attributes, outer first. -/
theorem straight_v_12_exact_paths :
    TILE_DEFINITIONS.lookup "straight-v-12" =
      some ⟨"Straight Vertical: Up(P12) -> Down(P23) (lane shift)",
            "M 10 0 C 10 20, 20 20, 20 40", "M 20 0 C 20 20, 30 20, 30 40"⟩ ∧
    road_group ⟨"Straight Vertical: Up(P12) -> Down(P23) (lane shift)",
                "M 10 0 C 10 20, 20 20, 20 40",
                "M 20 0 C 20 20, 30 20, 30 40"⟩ =
      "  <!-- Straight Vertical: Up(P12) -> Down(P23) (lane shift) -->\n  <g stroke=\"#000000\" stroke-width=\"1\" fill=\"none\">\n    <path d=\"M 10 0 C 10 20, 20 20, 20 40\"/>\n    <path d=\"M 20 0 C 20 20, 30 20, 30 40\"/>\n  </g>" ∧
    (∃ u v : String,
      generate_road_svg "straight-v-12"
        ⟨"Straight Vertical: Up(P12) -> Down(P23) (lane shift)",
         "M 10 0 C 10 20, 20 20, 20 40", "M 20 0 C 20 20, 30 20, 30 40"⟩ =
      u ++ road_group ⟨"Straight Vertical: Up(P12) -> Down(P23) (lane shift)",
                       "M 10 0 C 10 20, 20 20, 20 40",
                       "M 20 0 C 20 20, 30 20, 30 40"⟩ ++ v) := by
  refine ⟨by decide, by decide, ?_⟩
  refine ⟨SVG_HEADER "straight-v-12" TILE_SIZE ++ "\n" ++ GRID_LINES ++
    "\n" ++ "\n",
    "\n" ++ "\n" ++ PORT_MARKERS ++ "\n" ++ SVG_FOOTER ++ "\n" ++ "", ?_⟩
  apply String.ext
  simp [generate_road_svg, String.data_append, List.append_assoc]

set_option maxRecDepth 20000 in
/-- Claim C8: every written file's name ends in `.svg` and its document
text begins with the header whose root `id` attribute is the filename stem;
in the header the interpolated id sits exactly in `<svg id="..."`. -/
theorem svg_root_id_matches_stem :
    (mainOutputs.all fun p =>
      endsWithStr ".svg" p.1 &&
      startsWithStr (SVG_HEADER (stemOf p.1) TILE_SIZE) p.2) = true ∧
    (∀ s : String, ∃ v : String, SVG_HEADER s TILE_SIZE =
      "<?xml version=\"1.0\" encoding=\"UTF-8\"?>\n<svg id=\"" ++ (s ++ v)) := by
  refine ⟨by decide, ?_⟩
  intro s
  refine ⟨"\" xmlns=\"http://www.w3.org/2000/svg\" width=\"" ++
    toString TILE_SIZE ++ "\" height=\"" ++ toString TILE_SIZE ++
    "\" viewBox=\"0 0 " ++ toString TILE_SIZE ++ " " ++
    toString TILE_SIZE ++ "\">", ?_⟩
  apply String.ext
  simp [SVG_HEADER, String.data_append, List.append_assoc]

set_option maxRecDepth 100000 in
set_option maxHeartbeats 4000000 in
/-- Claim C9: every document returned by the two render functions ends with
the closing `</svg>` tag followed by exactly one newline (it ends in
`</svg>` + newline and not in two newlines), so each written file ends in a
single trailing newline. -/
theorem documents_end_single_newline :
    (mainOutputs.all fun p =>
      endsWithStr "</svg>\n" p.2 && !endsWithStr "\n\n" p.2) = true ∧
    SVG_FOOTER = "</svg>" ∧
    (∀ (id : String) (t : TileData), ∃ u : String,
      generate_road_svg id t = u ++ (SVG_FOOTER ++ "\n")) ∧
    (∀ id c : String, ∃ u : String,
      generate_marker_svg id c = u ++ (SVG_FOOTER ++ "\n")) := by
  refine ⟨?_, rfl, ?_, ?_⟩
  · apply List.all_eq_true.mpr
    intro x hx
    simp only [mainOutputs, TILE_DEFINITIONS, List.map_cons, List.map_nil,
      List.cons_append, List.nil_append, List.mem_cons, List.not_mem_nil,
      or_false] at hx
    rcases hx with rfl|rfl|rfl|rfl|rfl|rfl|rfl|rfl|rfl|rfl|rfl|rfl|rfl|rfl|rfl|rfl|rfl|rfl|rfl|rfl|rfl|rfl|rfl|rfl|rfl|rfl
    all_goals simp only [tailA_curve_12_12, tailB_curve_12_12, tailA_curve_12_23, tailB_curve_12_23, tailA_curve_23_12, tailB_curve_23_12, tailA_curve_23_23, tailB_curve_23_23, tailA_curve_ul_12_12, tailB_curve_ul_12_12, tailA_curve_ul_12_23, tailB_curve_ul_12_23, tailA_curve_ul_23_12, tailB_curve_ul_23_12, tailA_curve_ul_23_23, tailB_curve_ul_23_23, tailA_sharp_12_12, tailB_sharp_12_12, tailA_sharp_12_23, tailB_sharp_12_23, tailA_sharp_23_12, tailB_sharp_23_12, tailA_sharp_23_23, tailB_sharp_23_23, tailA_sharp_ul_12_12, tailB_sharp_ul_12_12, tailA_sharp_ul_12_23, tailB_sharp_ul_12_23, tailA_sharp_ul_23_12, tailB_sharp_ul_23_12, tailA_sharp_ul_23_23, tailB_sharp_ul_23_23, tailA_straight_v_11, tailB_straight_v_11, tailA_straight_v_22, tailB_straight_v_22, tailA_straight_v_12, tailB_straight_v_12, tailA_straight_v_21, tailB_straight_v_21, tailA_straight_h_44, tailB_straight_h_44, tailA_straight_h_88, tailB_straight_h_88, tailA_straight_h_48, tailB_straight_h_48, tailA_straight_h_84, tailB_straight_h_84, tailA_start, tailB_start, tailA_goal, tailB_goal]
    all_goals rfl
  · intro id t
    refine ⟨SVG_HEADER id TILE_SIZE ++ "\n" ++ GRID_LINES ++ "\n" ++ "\n" ++
      road_group t ++ "\n" ++ "\n" ++ PORT_MARKERS ++ "\n", ?_⟩
    apply String.ext
    simp [generate_road_svg, String.data_append, List.append_assoc]
  · intro id c
    refine ⟨SVG_HEADER id TILE_SIZE ++ "\n" ++ GRID_LINES ++ "\n" ++ "\n" ++
      c ++ "\n", ?_⟩
    apply String.ext
    simp [generate_marker_svg, String.data_append, List.append_assoc]

set_option maxRecDepth 20000 in
/-- Claim C2 counterexample: the grid-lines group holds 10 line elements,
not 11; in particular the `start` marker document does not contain 11
line elements. -/
theorem grid_lines_not_eleven :
    countOcc "<line" GRID_LINES = 10 ∧
    countOcc "<line" (generate_marker_svg "start" START_MARKER) ≠ 11 := by
  refine ⟨by decide, ?_⟩
  intro h
  have h10 : countOcc "<line" (generate_marker_svg "start" START_MARKER) = 10 := by decide
  rw [h10] at h
  exact absurd h (by decide)

end TileGenerator

namespace TileGenerator

set_option maxRecDepth 100000 in
set_option maxHeartbeats 8000000 in
/-- Claim C2 (amended): every generated document (road tile or marker)
contains exactly 10 line elements — 5 vertical and 5 horizontal, the
boundary lines being among them — all inside the grid-lines group, whose
stroke is `#cccccc` and stroke-width `0.5`. -/
theorem grid_lines_ten_per_document :
    (mainOutputs.all fun p => countOcc "<line" p.2 == 10) = true ∧
    (∀ (id : String) (t : TileData), ∃ u v : String,
      generate_road_svg id t = u ++ GRID_LINES ++ v) ∧
    (∀ id c : String, ∃ u v : String,
      generate_marker_svg id c = u ++ GRID_LINES ++ v) ∧
    (∃ w : String,
      GRID_LINES =
        "  <!-- Grid lines -->\n  <g stroke=\"" ++ GRID_STROKE ++
          "\" stroke-width=\"" ++ GRID_STROKE_WIDTH_STR ++
          "\" fill=\"none\">\n" ++ w ++ "  </g>" ∧
      countOcc "<line" w = 10 ∧ countOcc "<g" w = 0) ∧
    GRID_STROKE = "#cccccc" ∧ GRID_STROKE_WIDTH_STR = "0.5" := by
  refine ⟨?_, ?_, ?_, ?_, rfl, rfl⟩
  · apply List.all_eq_true.mpr
    intro x hx
    simp only [mainOutputs, TILE_DEFINITIONS, List.map_cons, List.map_nil,
      List.cons_append, List.nil_append, List.mem_cons, List.not_mem_nil,
      or_false] at hx
    rcases hx with rfl|rfl|rfl|rfl|rfl|rfl|rfl|rfl|rfl|rfl|rfl|rfl|rfl|rfl|rfl|rfl|rfl|rfl|rfl|rfl|rfl|rfl|rfl|rfl|rfl|rfl
    all_goals simp only [lineCnt_curve_12_12, lineCnt_curve_12_23, lineCnt_curve_23_12, lineCnt_curve_23_23, lineCnt_curve_ul_12_12, lineCnt_curve_ul_12_23, lineCnt_curve_ul_23_12, lineCnt_curve_ul_23_23, lineCnt_sharp_12_12, lineCnt_sharp_12_23, lineCnt_sharp_23_12, lineCnt_sharp_23_23, lineCnt_sharp_ul_12_12, lineCnt_sharp_ul_12_23, lineCnt_sharp_ul_23_12, lineCnt_sharp_ul_23_23, lineCnt_straight_v_11, lineCnt_straight_v_22, lineCnt_straight_v_12, lineCnt_straight_v_21, lineCnt_straight_h_44, lineCnt_straight_h_88, lineCnt_straight_h_48, lineCnt_straight_h_84, lineCnt_start, lineCnt_goal]
    all_goals rfl
  · intro id t
    refine ⟨SVG_HEADER id TILE_SIZE ++ "\n",
      "\n" ++ "" ++ "\n" ++ road_group t ++ "\n" ++ "" ++ "\n" ++
        PORT_MARKERS ++ "\n" ++ SVG_FOOTER ++ "\n" ++ "", ?_⟩
    apply String.ext
    simp [generate_road_svg, String.data_append, List.append_assoc]
  · intro id c
    refine ⟨SVG_HEADER id TILE_SIZE ++ "\n",
      "\n" ++ "" ++ "\n" ++ c ++ "\n" ++ SVG_FOOTER ++ "\n" ++ "", ?_⟩
    apply String.ext
    simp [generate_marker_svg, String.data_append, List.append_assoc]
  · refine ⟨"    <line x1=\"0\" y1=\"0\" x2=\"0\" y2=\"40\"/>\n" ++
      "    <line x1=\"10\" y1=\"0\" x2=\"10\" y2=\"40\"/>\n" ++
      "    <line x1=\"20\" y1=\"0\" x2=\"20\" y2=\"40\"/>\n" ++
      "    <line x1=\"30\" y1=\"0\" x2=\"30\" y2=\"40\"/>\n" ++
      "    <line x1=\"40\" y1=\"0\" x2=\"40\" y2=\"40\"/>\n" ++
      "    <line x1=\"0\" y1=\"0\" x2=\"40\" y2=\"0\"/>\n" ++
      "    <line x1=\"0\" y1=\"10\" x2=\"40\" y2=\"10\"/>\n" ++
      "    <line x1=\"0\" y1=\"20\" x2=\"40\" y2=\"20\"/>\n" ++
      "    <line x1=\"0\" y1=\"30\" x2=\"40\" y2=\"30\"/>\n" ++
      "    <line x1=\"0\" y1=\"40\" x2=\"40\" y2=\"40\"/>\n", ?_, ?_, ?_⟩
    · apply String.ext
      simp [GRID_LINES, String.data_append, List.append_assoc]
    · decide
    · decide

set_option maxRecDepth 100000 in
set_option maxHeartbeats 16000000 in
/-- Claim C3: each of the 24 road-tile documents contains exactly two path
elements (both inside the road group, stroke `#000000`, stroke-width 1,
fill none, outer path first) and exactly 12 circle port markers of radius
1 filled `#ff0000`, at the points where grid lines 10/20/30 meet the top,
right, bottom and left tile edges. -/
theorem road_tiles_two_paths_twelve_ports :
    (TILE_DEFINITIONS.all fun p =>
      countOcc "<path" (generate_road_svg p.1 p.2) == 2 &&
      countOcc "<circle" (generate_road_svg p.1 p.2) == 12) = true ∧
    (∀ (id : String) (t : TileData), ∃ u v : String,
      generate_road_svg id t = u ++ road_group t ++ v) ∧
    (∀ t : TileData, road_group t =
      "  <!-- " ++ t.comment ++ " -->\n  <g stroke=\"" ++ ROAD_STROKE ++
      "\" stroke-width=\"" ++ toString ROAD_STROKE_WIDTH ++
      "\" fill=\"none\">\n    <path d=\"" ++ t.outer_path ++
      "\"/>\n    <path d=\"" ++ t.inner_path ++ "\"/>\n  </g>") ∧
    ROAD_STROKE = "#000000" ∧ toString ROAD_STROKE_WIDTH = "1" ∧
    (∀ (id : String) (t : TileData), ∃ u v : String,
      generate_road_svg id t = u ++ PORT_MARKERS ++ v) ∧
    PORT_MARKERS =
      "  <!-- Port markers -->\n  <g fill=\"" ++ PORT_MARKER_COLOR ++
        "\">\n" ++
      String.intercalate "\n" (portCenters.map fun p => portCircle p.1 p.2) ++
      "\n  </g>" ∧
    PORT_MARKER_COLOR = "#ff0000" ∧
    (∀ c : Nat × Nat, portCircle c.1 c.2 =
      "    <circle cx=\"" ++ toString c.1 ++ "\" cy=\"" ++ toString c.2 ++
      "\" r=\"" ++ toString PORT_MARKER_RADIUS ++ "\"/>") ∧
    toString PORT_MARKER_RADIUS = "1" ∧
    countOcc "<circle" PORT_MARKERS = 12 ∧
    portCenters =
      ([10, 20, 30].map fun x => (x, (0 : Nat))) ++
      ([10, 20, 30].map fun y => ((40 : Nat), y)) ++
      ([10, 20, 30].map fun x => (x, (40 : Nat))) ++
      ([10, 20, 30].map fun y => ((0 : Nat), y)) := by
  refine ⟨?_, ?_, fun t => rfl, rfl, by decide, ?_, rfl, rfl,
    fun c => rfl, by decide, by decide, by decide⟩
  · apply List.all_eq_true.mpr
    intro x hx
    simp only [TILE_DEFINITIONS, List.mem_cons, List.not_mem_nil,
      or_false] at hx
    rcases hx with rfl|rfl|rfl|rfl|rfl|rfl|rfl|rfl|rfl|rfl|rfl|rfl|rfl|rfl|rfl|rfl|rfl|rfl|rfl|rfl|rfl|rfl|rfl|rfl
    all_goals simp only [pathCnt_curve_12_12, circCnt_curve_12_12, pathCnt_curve_12_23, circCnt_curve_12_23, pathCnt_curve_23_12, circCnt_curve_23_12, pathCnt_curve_23_23, circCnt_curve_23_23, pathCnt_curve_ul_12_12, circCnt_curve_ul_12_12, pathCnt_curve_ul_12_23, circCnt_curve_ul_12_23, pathCnt_curve_ul_23_12, circCnt_curve_ul_23_12, pathCnt_curve_ul_23_23, circCnt_curve_ul_23_23, pathCnt_sharp_12_12, circCnt_sharp_12_12, pathCnt_sharp_12_23, circCnt_sharp_12_23, pathCnt_sharp_23_12, circCnt_sharp_23_12, pathCnt_sharp_23_23, circCnt_sharp_23_23, pathCnt_sharp_ul_12_12, circCnt_sharp_ul_12_12, pathCnt_sharp_ul_12_23, circCnt_sharp_ul_12_23, pathCnt_sharp_ul_23_12, circCnt_sharp_ul_23_12, pathCnt_sharp_ul_23_23, circCnt_sharp_ul_23_23, pathCnt_straight_v_11, circCnt_straight_v_11, pathCnt_straight_v_22, circCnt_straight_v_22, pathCnt_straight_v_12, circCnt_straight_v_12, pathCnt_straight_v_21, circCnt_straight_v_21, pathCnt_straight_h_44, circCnt_straight_h_44, pathCnt_straight_h_88, circCnt_straight_h_88, pathCnt_straight_h_48, circCnt_straight_h_48, pathCnt_straight_h_84, circCnt_straight_h_84]
    all_goals rfl
  · intro id t
    refine ⟨SVG_HEADER id TILE_SIZE ++ "\n" ++ GRID_LINES ++ "\n" ++ "" ++
      "\n",
      "\n" ++ "" ++ "\n" ++ PORT_MARKERS ++ "\n" ++ SVG_FOOTER ++ "\n" ++
        "", ?_⟩
    apply String.ext
    simp [generate_road_svg, String.data_append, List.append_assoc]
  · intro id t
    refine ⟨SVG_HEADER id TILE_SIZE ++ "\n" ++ GRID_LINES ++ "\n" ++ "" ++
      "\n" ++ road_group t ++ "\n" ++ "" ++ "\n",
      "\n" ++ SVG_FOOTER ++ "\n" ++ "", ?_⟩
    apply String.ext
    simp [generate_road_svg, String.data_append, List.append_assoc]

end TileGenerator
